import Mathlib

/-!
# Verification of the Tic-Tac-Toe decision engine

Shallow embedding of the core of the repository: the rules engine
(`gameLogic`), the alpha-beta search (`alphaBeta`), the feature
extractors, the linear evaluators (`mlEval`), the model trainer
(`modelTrainer`) and the dataset loader normalization.

JavaScript numbers are modelled as follows: integral search scores as
`Int`, the `-Infinity` / `Infinity` sentinels threaded through the
search as the bottom/top elements of `WithBot (WithTop Int)`, and the
real-valued evaluator/trainer arithmetic as `Rat`.  `null` cells are
`Option.none`.
-/

namespace TTT

/-- A mark on the board: the JS strings `'X'` and `'O'`. -/
inductive Mark where
  | X : Mark
  | O : Mark
deriving DecidableEq, Repr

/-- A cell: `null` (empty) or a mark. -/
abbrev Cell := Option Mark

/-- A board: the JS array of 9 cells (the type does not fix the length;
theorems add it where needed). -/
abbrev Board := List Cell

/-- `createEmptyBoard` from `gameLogic.js`: `Array(9).fill(null)`. -/
def createEmptyBoard : Board := List.replicate 9 none

/-- `getOpponent` from `gameLogic.js`. -/
def getOpponent : Mark → Mark
  | Mark.X => Mark.O
  | Mark.O => Mark.X

/-- `getLegalMoves` from `gameLogic.js`:
`board.map((cell, index) => (cell === null ? index : null)).filter(v => v !== null)`.
The map-then-filter of the source is the `filterMap` of the indexed cells. -/
def getLegalMoves (board : Board) : List Nat :=
  (board.enum.map (fun ic => if ic.2 = none then some ic.1 else none)).filterMap id

/-- `makeMove` from `gameLogic.js`: copy the board and overwrite the cell.
The source performs no occupancy check. -/
def makeMove (board : Board) (position : Nat) (player : Mark) : Board :=
  board.set position (some player)

/-- The eight winning lines of `checkWinner` (3 rows, 3 columns, 2 diagonals),
in source order. -/
def winPatterns : List (Nat × Nat × Nat) :=
  [(0, 1, 2), (3, 4, 5), (6, 7, 8),
   (0, 3, 6), (1, 4, 7), (2, 5, 8),
   (0, 4, 8), (2, 4, 6)]

/-- The for-loop of `checkWinner`: return the first pattern whose three
cells hold the same non-null mark. -/
def checkWinnerAux (board : Board) : List (Nat × Nat × Nat) → Option (Mark × (Nat × Nat × Nat))
  | [] => none
  | p :: rest =>
    match board.getD p.1 none with
    | none => checkWinnerAux board rest
    | some m =>
      if board.getD p.2.1 none = some m ∧ board.getD p.2.2 none = some m then
        some (m, p)
      else
        checkWinnerAux board rest

/-- `checkWinner` from `gameLogic.js`. -/
def checkWinner (board : Board) : Option (Mark × (Nat × Nat × Nat)) :=
  checkWinnerAux board winPatterns

/-- `isBoardFull` from `gameLogic.js`: `board.every(cell => cell !== null)`. -/
def isBoardFull (board : Board) : Bool :=
  board.all (fun cell => cell ≠ none)

/-- The `winner` field of `isTerminal`: a mark, `'draw'`, or `null`. -/
inductive WinInfo where
  | mark : Mark → WinInfo
  | draw : WinInfo
deriving DecidableEq, Repr

/-- The record returned by `isTerminal`. -/
structure TerminalState where
  terminal : Bool
  winner : Option WinInfo
  line : Option (Nat × Nat × Nat)
deriving DecidableEq, Repr

/-- `isTerminal` from `gameLogic.js`. -/
def isTerminal (board : Board) : TerminalState :=
  match checkWinner board with
  | some wl => ⟨true, some (WinInfo.mark wl.1), some wl.2⟩
  | none =>
    if isBoardFull board then ⟨true, some WinInfo.draw, none⟩
    else ⟨false, none, none⟩

/-! ## Search scores

JS search scores live among JS numbers together with `±Infinity`;
we model them as integers extended with a bottom and a top element. -/

/-- Extended integers: finite scores plus the `-Infinity` / `Infinity`
sentinels of the search. -/
abbrev EInt := WithBot (WithTop Int)

/-- Embed a finite integer score. -/
def iv (z : Int) : EInt := ((z : WithTop Int) : EInt)

/-! ## Alpha-beta search (`alphaBeta.js`)

`alphaBetaSearch` recurses on boards produced by `makeMove`; we realise
the recursion structurally on a fuel argument (the recursion depth is
bounded by `maxDepth - depth`, see `alphaBetaSearch` below), keeping the
definition kernel-computable. -/

/-- The maximizing for-loop of `alphaBetaSearch`, with the beta cutoff
(`break`): `step move alpha` is the recursive call on the move's board. -/
def maxLoop (step : Nat → EInt → EInt) (beta : EInt) :
    List Nat → EInt → EInt → EInt
  | [], maxEval, _ => maxEval
  | move :: rest, maxEval, alpha =>
    let evaluation := step move alpha
    let maxEval2 := max maxEval evaluation
    let alpha2 := max alpha evaluation
    if beta ≤ alpha2 then maxEval2
    else maxLoop step beta rest maxEval2 alpha2

/-- The minimizing for-loop of `alphaBetaSearch`, with the alpha cutoff. -/
def minLoop (step : Nat → EInt → EInt) (alpha : EInt) :
    List Nat → EInt → EInt → EInt
  | [], minEval, _ => minEval
  | move :: rest, minEval, beta =>
    let evaluation := step move beta
    let minEval2 := min minEval evaluation
    let beta2 := min beta evaluation
    if beta2 ≤ alpha then minEval2
    else minLoop step alpha rest minEval2 beta2

/-- The body of `alphaBetaSearch`, structurally recursive on `fuel`.
With `maxDepth - depth ≤ fuel` the `fuel = 0` fallback in the recursive
branch is unreachable, and `abGo` agrees with the source function. -/
def abGo (evaluateFunction : Board → Mark → Int) (aiPlayer : Mark) (maxDepth : Nat) :
    Nat → Board → Nat → EInt → EInt → Bool → EInt
  | fuel, board, depth, alpha, beta, isMaximizing =>
    let terminalState := isTerminal board
    if terminalState.terminal then
      if terminalState.winner = some (WinInfo.mark aiPlayer) then iv (100 - depth)
      else if terminalState.winner = some (WinInfo.mark (getOpponent aiPlayer)) then
        iv (depth - 100)
      else iv 0
    else if maxDepth ≤ depth then
      iv (evaluateFunction board aiPlayer)
    else
      match fuel with
      | 0 => iv 0
      | Nat.succ fuel2 =>
        let legalMoves := getLegalMoves board
        if isMaximizing then
          maxLoop
            (fun move a =>
              abGo evaluateFunction aiPlayer maxDepth fuel2
                (makeMove board move aiPlayer) (depth + 1) a beta false)
            beta legalMoves ⊥ alpha
        else
          minLoop
            (fun move b =>
              abGo evaluateFunction aiPlayer maxDepth fuel2
                (makeMove board move (getOpponent aiPlayer)) (depth + 1) alpha b true)
            alpha legalMoves ⊤ beta

/-- `alphaBetaSearch` from `alphaBeta.js`. -/
def alphaBetaSearch (board : Board) (depth : Nat) (alpha beta : EInt)
    (isMaximizing : Bool) (aiPlayer : Mark)
    (evaluateFunction : Board → Mark → Int) (maxDepth : Nat) : EInt :=
  abGo evaluateFunction aiPlayer maxDepth (maxDepth - depth) board depth alpha beta isMaximizing

/-- The record returned by `findBestMove`. -/
structure SearchResult where
  bestMove : Option Nat
  bestValue : EInt
  moveEvaluations : List (Nat × EInt)
deriving DecidableEq, Repr

/-- `findBestMove` from `alphaBeta.js`. -/
def findBestMove (board : Board) (aiPlayer : Mark)
    (evaluateFunction : Board → Mark → Int) (maxDepth : Nat) : SearchResult :=
  (getLegalMoves board).foldl
    (fun st move =>
      let newBoard := makeMove board move aiPlayer
      let moveValue := alphaBetaSearch newBoard 0 ⊥ ⊤ false aiPlayer evaluateFunction maxDepth
      let evals := st.moveEvaluations ++ [(move, moveValue)]
      if st.bestValue < moveValue then ⟨some move, moveValue, evals⟩
      else ⟨st.bestMove, st.bestValue, evals⟩)
    ⟨none, ⊥, []⟩

/-- `getAllMoveEvaluations`-style root values are not needed separately;
the spec-side reference search: plain minimax without pruning, written
exactly as `abGo` with the alpha/beta bookkeeping and the cutoffs removed.
Modelled from the spec words for the refinement claim ("a plain minimax
search without pruning of the same board/depth/evaluator"). -/
def mmGo (evaluateFunction : Board → Mark → Int) (aiPlayer : Mark) (maxDepth : Nat) :
    Nat → Board → Nat → Bool → EInt
  | fuel, board, depth, isMaximizing =>
    let terminalState := isTerminal board
    if terminalState.terminal then
      if terminalState.winner = some (WinInfo.mark aiPlayer) then iv (100 - depth)
      else if terminalState.winner = some (WinInfo.mark (getOpponent aiPlayer)) then
        iv (depth - 100)
      else iv 0
    else if maxDepth ≤ depth then
      iv (evaluateFunction board aiPlayer)
    else
      match fuel with
      | 0 => iv 0
      | Nat.succ fuel2 =>
        let legalMoves := getLegalMoves board
        if isMaximizing then
          legalMoves.foldl
            (fun maxEval move =>
              max maxEval
                (mmGo evaluateFunction aiPlayer maxDepth fuel2
                  (makeMove board move aiPlayer) (depth + 1) false))
            ⊥
        else
          legalMoves.foldl
            (fun minEval move =>
              min minEval
                (mmGo evaluateFunction aiPlayer maxDepth fuel2
                  (makeMove board move (getOpponent aiPlayer)) (depth + 1) true))
            ⊤

/-- Plain minimax search without pruning (spec-side reference for the
refinement claim). -/
def minimax (board : Board) (depth : Nat) (isMaximizing : Bool) (aiPlayer : Mark)
    (evaluateFunction : Board → Mark → Int) (maxDepth : Nat) : EInt :=
  mmGo evaluateFunction aiPlayer maxDepth (maxDepth - depth) board depth isMaximizing

/-- `findBestMove` driven by the non-pruned minimax search instead of
`alphaBetaSearch` (spec-side reference for the refinement claim). -/
def findBestMoveMinimax (board : Board) (aiPlayer : Mark)
    (evaluateFunction : Board → Mark → Int) (maxDepth : Nat) : SearchResult :=
  (getLegalMoves board).foldl
    (fun st move =>
      let newBoard := makeMove board move aiPlayer
      let moveValue := minimax newBoard 0 false aiPlayer evaluateFunction maxDepth
      let evals := st.moveEvaluations ++ [(move, moveValue)]
      if st.bestValue < moveValue then ⟨some move, moveValue, evals⟩
      else ⟨st.bestMove, st.bestValue, evals⟩)
    ⟨none, ⊥, []⟩

/-- The root loop of `findBestMove` over an abstract root-value function
(proof device shared by the lemmas about `findBestMove`). -/
def bestFold (val : Nat → EInt) (l : List Nat) (st : SearchResult) : SearchResult :=
  l.foldl
    (fun st move =>
      let moveValue := val move
      let evals := st.moveEvaluations ++ [(move, moveValue)]
      if st.bestValue < moveValue then ⟨some move, moveValue, evals⟩
      else ⟨st.bestMove, st.bestValue, evals⟩)
    st

theorem findBestMove_eq_bestFold (board : Board) (aiPlayer : Mark)
    (f : Board → Mark → Int) (maxDepth : Nat) :
    findBestMove board aiPlayer f maxDepth =
      bestFold (fun m => alphaBetaSearch (makeMove board m aiPlayer) 0 ⊥ ⊤ false aiPlayer f maxDepth)
        (getLegalMoves board) ⟨none, ⊥, []⟩ := rfl

theorem findBestMoveMinimax_eq_bestFold (board : Board) (aiPlayer : Mark)
    (f : Board → Mark → Int) (maxDepth : Nat) :
    findBestMoveMinimax board aiPlayer f maxDepth =
      bestFold (fun m => minimax (makeMove board m aiPlayer) 0 false aiPlayer f maxDepth)
        (getLegalMoves board) ⟨none, ⊥, []⟩ := rfl

/-! ## Basic facts about scores, legal moves and boards -/

theorem iv_le_iv {a b : Int} : iv a ≤ iv b ↔ a ≤ b := by
  rw [iv, iv, WithBot.coe_le_coe, WithTop.coe_le_coe]

theorem iv_lt_iv {a b : Int} : iv a < iv b ↔ a < b := by
  rw [iv, iv, WithBot.coe_lt_coe, WithTop.coe_lt_coe]

theorem bot_lt_iv (z : Int) : (⊥ : EInt) < iv z := WithBot.bot_lt_coe _

theorem iv_lt_top (z : Int) : iv z < (⊤ : EInt) := by
  have h : ((⊤ : WithTop Int) : EInt) = (⊤ : EInt) := rfl
  rw [iv, ← h, WithBot.coe_lt_coe]
  exact WithTop.coe_lt_top z

theorem iv_ne_bot (z : Int) : iv z ≠ (⊥ : EInt) := (bot_lt_iv z).ne'

/-- Number of empty cells of a board. -/
def countEmpties (b : Board) : Nat := b.countP (fun c => c == none)

theorem mem_getLegalMoves {b : Board} {m : Nat} :
    m ∈ getLegalMoves b ↔ b.get? m = some none := by
  simp only [getLegalMoves, List.mem_filterMap, List.mem_map, id_eq]
  constructor
  · rintro ⟨o, ⟨⟨i, c⟩, hm, hf⟩, ho⟩
    subst ho
    by_cases hc : c = none
    · simp only [hc, if_pos rfl] at hf
      cases hf
      rw [List.get?_eq_getElem?, ← List.mk_mem_enum_iff_getElem?]
      simpa [hc] using hm
    · simp [hc] at hf
  · intro h
    refine ⟨some m, ⟨⟨m, none⟩, ?_, by simp⟩, rfl⟩
    rw [List.mk_mem_enum_iff_getElem?, ← List.get?_eq_getElem?]
    exact h

theorem getLegalMoves_aux_pairwise (f : Nat × Cell → Option Nat)
    (hf : ∀ p, ∀ m, f p = some m → m = p.1) :
    ∀ (b : Board) (n : Nat),
      (((List.enumFrom n b).map f).filterMap id).Pairwise (· < ·) ∧
      ∀ m ∈ ((List.enumFrom n b).map f).filterMap id, n ≤ m := by
  intro b
  induction b with
  | nil => intro n; simp
  | cons c rest ih =>
    intro n
    have htail := ih (n + 1)
    constructor
    · simp only [List.enumFrom_cons, List.map_cons, List.filterMap_cons]
      cases hfc : f (n, c) with
      | none => exact htail.1
      | some m =>
        have hm : m = n := hf _ _ hfc
        subst hm
        refine List.Pairwise.cons ?_ htail.1
        intro b hb
        exact lt_of_lt_of_le (Nat.lt_succ_self m) (htail.2 b hb)
    · intro m hm
      simp only [List.enumFrom_cons, List.map_cons, List.filterMap_cons] at hm
      cases hfc : f (n, c) with
      | none =>
        rw [hfc] at hm
        exact le_trans (Nat.le_succ n) (htail.2 m hm)
      | some k =>
        rw [hfc] at hm
        rcases List.mem_cons.mp hm with h | h
        · subst h
          exact le_of_eq (hf _ _ hfc).symm
        · exact le_trans (Nat.le_succ n) (htail.2 m h)

theorem getLegalMoves_pairwise (b : Board) :
    (getLegalMoves b).Pairwise (· < ·) := by
  have h := getLegalMoves_aux_pairwise
    (fun ic => if ic.2 = none then some ic.1 else none)
    (by
      rintro ⟨i, c⟩ m hm
      by_cases hc : c = none
      · simp [hc] at hm; omega
      · simp [hc] at hm)
    b 0
  simpa [getLegalMoves, List.enum] using h.1

theorem getLegalMoves_nodup (b : Board) : (getLegalMoves b).Nodup :=
  (getLegalMoves_pairwise b).imp (fun h => ne_of_lt h)

theorem getLegalMoves_lt_length {b : Board} {m : Nat} (h : m ∈ getLegalMoves b) :
    m < b.length := by
  rw [mem_getLegalMoves] at h
  exact List.get?_eq_some.mp h |>.choose

/-- A non-full board has a legal move. -/
theorem getLegalMoves_ne_nil_of_not_full {b : Board} (h : isBoardFull b = false) :
    getLegalMoves b ≠ [] := by
  have : ∃ c ∈ b, c = none := by
    by_contra hall
    push_neg at hall
    have : isBoardFull b = true := by
      simp only [isBoardFull, List.all_eq_true]
      intro c hc
      simpa using hall c hc
    rw [this] at h; cases h
  rcases this with ⟨c, hc, rfl⟩
  rcases List.get_of_mem hc with ⟨⟨i, hi⟩, hget⟩
  have hmem : i ∈ getLegalMoves b := by
    rw [mem_getLegalMoves, List.get?_eq_get hi, hget]
  intro hnil
  rw [hnil] at hmem
  cases hmem

theorem isTerminal_false_not_full {b : Board} (h : (isTerminal b).terminal = false) :
    isBoardFull b = false := by
  unfold isTerminal at h
  cases hw : checkWinner b with
  | some wl => rw [hw] at h; simp at h
  | none =>
    rw [hw] at h
    by_cases hf : isBoardFull b
    · rw [if_pos hf] at h; simp at h
    · simpa using hf

theorem makeMove_length (b : Board) (m : Nat) (p : Mark) :
    (makeMove b m p).length = b.length := by
  simp [makeMove]

theorem makeMove_get?_ne (b : Board) (m : Nat) (p : Mark) {j : Nat} (h : j ≠ m) :
    (makeMove b m p).get? j = b.get? j := by
  simp only [makeMove, List.get?_eq_getElem?]
  rw [List.getElem?_set_ne (Ne.symm h)]

theorem makeMove_get?_eq {b : Board} {m : Nat} (p : Mark) (h : m < b.length) :
    (makeMove b m p).get? m = some (some p) := by
  simp only [makeMove, List.get?_eq_getElem?]
  rw [List.getElem?_set_self' ]
  simp [List.getElem?_eq_getElem h]

/-- Filling a legal (empty) cell decreases the number of empties by one. -/
theorem countEmpties_makeMove {b : Board} {m : Nat} (p : Mark)
    (h : b.get? m = some none) :
    countEmpties b = countEmpties (makeMove b m p) + 1 := by
  induction b generalizing m with
  | nil => simp at h
  | cons c rest ih =>
    cases m with
    | zero =>
      simp only [List.get?] at h
      cases h
      simp [countEmpties, makeMove, List.countP_cons]
    | succ k =>
      simp only [List.get?] at h
      have := ih h
      simp only [countEmpties, makeMove, List.set_cons_succ, List.countP_cons] at *
      omega

theorem countEmpties_le_length (b : Board) : countEmpties b ≤ b.length :=
  List.countP_le_length _

/-! ## Alpha-beta equals minimax (Knuth-Moore style fail-soft bounds) -/

/-- The fail-soft relation between an alpha-beta result `r` and the
corresponding minimax value `v` for a window `(a, b)`:
fail low returns an upper bound, fail high a lower bound, and inside
the window the exact value. -/
def abmm (r v a b : EInt) : Prop :=
  (r ≤ a → v ≤ r) ∧ (b ≤ r → r ≤ v) ∧ (a < r → r < b → r = v)

theorem abmm_refl (r a b : EInt) : abmm r r a b :=
  ⟨fun _ => le_refl r, fun _ => le_refl r, fun _ _ => rfl⟩

theorem abmm_eq_of_bot_top {r v : EInt} (h : abmm r v ⊥ ⊤) : r = v := by
  rcases le_or_lt r ⊥ with hr | hr
  · have hrb : r = ⊥ := le_bot_iff.mp hr
    have hv : v ≤ r := h.1 hr
    rw [hrb] at hv ⊢
    exact (le_bot_iff.mp hv).symm
  · rcases le_or_lt (⊤ : EInt) r with hr2 | hr2
    · have hrt : r = ⊤ := top_le_iff.mp hr2
      have hv : r ≤ v := h.2.1 hr2
      rw [hrt] at hv ⊢
      exact (top_le_iff.mp hv).symm
    · exact h.2.2 hr hr2

theorem foldl_max_init_le (v : Nat → EInt) :
    ∀ (l : List Nat) (a : EInt), a ≤ l.foldl (fun acc m => max acc (v m)) a := by
  intro l
  induction l with
  | nil => intro a; simp
  | cons m rest ih =>
    intro a
    exact le_trans (le_max_left a (v m)) (ih (max a (v m)))

theorem le_foldl_max_of_mem (v : Nat → EInt) :
    ∀ (l : List Nat) (a : EInt) (m : Nat), m ∈ l →
      v m ≤ l.foldl (fun acc m => max acc (v m)) a := by
  intro l
  induction l with
  | nil => intro a m hm; cases hm
  | cons k rest ih =>
    intro a m hm
    rcases List.mem_cons.mp hm with h | h
    · subst h
      exact le_trans (le_max_right a (v m)) (foldl_max_init_le v rest _)
    · exact ih _ m h

theorem foldl_max_le (v : Nat → EInt) :
    ∀ (l : List Nat) (a c : EInt), a ≤ c → (∀ m ∈ l, v m ≤ c) →
      l.foldl (fun acc m => max acc (v m)) a ≤ c := by
  intro l
  induction l with
  | nil => intro a c ha _; simpa using ha
  | cons k rest ih =>
    intro a c ha hall
    exact ih _ c (max_le ha (hall k (List.mem_cons_self _ _)))
      (fun m hm => hall m (List.mem_cons_of_mem k hm))

theorem foldl_min_le_init (v : Nat → EInt) :
    ∀ (l : List Nat) (a : EInt), l.foldl (fun acc m => min acc (v m)) a ≤ a := by
  intro l
  induction l with
  | nil => intro a; simp
  | cons m rest ih =>
    intro a
    exact le_trans (ih (min a (v m))) (min_le_left a (v m))

theorem foldl_min_le_of_mem (v : Nat → EInt) :
    ∀ (l : List Nat) (a : EInt) (m : Nat), m ∈ l →
      l.foldl (fun acc m => min acc (v m)) a ≤ v m := by
  intro l
  induction l with
  | nil => intro a m hm; cases hm
  | cons k rest ih =>
    intro a m hm
    rcases List.mem_cons.mp hm with h | h
    · subst h
      exact le_trans (foldl_min_le_init v rest _) (min_le_right a (v m))
    · exact ih _ m h

theorem le_foldl_min (v : Nat → EInt) :
    ∀ (l : List Nat) (a c : EInt), c ≤ a → (∀ m ∈ l, c ≤ v m) →
      c ≤ l.foldl (fun acc m => min acc (v m)) a := by
  intro l
  induction l with
  | nil => intro a c ha _; simpa using ha
  | cons k rest ih =>
    intro a c ha hall
    exact ih _ c (le_min ha (hall k (List.mem_cons_self _ _)))
      (fun m hm => hall m (List.mem_cons_of_mem k hm))

theorem maxLoop_spec (v : Nat → EInt) (step : Nat → EInt → EInt) (β : EInt) :
    ∀ (l : List Nat) (α me vt : EInt),
      (∀ m ∈ l, ∀ a, a < β → abmm (step m a) (v m) a β) →
      max α me < β → vt ≤ me → me ≤ max α vt →
      abmm (maxLoop step β l me (max α me))
        (l.foldl (fun acc m => max acc (v m)) vt) α β := by
  intro l
  induction l with
  | nil =>
    intro α me vt _ hab h1 h2
    simp only [maxLoop, List.foldl_nil]
    refine ⟨fun _ => h1, fun hβ => ?_, fun hα _ => ?_⟩
    · exact absurd (lt_of_le_of_lt (le_trans hβ (le_max_right α me)) hab) (lt_irrefl β)
    · refine le_antisymm ?_ h1
      rcases le_max_iff.mp h2 with h | h
      · exact absurd (lt_of_le_of_lt h hα) (lt_irrefl _)
      · exact h
  | cons m rest ih =>
    intro α me vt hstep hab h1 h2
    have he : abmm (step m (max α me)) (v m) (max α me) β :=
      hstep m (List.mem_cons_self _ _) (max α me) hab
    set e := step m (max α me) with hedef
    simp only [maxLoop, List.foldl_cons]
    set me2 := max me e with hme2
    set vt2 := max vt (v m) with hvt2
    have hassoc : max (max α me) e = max α me2 := max_assoc α me e
    by_cases hcut : β ≤ max (max α me) e
    · rw [if_pos hcut]
      -- beta cutoff: the step value failed high
      have hβe : β ≤ e := by
        rcases le_max_iff.mp hcut with h | h
        · exact absurd (lt_of_le_of_lt h hab) (lt_irrefl β)
        · exact h
      have hev : e ≤ v m := he.2.1 hβe
      have hvmV : v m ≤ rest.foldl (fun acc m => max acc (v m)) vt2 :=
        le_trans (le_max_right vt (v m)) (foldl_max_init_le v rest vt2)
      have hmeV : me ≤ rest.foldl (fun acc m => max acc (v m)) vt2 := by
        rcases le_max_iff.mp h2 with h | h
        · exact le_trans (le_of_lt (lt_of_le_of_lt (le_trans h (le_max_left α me))
            (lt_of_lt_of_le hab hβe))) (le_trans hev hvmV)
        · exact le_trans h (le_trans (le_max_left vt (v m)) (foldl_max_init_le v rest vt2))
      have hr : β ≤ me2 := le_trans hβe (le_max_right me e)
      refine ⟨fun hle => ?_, fun _ => ?_, fun _ hlt => ?_⟩
      · exact absurd (lt_of_le_of_lt hle (lt_of_lt_of_le (lt_of_le_of_lt (le_max_left α me) hab) hr))
          (lt_irrefl me2)
      · exact max_le hmeV (le_trans hev hvmV)
      · exact absurd (lt_of_le_of_lt hr hlt) (lt_irrefl β)
    · rw [if_neg hcut]
      have ha2 : max (max α me) e < β := lt_of_not_le hcut
      have heβ : e < β := lt_of_le_of_lt (le_max_right (max α me) e) ha2
      have hev : v m ≤ e := by
        rcases le_or_lt e (max α me) with hlo | hhi
        · exact he.1 hlo
        · exact le_of_eq (he.2.2 hhi heβ).symm
      have h1n : vt2 ≤ me2 := max_le_max h1 hev
      have h2n : me2 ≤ max α vt2 := by
        refine max_le (le_trans h2 (max_le_max (le_refl α) (le_max_left vt (v m)))) ?_
        rcases le_or_lt e (max α me) with hlo | hhi
        · refine le_trans hlo (max_le (le_max_left α vt2) (le_trans h2 ?_))
          exact max_le (le_max_left α vt2)
            (le_trans (le_max_left vt (v m)) (le_max_right α vt2))
        · rw [he.2.2 hhi heβ]
          exact le_trans (le_max_right vt (v m)) (le_max_right α vt2)
      have habn : max α me2 < β := by rw [← hassoc]; exact ha2
      have := ih α me2 vt2
        (fun m' hm' => hstep m' (List.mem_cons_of_mem m hm')) habn h1n h2n
      rw [← hassoc] at this
      exact this

theorem minLoop_spec (v : Nat → EInt) (step : Nat → EInt → EInt) (α : EInt) :
    ∀ (l : List Nat) (β me vt : EInt),
      (∀ m ∈ l, ∀ b, α < b → abmm (step m b) (v m) α b) →
      α < min β me → me ≤ vt → min β vt ≤ me →
      abmm (minLoop step α l me (min β me))
        (l.foldl (fun acc m => min acc (v m)) vt) α β := by
  intro l
  induction l with
  | nil =>
    intro β me vt _ hab h1 h2
    simp only [minLoop, List.foldl_nil]
    refine ⟨fun hα => ?_, fun _ => h1, fun _ hβ => ?_⟩
    · exact absurd (lt_of_lt_of_le hab (le_trans (min_le_right β me) hα)) (lt_irrefl α)
    · refine le_antisymm h1 ?_
      rcases min_le_iff.mp h2 with h | h
      · exact absurd (lt_of_lt_of_le hβ h) (lt_irrefl me)
      · exact h
  | cons m rest ih =>
    intro β me vt hstep hab h1 h2
    have he : abmm (step m (min β me)) (v m) α (min β me) :=
      hstep m (List.mem_cons_self _ _) (min β me) hab
    set e := step m (min β me) with hedef
    simp only [minLoop, List.foldl_cons]
    set me2 := min me e with hme2
    set vt2 := min vt (v m) with hvt2
    have hassoc : min (min β me) e = min β me2 := min_assoc β me e
    by_cases hcut : min (min β me) e ≤ α
    · rw [if_pos hcut]
      -- alpha cutoff: the step value failed low
      have hαe : e ≤ α := by
        rcases min_le_iff.mp hcut with h | h
        · exact absurd (lt_of_lt_of_le hab h) (lt_irrefl α)
        · exact h
      have hev : v m ≤ e := he.1 hαe
      have hVvm : rest.foldl (fun acc m => min acc (v m)) vt2 ≤ v m :=
        le_trans (foldl_min_le_init v rest vt2) (min_le_right vt (v m))
      have hVme : rest.foldl (fun acc m => min acc (v m)) vt2 ≤ me := by
        rcases min_le_iff.mp h2 with h | h
        · exact le_trans (le_trans hVvm hev) (le_trans (le_of_lt (lt_of_le_of_lt hαe hab))
            (le_trans (min_le_left β me) h))
        · exact le_trans (le_trans (foldl_min_le_init v rest vt2) (min_le_left vt (v m))) h
      have hr : me2 ≤ α := le_trans (min_le_right me e) hαe
      refine ⟨fun _ => ?_, fun hge => ?_, fun hlt _ => ?_⟩
      · exact le_min hVme (le_trans hVvm hev)
      · exact absurd (lt_of_le_of_lt (le_trans hge hr) (lt_of_lt_of_le hab (min_le_left β me)))
          (lt_irrefl β)
      · exact absurd (lt_of_lt_of_le hlt hr) (lt_irrefl α)
    · rw [if_neg hcut]
      have ha2 : α < min (min β me) e := lt_of_not_le hcut
      have hαe : α < e := lt_of_lt_of_le ha2 (min_le_right (min β me) e)
      have hev : e ≤ v m := by
        rcases le_or_lt (min β me) e with hhi | hlo
        · exact he.2.1 hhi
        · exact le_of_eq (he.2.2 hαe hlo)
      have h1n : me2 ≤ vt2 := min_le_min h1 hev
      have h2n : min β vt2 ≤ me2 := by
        refine le_min (le_trans (min_le_min (le_refl β) (min_le_left vt (v m))) h2) ?_
        rcases le_or_lt (min β me) e with hhi | hlo
        · exact le_trans (le_trans (min_le_min (le_refl β) (min_le_left vt (v m)))
            (le_min (min_le_left β vt) h2)) hhi
        · exact le_trans (min_le_right β vt2)
            (le_trans (min_le_right vt (v m)) (le_of_eq (he.2.2 hαe hlo).symm))
      have habn : α < min β me2 := by rw [← hassoc]; exact ha2
      have := ih β me2 vt2
        (fun m' hm' => hstep m' (List.mem_cons_of_mem m hm')) habn h1n h2n
      rw [← hassoc] at this
      exact this

theorem abGo_zero_eq_mmGo (f : Board → Mark → Int) (ai : Mark) (md : Nat)
    (b : Board) (d : Nat) (α β : EInt) (mx : Bool) :
    abGo f ai md 0 b d α β mx = mmGo f ai md 0 b d mx := rfl

theorem abGo_terminal (f : Board → Mark → Int) (ai : Mark) (md fuel : Nat)
    (b : Board) (d : Nat) (α β : EInt) (mx : Bool)
    (h : (isTerminal b).terminal = true) :
    abGo f ai md fuel b d α β mx =
      (if (isTerminal b).winner = some (WinInfo.mark ai) then iv (100 - d)
       else if (isTerminal b).winner = some (WinInfo.mark (getOpponent ai)) then iv (d - 100)
       else iv 0) := by
  cases fuel <;> simp [abGo, h]

theorem mmGo_terminal (f : Board → Mark → Int) (ai : Mark) (md fuel : Nat)
    (b : Board) (d : Nat) (mx : Bool)
    (h : (isTerminal b).terminal = true) :
    mmGo f ai md fuel b d mx =
      (if (isTerminal b).winner = some (WinInfo.mark ai) then iv (100 - d)
       else if (isTerminal b).winner = some (WinInfo.mark (getOpponent ai)) then iv (d - 100)
       else iv 0) := by
  cases fuel <;> simp [mmGo, h]

theorem abGo_eval (f : Board → Mark → Int) (ai : Mark) (md fuel : Nat)
    (b : Board) (d : Nat) (α β : EInt) (mx : Bool)
    (h : (isTerminal b).terminal = false) (hd : md ≤ d) :
    abGo f ai md fuel b d α β mx = iv (f b ai) := by
  cases fuel <;> simp [abGo, h, hd]

theorem mmGo_eval (f : Board → Mark → Int) (ai : Mark) (md fuel : Nat)
    (b : Board) (d : Nat) (mx : Bool)
    (h : (isTerminal b).terminal = false) (hd : md ≤ d) :
    mmGo f ai md fuel b d mx = iv (f b ai) := by
  cases fuel <;> simp [mmGo, h, hd]

theorem abGo_succ_max (f : Board → Mark → Int) (ai : Mark) (md f2 : Nat)
    (b : Board) (d : Nat) (α β : EInt)
    (h : (isTerminal b).terminal = false) (hd : ¬ md ≤ d) :
    abGo f ai md (Nat.succ f2) b d α β true =
      maxLoop (fun move a => abGo f ai md f2 (makeMove b move ai) (d + 1) a β false)
        β (getLegalMoves b) ⊥ α := by
  simp [abGo, h, hd]

theorem abGo_succ_min (f : Board → Mark → Int) (ai : Mark) (md f2 : Nat)
    (b : Board) (d : Nat) (α β : EInt)
    (h : (isTerminal b).terminal = false) (hd : ¬ md ≤ d) :
    abGo f ai md (Nat.succ f2) b d α β false =
      minLoop (fun move bb => abGo f ai md f2 (makeMove b move (getOpponent ai)) (d + 1) α bb true)
        α (getLegalMoves b) ⊤ β := by
  simp [abGo, h, hd]

theorem mmGo_succ_max (f : Board → Mark → Int) (ai : Mark) (md f2 : Nat)
    (b : Board) (d : Nat)
    (h : (isTerminal b).terminal = false) (hd : ¬ md ≤ d) :
    mmGo f ai md (Nat.succ f2) b d true =
      (getLegalMoves b).foldl
        (fun maxEval move =>
          max maxEval (mmGo f ai md f2 (makeMove b move ai) (d + 1) false)) ⊥ := by
  simp [mmGo, h, hd]

theorem mmGo_succ_min (f : Board → Mark → Int) (ai : Mark) (md f2 : Nat)
    (b : Board) (d : Nat)
    (h : (isTerminal b).terminal = false) (hd : ¬ md ≤ d) :
    mmGo f ai md (Nat.succ f2) b d false =
      (getLegalMoves b).foldl
        (fun minEval move =>
          min minEval (mmGo f ai md f2 (makeMove b move (getOpponent ai)) (d + 1) true)) ⊤ := by
  simp [mmGo, h, hd]

/-- Knuth-Moore style correctness of the pruned search: for any window
`α < β` the alpha-beta result and the minimax value stand in the
fail-soft relation `abmm`. -/
theorem abGo_mmGo_abmm (f : Board → Mark → Int) (ai : Mark) (md : Nat) :
    ∀ (fuel : Nat) (b : Board) (d : Nat) (α β : EInt) (mx : Bool),
      md - d ≤ fuel → α < β →
      abmm (abGo f ai md fuel b d α β mx) (mmGo f ai md fuel b d mx) α β := by
  intro fuel
  induction fuel with
  | zero =>
    intro b d α β mx _ _
    rw [abGo_zero_eq_mmGo]
    exact abmm_refl _ _ _
  | succ f2 ih =>
    intro b d α β mx hfuel hab
    by_cases hterm : (isTerminal b).terminal = true
    · rw [abGo_terminal f ai md _ b d α β mx hterm, ← mmGo_terminal f ai md _ b d mx hterm]
      exact abmm_refl _ _ _
    · replace hterm : (isTerminal b).terminal = false := by
        simpa using hterm
      by_cases hd : md ≤ d
      · rw [abGo_eval f ai md _ b d α β mx hterm hd, ← mmGo_eval f ai md _ b d mx hterm hd]
        exact abmm_refl _ _ _
      · have hd2 : md - (d + 1) ≤ f2 := by omega
        cases mx with
        | true =>
          rw [abGo_succ_max f ai md f2 b d α β hterm hd,
            mmGo_succ_max f ai md f2 b d hterm hd]
          have hα : α = max α (⊥ : EInt) := (max_eq_left bot_le).symm
          have := maxLoop_spec
            (fun move => mmGo f ai md f2 (makeMove b move ai) (d + 1) false)
            (fun move a => abGo f ai md f2 (makeMove b move ai) (d + 1) a β false)
            β (getLegalMoves b) α ⊥ ⊥
            (fun m _ a ha => ih (makeMove b m ai) (d + 1) a β false hd2 ha)
            (by rw [← hα]; exact hab) (le_refl ⊥) bot_le
          rw [← hα] at this
          exact this
        | false =>
          rw [abGo_succ_min f ai md f2 b d α β hterm hd,
            mmGo_succ_min f ai md f2 b d hterm hd]
          have hβ : β = min β (⊤ : EInt) := (min_eq_left le_top).symm
          have := minLoop_spec
            (fun move => mmGo f ai md f2 (makeMove b move (getOpponent ai)) (d + 1) true)
            (fun move bb => abGo f ai md f2 (makeMove b move (getOpponent ai)) (d + 1) α bb true)
            α (getLegalMoves b) β ⊤ ⊤
            (fun m _ bb hb => ih (makeMove b m (getOpponent ai)) (d + 1) α bb true hd2 hb)
            (by rw [← hβ]; exact hab) (le_refl ⊤) (by rw [← hβ]; exact le_top)
          rw [← hβ] at this
          exact this

/-- With the full window the pruned search computes exactly the minimax
value. -/
theorem alphaBetaSearch_eq_minimax (b : Board) (d : Nat) (mx : Bool) (ai : Mark)
    (f : Board → Mark → Int) (md : Nat) :
    alphaBetaSearch b d ⊥ ⊤ mx ai f md = minimax b d mx ai f md :=
  abmm_eq_of_bot_top (abGo_mmGo_abmm f ai md (md - d) b d ⊥ ⊤ mx (le_refl _) bot_lt_top)

theorem bestFold_congr {v w : Nat → EInt} :
    ∀ (l : List Nat), (∀ m ∈ l, v m = w m) → ∀ (st : SearchResult),
      bestFold v l st = bestFold w l st := by
  intro l
  induction l with
  | nil => intro _ st; rfl
  | cons m rest ih =>
    intro h st
    simp only [bestFold, List.foldl_cons]
    rw [show v m = w m from h m (List.mem_cons_self _ _)]
    exact ih (fun m' hm' => h m' (List.mem_cons_of_mem m hm')) _

/-- `findBestMove` agrees with its minimax-driven counterpart. -/
theorem findBestMove_eq_minimax_version (board : Board) (ai : Mark)
    (f : Board → Mark → Int) (md : Nat) :
    findBestMove board ai f md = findBestMoveMinimax board ai f md := by
  rw [findBestMove_eq_bestFold, findBestMoveMinimax_eq_bestFold]
  exact bestFold_congr _
    (fun m _ => alphaBetaSearch_eq_minimax (makeMove board m ai) 0 false ai f md) _

/-! ## The root loop of `findBestMove`: tie-breaking and move order -/

theorem bestFold_cons (v : Nat → EInt) (m : Nat) (rest : List Nat) (st : SearchResult) :
    bestFold v (m :: rest) st =
      bestFold v rest
        (if st.bestValue < v m then ⟨some m, v m, st.moveEvaluations ++ [(m, v m)]⟩
         else ⟨st.bestMove, st.bestValue, st.moveEvaluations ++ [(m, v m)]⟩) := by
  simp only [bestFold, List.foldl_cons]

theorem bestFold_moveEvaluations (v : Nat → EInt) :
    ∀ (l : List Nat) (st : SearchResult),
      (bestFold v l st).moveEvaluations =
        st.moveEvaluations ++ l.map (fun m => (m, v m)) := by
  intro l
  induction l with
  | nil => intro st; simp [bestFold]
  | cons m rest ih =>
    intro st
    rw [bestFold_cons, List.map_cons]
    by_cases h : st.bestValue < v m
    · rw [if_pos h, ih]
      simp
    · rw [if_neg h, ih]
      simp

theorem bestFold_bestValue (v : Nat → EInt) :
    ∀ (l : List Nat) (st : SearchResult),
      (bestFold v l st).bestValue =
        l.foldl (fun a m => max a (v m)) st.bestValue := by
  intro l
  induction l with
  | nil => intro st; simp [bestFold]
  | cons m rest ih =>
    intro st
    simp only [bestFold, List.foldl_cons]
    by_cases h : st.bestValue < v m
    · rw [if_pos h]
      have := ih ⟨some m, v m, st.moveEvaluations ++ [(m, v m)]⟩
      simp only [bestFold] at this
      rw [this, max_eq_right (le_of_lt h)]
    · rw [if_neg h]
      have := ih ⟨st.bestMove, st.bestValue, st.moveEvaluations ++ [(m, v m)]⟩
      simp only [bestFold] at this
      rw [this, max_eq_left (not_lt.mp h)]

theorem bestFold_no_update (v : Nat → EInt) :
    ∀ (l : List Nat) (st : SearchResult), (∀ m ∈ l, v m ≤ st.bestValue) →
      (bestFold v l st).bestMove = st.bestMove ∧
      (bestFold v l st).bestValue = st.bestValue := by
  intro l
  induction l with
  | nil => intro st _; exact ⟨rfl, rfl⟩
  | cons m rest ih =>
    intro st h
    simp only [bestFold, List.foldl_cons]
    rw [if_neg (not_lt.mpr (h m (List.mem_cons_self _ _)))]
    have := ih ⟨st.bestMove, st.bestValue, st.moveEvaluations ++ [(m, v m)]⟩
      (fun m' hm' => h m' (List.mem_cons_of_mem m hm'))
    simp only [bestFold] at this
    exact this

/-- When some root value strictly improves on the incoming best value,
the returned best move is the first move attaining the final maximum. -/
theorem bestFold_first_argmax (v : Nat → EInt) :
    ∀ (l : List Nat) (st : SearchResult),
      st.bestValue < l.foldl (fun a m => max a (v m)) st.bestValue →
      (bestFold v l st).bestMove =
        l.find? (fun m => v m == l.foldl (fun a m => max a (v m)) st.bestValue) := by
  intro l
  induction l with
  | nil =>
    intro st h
    simp only [List.foldl_nil] at h
    exact absurd h (lt_irrefl _)
  | cons m rest ih =>
    intro st h
    rw [bestFold_cons, List.find?_cons]
    simp only [List.foldl_cons] at h ⊢
    by_cases hup : st.bestValue < v m
    · rw [max_eq_right (le_of_lt hup)] at h ⊢
      rw [if_pos hup]
      by_cases h2 : v m < rest.foldl (fun a m => max a (v m)) (v m)
      · have hne : (v m == rest.foldl (fun a m => max a (v m)) (v m)) = false :=
          beq_eq_false_iff_ne.mpr (ne_of_lt h2)
        rw [hne]
        exact ih ⟨some m, v m, st.moveEvaluations ++ [(m, v m)]⟩ h2
      · have hVm : rest.foldl (fun a m => max a (v m)) (v m) = v m :=
          le_antisymm (not_lt.mp h2) (foldl_max_init_le _ rest (v m))
        have heq : (v m == rest.foldl (fun a m => max a (v m)) (v m)) = true := by
          rw [hVm, beq_self_eq_true]
        rw [heq]
        have := bestFold_no_update v rest ⟨some m, v m, st.moveEvaluations ++ [(m, v m)]⟩
          (fun m' hm' => hVm ▸ le_foldl_max_of_mem _ rest (v m) m' hm')
        exact this.1
    · rw [max_eq_left (not_lt.mp hup)] at h ⊢
      rw [if_neg hup]
      have hne : (v m == rest.foldl (fun a m => max a (v m)) st.bestValue) = false :=
        beq_eq_false_iff_ne.mpr (ne_of_lt (lt_of_le_of_lt (not_lt.mp hup) h))
      rw [hne]
      exact ih ⟨st.bestMove, st.bestValue, st.moveEvaluations ++ [(m, v m)]⟩ h

/-- Splitting the legal-move list around a move whose value strictly
dominates everything before it and weakly dominates everything after it
pins down the returned best move. -/
theorem bestFold_bestMove_bounds (v : Nat → EInt) (mstar : Nat) :
    ∀ (l₁ l₂ : List Nat) (st : SearchResult),
      (∀ m ∈ l₁, v m < v mstar) → st.bestValue < v mstar →
      (∀ m ∈ l₂, v m ≤ v mstar) →
      (bestFold v (l₁ ++ mstar :: l₂) st).bestMove = some mstar := by
  intro l₁
  induction l₁ with
  | nil =>
    intro l₂ st _ hst h₂
    simp only [List.nil_append, bestFold, List.foldl_cons]
    rw [if_pos hst]
    have := bestFold_no_update v l₂ ⟨some mstar, v mstar, st.moveEvaluations ++ [(mstar, v mstar)]⟩ h₂
    simp only [bestFold] at this
    exact this.1
  | cons m rest ih =>
    intro l₂ st h₁ hst h₂
    simp only [List.cons_append, bestFold, List.foldl_cons]
    by_cases hup : st.bestValue < v m
    · rw [if_pos hup]
      have := ih l₂ ⟨some m, v m, st.moveEvaluations ++ [(m, v m)]⟩
        (fun m' hm' => h₁ m' (List.mem_cons_of_mem m hm'))
        (h₁ m (List.mem_cons_self _ _)) h₂
      simpa only [bestFold] using this
    · rw [if_neg hup]
      have := ih l₂ ⟨st.bestMove, st.bestValue, st.moveEvaluations ++ [(m, v m)]⟩
        (fun m' hm' => h₁ m' (List.mem_cons_of_mem m hm')) hst h₂
      simpa only [bestFold] using this

/-- In a list sorted by `<`, `find?` returns the least element satisfying
the predicate. -/
theorem find?_min_of_pairwise {p : Nat → Bool} :
    ∀ {l : List Nat} {a : Nat}, l.Pairwise (· < ·) → l.find? p = some a →
      ∀ b ∈ l, p b = true → a ≤ b := by
  intro l
  induction l with
  | nil => intro a _ h; cases h
  | cons c rest ih =>
    intro a hpw hfind b hb hpb
    rw [List.find?_cons] at hfind
    cases hpc : p c with
    | true =>
      rw [hpc] at hfind
      cases hfind
      rcases List.mem_cons.mp hb with h | h
      · exact le_of_eq h.symm
      · exact le_of_lt ((List.pairwise_cons.mp hpw).1 b h)
    | false =>
      rw [hpc] at hfind
      rcases List.mem_cons.mp hb with h | h
      · rw [h] at hpb; rw [hpb] at hpc; cases hpc
      · exact ih (List.pairwise_cons.mp hpw).2 hfind b h hpb

/-! ## The search never returns an infinite score -/

theorem maxLoop_finite (step : Nat → EInt → EInt) (β : EInt)
    (hstep : ∀ m a, ∃ z : Int, step m a = iv z) :
    ∀ (l : List Nat) (me a : EInt),
      ((me = ⊥ ∧ l ≠ []) ∨ ∃ z : Int, me = iv z) →
      ∃ z : Int, maxLoop step β l me a = iv z := by
  intro l
  induction l with
  | nil =>
    intro me a h
    rcases h with ⟨_, hne⟩ | ⟨z, hz⟩
    · exact absurd rfl hne
    · exact ⟨z, hz⟩
  | cons m rest ih =>
    intro me a h
    simp only [maxLoop]
    rcases hstep m a with ⟨ze, hze⟩
    have hme2 : ∃ z : Int, max me (step m a) = iv z := by
      rcases h with ⟨hbot, _⟩ | ⟨z, hz⟩
      · exact ⟨ze, by rw [hbot, hze, max_eq_right bot_le]⟩
      · rcases max_choice me (step m a) with h | h
        · exact ⟨z, by rw [h, hz]⟩
        · exact ⟨ze, by rw [h, hze]⟩
    by_cases hcut : β ≤ max a (step m a)
    · rw [if_pos hcut]; exact hme2
    · rw [if_neg hcut]
      exact ih _ _ (Or.inr hme2)

theorem minLoop_finite (step : Nat → EInt → EInt) (α : EInt)
    (hstep : ∀ m a, ∃ z : Int, step m a = iv z) :
    ∀ (l : List Nat) (me b : EInt),
      ((me = ⊤ ∧ l ≠ []) ∨ ∃ z : Int, me = iv z) →
      ∃ z : Int, minLoop step α l me b = iv z := by
  intro l
  induction l with
  | nil =>
    intro me b h
    rcases h with ⟨_, hne⟩ | ⟨z, hz⟩
    · exact absurd rfl hne
    · exact ⟨z, hz⟩
  | cons m rest ih =>
    intro me b h
    simp only [minLoop]
    rcases hstep m b with ⟨ze, hze⟩
    have hme2 : ∃ z : Int, min me (step m b) = iv z := by
      rcases h with ⟨htop, _⟩ | ⟨z, hz⟩
      · exact ⟨ze, by rw [htop, hze, min_eq_right le_top]⟩
      · rcases min_choice me (step m b) with h | h
        · exact ⟨z, by rw [h, hz]⟩
        · exact ⟨ze, by rw [h, hze]⟩
    by_cases hcut : min b (step m b) ≤ α
    · rw [if_pos hcut]; exact hme2
    · rw [if_neg hcut]
      exact ih _ _ (Or.inr hme2)

/-- Every value the search returns is a finite integer. -/
theorem abGo_finite (f : Board → Mark → Int) (ai : Mark) (md : Nat) :
    ∀ (fuel : Nat) (b : Board) (d : Nat) (α β : EInt) (mx : Bool),
      ∃ z : Int, abGo f ai md fuel b d α β mx = iv z := by
  intro fuel
  induction fuel with
  | zero =>
    intro b d α β mx
    simp only [abGo]
    split
    · split
      · exact ⟨_, rfl⟩
      · split
        · exact ⟨_, rfl⟩
        · exact ⟨_, rfl⟩
    · split
      · exact ⟨_, rfl⟩
      · exact ⟨_, rfl⟩
  | succ f2 ih =>
    intro b d α β mx
    by_cases hterm : (isTerminal b).terminal = true
    · rw [abGo_terminal f ai md _ b d α β mx hterm]
      split
      · exact ⟨_, rfl⟩
      · split
        · exact ⟨_, rfl⟩
        · exact ⟨_, rfl⟩
    · replace hterm : (isTerminal b).terminal = false := by simpa using hterm
      by_cases hd : md ≤ d
      · rw [abGo_eval f ai md _ b d α β mx hterm hd]
        exact ⟨_, rfl⟩
      · have hne : getLegalMoves b ≠ [] :=
          getLegalMoves_ne_nil_of_not_full (isTerminal_false_not_full hterm)
        cases mx with
        | true =>
          rw [abGo_succ_max f ai md f2 b d α β hterm hd]
          exact maxLoop_finite _ β (fun m a => ih _ _ a β false) _ ⊥ α
            (Or.inl ⟨rfl, hne⟩)
        | false =>
          rw [abGo_succ_min f ai md f2 b d α β hterm hd]
          exact minLoop_finite _ α (fun m bb => ih _ _ α bb true) _ ⊤ β
            (Or.inl ⟨rfl, hne⟩)

/-! ## Game-theoretic checkers

Executable certificates for the sign of the full-depth minimax value.
These are proof devices (not part of the source); they explore the game
tree with short-circuiting `any`/`all` and a center-first move order,
which only reorders the legal-move set. -/

/-- Exploration order for the checkers: center, corners, edges. -/
def moveOrder : List Nat := [4, 0, 2, 6, 8, 1, 3, 5, 7]

/-- Reorder a set of legal moves along `moveOrder`. -/
def orderMoves (l : List Nat) : List Nat := moveOrder.filter (fun m => decide (m ∈ l))

theorem mem_orderMoves {l : List Nat} (hsub : ∀ m ∈ l, m < 9) (m : Nat) :
    m ∈ orderMoves l ↔ m ∈ l := by
  constructor
  · intro h
    have := List.mem_filter.mp h
    simpa using this.2
  · intro h
    refine List.mem_filter.mpr ⟨?_, by simpa using h⟩
    have h9 := hsub m h
    interval_cases m <;> simp [moveOrder]

/-- `noLose s fuel b t = true` certifies that, with `t` telling whether
`s` is to move, the mover guarantee holds: the game cannot end in a win
for the opponent of `s` (minimax value `≥ 0`). -/
def noLose (s : Mark) : Nat → Board → Bool → Bool
  | 0, board, _ =>
    (isTerminal board).terminal &&
      decide ((isTerminal board).winner ≠ some (WinInfo.mark (getOpponent s)))
  | Nat.succ fuel, board, t =>
    if (isTerminal board).terminal then
      decide ((isTerminal board).winner ≠ some (WinInfo.mark (getOpponent s)))
    else if t then
      (orderMoves (getLegalMoves board)).any
        (fun m => noLose s fuel (makeMove board m s) false)
    else
      (orderMoves (getLegalMoves board)).all
        (fun m => noLose s fuel (makeMove board m (getOpponent s)) true)

/-- `noWin s fuel b t = true` certifies that the opponent of `s` can
prevent `s` from winning (minimax value `≤ 0`). -/
def noWin (s : Mark) : Nat → Board → Bool → Bool
  | 0, board, _ =>
    (isTerminal board).terminal &&
      decide ((isTerminal board).winner ≠ some (WinInfo.mark s))
  | Nat.succ fuel, board, t =>
    if (isTerminal board).terminal then
      decide ((isTerminal board).winner ≠ some (WinInfo.mark s))
    else if t then
      (orderMoves (getLegalMoves board)).all
        (fun m => noWin s fuel (makeMove board m s) false)
    else
      (orderMoves (getLegalMoves board)).any
        (fun m => noWin s fuel (makeMove board m (getOpponent s)) true)

theorem getOpponent_ne (s : Mark) : getOpponent s ≠ s := by
  cases s <;> simp [getOpponent]

theorem countEmpties_eq_zero_full {b : Board} (h : countEmpties b = 0) :
    isBoardFull b = true := by
  simp only [isBoardFull, List.all_eq_true]
  intro c hc
  simp only [countEmpties, List.countP_eq_zero] at h
  simpa using h c hc

theorem isBoardFull_terminal {b : Board} (h : isBoardFull b = true) :
    (isTerminal b).terminal = true := by
  unfold isTerminal
  cases checkWinner b with
  | some wl => rfl
  | none => simp [h]

theorem one_le_countEmpties_of_not_terminal {b : Board}
    (h : (isTerminal b).terminal = false) : 1 ≤ countEmpties b := by
  by_contra hlt
  have h0 : countEmpties b = 0 := by omega
  rw [isBoardFull_terminal (countEmpties_eq_zero_full h0)] at h
  cases h

theorem countEmpties_pos_not_full {b : Board} (h : (isTerminal b).terminal = false) :
    isBoardFull b = false := isTerminal_false_not_full h

/-! Fold versions of the sign conditions -/

theorem le_foldl_max_iff (v : Nat → EInt) (c : EInt) :
    ∀ (l : List Nat) (a : EInt),
      c ≤ l.foldl (fun acc m => max acc (v m)) a ↔ c ≤ a ∨ ∃ m ∈ l, c ≤ v m := by
  intro l
  induction l with
  | nil => intro a; simp
  | cons m rest ih =>
    intro a
    rw [List.foldl_cons, ih]
    constructor
    · rintro (h | ⟨m', hm', hv⟩)
      · rcases le_max_iff.mp h with h | h
        · exact Or.inl h
        · exact Or.inr ⟨m, List.mem_cons_self _ _, h⟩
      · exact Or.inr ⟨m', List.mem_cons_of_mem m hm', hv⟩
    · rintro (h | ⟨m', hm', hv⟩)
      · exact Or.inl (le_trans h (le_max_left a (v m)))
      · rcases List.mem_cons.mp hm' with h' | h'
        · exact Or.inl (le_trans (h' ▸ hv) (le_max_right a (v m)))
        · exact Or.inr ⟨m', h', hv⟩

theorem foldl_max_le_iff (v : Nat → EInt) (c : EInt) :
    ∀ (l : List Nat) (a : EInt),
      l.foldl (fun acc m => max acc (v m)) a ≤ c ↔ a ≤ c ∧ ∀ m ∈ l, v m ≤ c := by
  intro l
  induction l with
  | nil => intro a; simp
  | cons m rest ih =>
    intro a
    rw [List.foldl_cons, ih]
    constructor
    · rintro ⟨hmax, hall⟩
      rcases max_le_iff.mp hmax with ⟨ha, hm⟩
      refine ⟨ha, fun m' hm' => ?_⟩
      rcases List.mem_cons.mp hm' with h' | h'
      · exact h' ▸ hm
      · exact hall m' h'
    · rintro ⟨ha, hall⟩
      exact ⟨max_le ha (hall m (List.mem_cons_self _ _)),
        fun m' hm' => hall m' (List.mem_cons_of_mem m hm')⟩

theorem foldl_min_le_iff (v : Nat → EInt) (c : EInt) :
    ∀ (l : List Nat) (a : EInt),
      l.foldl (fun acc m => min acc (v m)) a ≤ c ↔ a ≤ c ∨ ∃ m ∈ l, v m ≤ c := by
  intro l
  induction l with
  | nil => intro a; simp
  | cons m rest ih =>
    intro a
    rw [List.foldl_cons, ih]
    constructor
    · rintro (h | ⟨m', hm', hv⟩)
      · rcases min_le_iff.mp h with h | h
        · exact Or.inl h
        · exact Or.inr ⟨m, List.mem_cons_self _ _, h⟩
      · exact Or.inr ⟨m', List.mem_cons_of_mem m hm', hv⟩
    · rintro (h | ⟨m', hm', hv⟩)
      · exact Or.inl (le_trans (min_le_left a (v m)) h)
      · rcases List.mem_cons.mp hm' with h' | h'
        · exact Or.inl (le_trans (min_le_right a (v m)) (h' ▸ hv))
        · exact Or.inr ⟨m', h', hv⟩

theorem le_foldl_min_iff (v : Nat → EInt) (c : EInt) :
    ∀ (l : List Nat) (a : EInt),
      c ≤ l.foldl (fun acc m => min acc (v m)) a ↔ c ≤ a ∧ ∀ m ∈ l, c ≤ v m := by
  intro l
  induction l with
  | nil => intro a; simp
  | cons m rest ih =>
    intro a
    rw [List.foldl_cons, ih]
    constructor
    · rintro ⟨hmin, hall⟩
      rcases le_min_iff.mp hmin with ⟨ha, hm⟩
      refine ⟨ha, fun m' hm' => ?_⟩
      rcases List.mem_cons.mp hm' with h' | h'
      · exact h' ▸ hm
      · exact hall m' h'
    · rintro ⟨ha, hall⟩
      exact ⟨le_min ha (hall m (List.mem_cons_self _ _)),
        fun m' hm' => hall m' (List.mem_cons_of_mem m hm')⟩

/-! Unfolding `minimax` -/

theorem minimax_terminal (b : Board) (d : Nat) (mx : Bool) (ai : Mark)
    (f : Board → Mark → Int) (md : Nat) (h : (isTerminal b).terminal = true) :
    minimax b d mx ai f md =
      (if (isTerminal b).winner = some (WinInfo.mark ai) then iv (100 - d)
       else if (isTerminal b).winner = some (WinInfo.mark (getOpponent ai)) then iv (d - 100)
       else iv 0) := mmGo_terminal f ai md _ b d mx h

theorem minimax_unfold_max (b : Board) (d : Nat) (ai : Mark)
    (f : Board → Mark → Int) (md : Nat)
    (h : (isTerminal b).terminal = false) (hd : d < md) :
    minimax b d true ai f md =
      (getLegalMoves b).foldl
        (fun acc m => max acc (minimax (makeMove b m ai) (d + 1) false ai f md)) ⊥ := by
  unfold minimax
  rw [show md - d = Nat.succ (md - (d + 1)) by omega]
  exact mmGo_succ_max f ai md _ b d h (by omega)

theorem minimax_unfold_min (b : Board) (d : Nat) (ai : Mark)
    (f : Board → Mark → Int) (md : Nat)
    (h : (isTerminal b).terminal = false) (hd : d < md) :
    minimax b d false ai f md =
      (getLegalMoves b).foldl
        (fun acc m => min acc (minimax (makeMove b m (getOpponent ai)) (d + 1) true ai f md)) ⊤ := by
  unfold minimax
  rw [show md - d = Nat.succ (md - (d + 1)) by omega]
  exact mmGo_succ_min f ai md _ b d h (by omega)

theorem sentinel_ge_iff (s : Mark) (d : Nat) (hd : d ≤ 9) (w : Option WinInfo) :
    (decide (w ≠ some (WinInfo.mark (getOpponent s))) = true) ↔
    iv 0 ≤ (if w = some (WinInfo.mark s) then iv (100 - (d : Int))
            else if w = some (WinInfo.mark (getOpponent s)) then iv ((d : Int) - 100)
            else iv 0) := by
  cases w with
  | none => simp
  | some wi =>
    cases wi with
    | draw => simp
    | mark m =>
      cases m <;> cases s <;>
        simp [getOpponent, iv_le_iv] <;> omega

theorem sentinel_le_iff (s : Mark) (d : Nat) (hd : d ≤ 9) (w : Option WinInfo) :
    (decide (w ≠ some (WinInfo.mark s)) = true) ↔
    (if w = some (WinInfo.mark s) then iv (100 - (d : Int))
     else if w = some (WinInfo.mark (getOpponent s)) then iv ((d : Int) - 100)
     else iv 0) ≤ iv 0 := by
  cases w with
  | none => simp
  | some wi =>
    cases wi with
    | draw => simp
    | mark m =>
      cases m <;> cases s <;>
        simp [getOpponent, iv_le_iv] <;> omega

theorem legal_lt_nine {b : Board} (hlen : b.length = 9) :
    ∀ m ∈ getLegalMoves b, m < 9 :=
  fun m hm => hlen ▸ getLegalMoves_lt_length hm

/-- The `noLose` checker decides the sign `0 ≤ minimax`, at any search
depth `d` compatible with the board (the depth-adjusted terminal scores
never change sign below depth 9). -/
theorem noLose_iff (s : Mark) (f : Board → Mark → Int) :
    ∀ (fuel : Nat) (b : Board) (d : Nat) (t : Bool),
      b.length = 9 → countEmpties b ≤ fuel → d + countEmpties b ≤ 9 →
      (noLose s fuel b t = true ↔ iv 0 ≤ minimax b d t s f 9) := by
  intro fuel
  induction fuel with
  | zero =>
    intro b d t hlen he hde
    have h0 : countEmpties b = 0 := by omega
    have htm : (isTerminal b).terminal = true :=
      isBoardFull_terminal (countEmpties_eq_zero_full h0)
    rw [minimax_terminal b d t s f 9 htm]
    simp only [noLose, htm, Bool.true_and]
    exact sentinel_ge_iff s d (by omega) _
  | succ fuel ih =>
    intro b d t hlen he hde
    by_cases htm : (isTerminal b).terminal = true
    · rw [minimax_terminal b d t s f 9 htm]
      simp only [noLose, htm, if_true]
      exact sentinel_ge_iff s d (by omega) _
    · replace htm : (isTerminal b).terminal = false := by simpa using htm
      have hemp : 1 ≤ countEmpties b := one_le_countEmpties_of_not_terminal htm
      have hd9 : d < 9 := by omega
      have hchild : ∀ m ∈ getLegalMoves b, ∀ (p : Mark),
          (makeMove b m p).length = 9 ∧
          countEmpties (makeMove b m p) ≤ fuel ∧
          (d + 1) + countEmpties (makeMove b m p) ≤ 9 := by
        intro m hm p
        have hcnt := countEmpties_makeMove p (mem_getLegalMoves.mp hm)
        exact ⟨by rw [makeMove_length]; exact hlen, by omega, by omega⟩
      cases t with
      | true =>
        rw [minimax_unfold_max b d s f 9 htm hd9]
        simp only [noLose, htm, Bool.false_eq_true, eq_self_iff_true, if_true, if_false, List.any_eq_true]
        rw [le_foldl_max_iff]
        constructor
        · rintro ⟨m, hm, hch⟩
          have hm' := (mem_orderMoves (legal_lt_nine hlen) m).mp hm
          rcases hchild m hm' s with ⟨h1, h2, h3⟩
          exact Or.inr ⟨m, hm', (ih _ (d + 1) false h1 h2 h3).mp hch⟩
        · rintro (hbot | ⟨m, hm, hch⟩)
          · exact absurd (le_bot_iff.mp hbot) (iv_ne_bot 0)
          · refine ⟨m, (mem_orderMoves (legal_lt_nine hlen) m).mpr hm, ?_⟩
            rcases hchild m hm s with ⟨h1, h2, h3⟩
            exact (ih _ (d + 1) false h1 h2 h3).mpr hch
      | false =>
        rw [minimax_unfold_min b d s f 9 htm hd9]
        simp only [noLose, htm, Bool.false_eq_true, eq_self_iff_true, if_true, if_false, List.all_eq_true]
        rw [le_foldl_min_iff]
        constructor
        · intro hall
          refine ⟨le_top, fun m hm => ?_⟩
          rcases hchild m hm (getOpponent s) with ⟨h1, h2, h3⟩
          exact (ih _ (d + 1) true h1 h2 h3).mp
            (hall m ((mem_orderMoves (legal_lt_nine hlen) m).mpr hm))
        · rintro ⟨_, hall⟩ m hm
          have hm' := (mem_orderMoves (legal_lt_nine hlen) m).mp hm
          rcases hchild m hm' (getOpponent s) with ⟨h1, h2, h3⟩
          exact (ih _ (d + 1) true h1 h2 h3).mpr (hall m hm')

/-- The `noWin` checker decides the sign `minimax ≤ 0`. -/
theorem noWin_iff (s : Mark) (f : Board → Mark → Int) :
    ∀ (fuel : Nat) (b : Board) (d : Nat) (t : Bool),
      b.length = 9 → countEmpties b ≤ fuel → d + countEmpties b ≤ 9 →
      (noWin s fuel b t = true ↔ minimax b d t s f 9 ≤ iv 0) := by
  intro fuel
  induction fuel with
  | zero =>
    intro b d t hlen he hde
    have h0 : countEmpties b = 0 := by omega
    have htm : (isTerminal b).terminal = true :=
      isBoardFull_terminal (countEmpties_eq_zero_full h0)
    rw [minimax_terminal b d t s f 9 htm]
    simp only [noWin, htm, Bool.true_and]
    exact sentinel_le_iff s d (by omega) _
  | succ fuel ih =>
    intro b d t hlen he hde
    by_cases htm : (isTerminal b).terminal = true
    · rw [minimax_terminal b d t s f 9 htm]
      simp only [noWin, htm, if_true]
      exact sentinel_le_iff s d (by omega) _
    · replace htm : (isTerminal b).terminal = false := by simpa using htm
      have hemp : 1 ≤ countEmpties b := one_le_countEmpties_of_not_terminal htm
      have hd9 : d < 9 := by omega
      have hchild : ∀ m ∈ getLegalMoves b, ∀ (p : Mark),
          (makeMove b m p).length = 9 ∧
          countEmpties (makeMove b m p) ≤ fuel ∧
          (d + 1) + countEmpties (makeMove b m p) ≤ 9 := by
        intro m hm p
        have hcnt := countEmpties_makeMove p (mem_getLegalMoves.mp hm)
        exact ⟨by rw [makeMove_length]; exact hlen, by omega, by omega⟩
      cases t with
      | true =>
        rw [minimax_unfold_max b d s f 9 htm hd9]
        simp only [noWin, htm, Bool.false_eq_true, eq_self_iff_true, if_true, if_false, List.all_eq_true]
        rw [foldl_max_le_iff]
        constructor
        · intro hall
          refine ⟨bot_le, fun m hm => ?_⟩
          rcases hchild m hm s with ⟨h1, h2, h3⟩
          exact (ih _ (d + 1) false h1 h2 h3).mp
            (hall m ((mem_orderMoves (legal_lt_nine hlen) m).mpr hm))
        · rintro ⟨_, hall⟩ m hm
          have hm' := (mem_orderMoves (legal_lt_nine hlen) m).mp hm
          rcases hchild m hm' s with ⟨h1, h2, h3⟩
          exact (ih _ (d + 1) false h1 h2 h3).mpr (hall m hm')
      | false =>
        rw [minimax_unfold_min b d s f 9 htm hd9]
        simp only [noWin, htm, Bool.false_eq_true, eq_self_iff_true, if_true, if_false, List.any_eq_true]
        rw [foldl_min_le_iff]
        constructor
        · rintro ⟨m, hm, hch⟩
          have hm' := (mem_orderMoves (legal_lt_nine hlen) m).mp hm
          rcases hchild m hm' (getOpponent s) with ⟨h1, h2, h3⟩
          exact Or.inr ⟨m, hm', (ih _ (d + 1) true h1 h2 h3).mp hch⟩
        · rintro (htop | ⟨m, hm, hch⟩)
          · exact absurd (top_le_iff.mp htop) (iv_lt_top 0).ne
          · refine ⟨m, (mem_orderMoves (legal_lt_nine hlen) m).mpr hm, ?_⟩
            rcases hchild m hm (getOpponent s) with ⟨h1, h2, h3⟩
            exact (ih _ (d + 1) true h1 h2 h3).mpr hch

/-! ### Strategy certificates for the checkers

Deciding `noLose`/`noWin` directly makes the kernel search a whole game
tree.  A `Cert` records, for the existential side of the checker, which
single move to play, so that checking a certificate only walks the moves
of the universal side.  The lemmas below show a accepted certificate is
sound for the corresponding checker verdict. -/

/-- A strategy certificate: at a node where the certified side chooses,
`strat` names the move; at a node where all replies must be covered,
`resp` maps each reply to its sub-certificate. -/
inductive Cert where
  | leaf : Cert
  | strat : Nat → Cert → Cert
  | resp : List (Nat × Cert) → Cert

/-- Look up the sub-certificate for a reply. -/
def lookupC (m : Nat) : List (Nat × Cert) → Option Cert
  | [] => none
  | (k, c) :: rest => if k = m then some c else lookupC m rest

/-- Walk a certificate for a `noLose` verdict: follow `strat` at the
nodes where `s` moves, check every legal reply at the others. -/
def nlCheck (s : Mark) : Nat → Board → Bool → Cert → Bool
  | 0, board, _, _ =>
    (isTerminal board).terminal &&
      decide ((isTerminal board).winner ≠ some (WinInfo.mark (getOpponent s)))
  | Nat.succ fuel, board, t, cert =>
    if (isTerminal board).terminal then
      decide ((isTerminal board).winner ≠ some (WinInfo.mark (getOpponent s)))
    else if t then
      match cert with
      | Cert.strat m c =>
        decide (m ∈ orderMoves (getLegalMoves board)) &&
          nlCheck s fuel (makeMove board m s) false c
      | _ => false
    else
      match cert with
      | Cert.resp cs =>
        (orderMoves (getLegalMoves board)).all
          (fun m =>
            match lookupC m cs with
            | some c => nlCheck s fuel (makeMove board m (getOpponent s)) true c
            | none => false)
      | _ => false

/-- Walk a certificate for a `noWin` verdict: here the opponent of `s`
owns the strategy, `s`'s moves are all checked. -/
def nwCheck (s : Mark) : Nat → Board → Bool → Cert → Bool
  | 0, board, _, _ =>
    (isTerminal board).terminal &&
      decide ((isTerminal board).winner ≠ some (WinInfo.mark s))
  | Nat.succ fuel, board, t, cert =>
    if (isTerminal board).terminal then
      decide ((isTerminal board).winner ≠ some (WinInfo.mark s))
    else if t then
      match cert with
      | Cert.resp cs =>
        (orderMoves (getLegalMoves board)).all
          (fun m =>
            match lookupC m cs with
            | some c => nwCheck s fuel (makeMove board m s) false c
            | none => false)
      | _ => false
    else
      match cert with
      | Cert.strat m c =>
        decide (m ∈ orderMoves (getLegalMoves board)) &&
          nwCheck s fuel (makeMove board m (getOpponent s)) true c
      | _ => false

/-- Walk a certificate refuting `noLose`: the opponent of `s` owns the
strategy and forces a win, every `s` move is checked. -/
def nlRefute (s : Mark) : Nat → Board → Bool → Cert → Bool
  | 0, board, _, _ =>
    !((isTerminal board).terminal &&
      decide ((isTerminal board).winner ≠ some (WinInfo.mark (getOpponent s))))
  | Nat.succ fuel, board, t, cert =>
    if (isTerminal board).terminal then
      decide ((isTerminal board).winner = some (WinInfo.mark (getOpponent s)))
    else if t then
      match cert with
      | Cert.resp cs =>
        (orderMoves (getLegalMoves board)).all
          (fun m =>
            match lookupC m cs with
            | some c => nlRefute s fuel (makeMove board m s) false c
            | none => false)
      | _ => false
    else
      match cert with
      | Cert.strat m c =>
        decide (m ∈ orderMoves (getLegalMoves board)) &&
          nlRefute s fuel (makeMove board m (getOpponent s)) true c
      | _ => false

/-- An accepted strategy certificate is sound for `noLose = true`. -/
theorem nlCheck_noLose (s : Mark) :
    ∀ (fuel : Nat) (b : Board) (t : Bool) (c : Cert),
      nlCheck s fuel b t c = true → noLose s fuel b t = true := by
  intro fuel
  induction fuel with
  | zero =>
    intro b t c h
    simp only [nlCheck] at h
    simp only [noLose]
    exact h
  | succ fuel ih =>
    intro b t c h
    by_cases htm : (isTerminal b).terminal = true
    · simp only [nlCheck, htm, if_true] at h
      simp only [noLose, htm, if_true]
      exact h
    · replace htm : (isTerminal b).terminal = false := by simpa using htm
      cases t with
      | true =>
        simp only [nlCheck, htm, Bool.false_eq_true, eq_self_iff_true, if_true, if_false] at h
        simp only [noLose, htm, Bool.false_eq_true, eq_self_iff_true, if_true, if_false]
        cases c with
        | leaf => exact Bool.noConfusion h
        | resp cs => exact Bool.noConfusion h
        | strat m cc =>
          rw [Bool.and_eq_true] at h
          rcases h with ⟨h1, h2⟩
          exact List.any_eq_true.mpr ⟨m, of_decide_eq_true h1, ih _ _ _ h2⟩
      | false =>
        simp only [nlCheck, htm, Bool.false_eq_true, eq_self_iff_true, if_true, if_false] at h
        simp only [noLose, htm, Bool.false_eq_true, eq_self_iff_true, if_true, if_false]
        cases c with
        | leaf => exact Bool.noConfusion h
        | strat m cc => exact Bool.noConfusion h
        | resp cs =>
          refine List.all_eq_true.mpr (fun m hm => ?_)
          have hme := List.all_eq_true.mp h m hm
          try simp only at hme
          cases hlk : lookupC m cs with
          | none => rw [hlk] at hme; exact Bool.noConfusion hme
          | some cc => rw [hlk] at hme; exact ih _ _ _ hme

/-- An accepted strategy certificate is sound for `noWin = true`. -/
theorem nwCheck_noWin (s : Mark) :
    ∀ (fuel : Nat) (b : Board) (t : Bool) (c : Cert),
      nwCheck s fuel b t c = true → noWin s fuel b t = true := by
  intro fuel
  induction fuel with
  | zero =>
    intro b t c h
    simp only [nwCheck] at h
    simp only [noWin]
    exact h
  | succ fuel ih =>
    intro b t c h
    by_cases htm : (isTerminal b).terminal = true
    · simp only [nwCheck, htm, if_true] at h
      simp only [noWin, htm, if_true]
      exact h
    · replace htm : (isTerminal b).terminal = false := by simpa using htm
      cases t with
      | true =>
        simp only [nwCheck, htm, Bool.false_eq_true, eq_self_iff_true, if_true, if_false] at h
        simp only [noWin, htm, Bool.false_eq_true, eq_self_iff_true, if_true, if_false]
        cases c with
        | leaf => exact Bool.noConfusion h
        | strat m cc => exact Bool.noConfusion h
        | resp cs =>
          refine List.all_eq_true.mpr (fun m hm => ?_)
          have hme := List.all_eq_true.mp h m hm
          try simp only at hme
          cases hlk : lookupC m cs with
          | none => rw [hlk] at hme; exact Bool.noConfusion hme
          | some cc => rw [hlk] at hme; exact ih _ _ _ hme
      | false =>
        simp only [nwCheck, htm, Bool.false_eq_true, eq_self_iff_true, if_true, if_false] at h
        simp only [noWin, htm, Bool.false_eq_true, eq_self_iff_true, if_true, if_false]
        cases c with
        | leaf => exact Bool.noConfusion h
        | resp cs => exact Bool.noConfusion h
        | strat m cc =>
          rw [Bool.and_eq_true] at h
          rcases h with ⟨h1, h2⟩
          exact List.any_eq_true.mpr ⟨m, of_decide_eq_true h1, ih _ _ _ h2⟩

/-- An accepted refutation certificate is sound for `noLose = false`. -/
theorem nlRefute_noLose (s : Mark) :
    ∀ (fuel : Nat) (b : Board) (t : Bool) (c : Cert),
      nlRefute s fuel b t c = true → noLose s fuel b t = false := by
  intro fuel
  induction fuel with
  | zero =>
    intro b t c h
    simp only [nlRefute] at h
    simp only [noLose]
    cases hx : ((isTerminal b).terminal &&
        decide ((isTerminal b).winner ≠ some (WinInfo.mark (getOpponent s)))) with
    | false => rfl
    | true => rw [hx] at h; exact Bool.noConfusion h
  | succ fuel ih =>
    intro b t c h
    by_cases htm : (isTerminal b).terminal = true
    · simp only [nlRefute, htm, if_true] at h
      simp only [noLose, htm, if_true]
      exact decide_eq_false (not_not_intro (of_decide_eq_true h))
    · replace htm : (isTerminal b).terminal = false := by simpa using htm
      cases t with
      | true =>
        simp only [nlRefute, htm, Bool.false_eq_true, eq_self_iff_true, if_true, if_false] at h
        simp only [noLose, htm, Bool.false_eq_true, eq_self_iff_true, if_true, if_false]
        cases c with
        | leaf => exact Bool.noConfusion h
        | strat m cc => exact Bool.noConfusion h
        | resp cs =>
          cases hany : (orderMoves (getLegalMoves b)).any
              (fun m => noLose s fuel (makeMove b m s) false) with
          | false => rfl
          | true =>
            rcases List.any_eq_true.mp hany with ⟨m, hm, hml⟩
            try simp only at hml
            have hme := List.all_eq_true.mp h m hm
            try simp only at hme
            cases hlk : lookupC m cs with
            | none => rw [hlk] at hme; exact Bool.noConfusion hme
            | some cc =>
              rw [hlk] at hme
              rw [ih _ _ _ hme] at hml
              exact Bool.noConfusion hml
      | false =>
        simp only [nlRefute, htm, Bool.false_eq_true, eq_self_iff_true, if_true, if_false] at h
        simp only [noLose, htm, Bool.false_eq_true, eq_self_iff_true, if_true, if_false]
        cases c with
        | leaf => exact Bool.noConfusion h
        | resp cs => exact Bool.noConfusion h
        | strat m cc =>
          rw [Bool.and_eq_true] at h
          rcases h with ⟨h1, h2⟩
          cases hall : (orderMoves (getLegalMoves b)).all
              (fun m => noLose s fuel (makeMove b m (getOpponent s)) true) with
          | false => rfl
          | true =>
            have hml := List.all_eq_true.mp hall m (of_decide_eq_true h1)
            try simp only at hml
            rw [ih _ _ _ h2] at hml
            exact Bool.noConfusion hml

/-! ## Playing `findBestMove` at depth 9 from the empty board -/

/-- Boards reachable when the searching side `s` moves first from the
empty board and always plays `(findBestMove · s f 9).bestMove`, while the
opponent answers with arbitrary legal moves.  The flag records whether
`s` is to move. -/
inductive Reaches (s : Mark) (f : Board → Mark → Int) : Board → Bool → Prop where
  | init : Reaches s f createEmptyBoard true
  | aiMove {b : Board} {m : Nat} :
      Reaches s f b true → (isTerminal b).terminal = false →
      (findBestMove b s f 9).bestMove = some m →
      Reaches s f (makeMove b m s) false
  | oppMove {b : Board} {m : Nat} :
      Reaches s f b false → (isTerminal b).terminal = false →
      m ∈ getLegalMoves b →
      Reaches s f (makeMove b m (getOpponent s)) true

theorem countEmpties_createEmptyBoard : countEmpties createEmptyBoard = 9 := rfl

theorem length_createEmptyBoard : createEmptyBoard.length = 9 := rfl

/-- Change of the depth argument does not change the sign of the
full-depth minimax value. -/
theorem minimax_sign_shift (s : Mark) (f : Board → Mark → Int) {b : Board}
    (hlen : b.length = 9) (t : Bool) (d d' : Nat)
    (hd : d + countEmpties b ≤ 9) (hd' : d' + countEmpties b ≤ 9) :
    (iv 0 ≤ minimax b d t s f 9 ↔ iv 0 ≤ minimax b d' t s f 9) := by
  rw [← noLose_iff s f (countEmpties b) b d t hlen (le_refl _) hd,
    noLose_iff s f (countEmpties b) b d' t hlen (le_refl _) hd']

theorem minimax_le_sign_shift (s : Mark) (f : Board → Mark → Int) {b : Board}
    (hlen : b.length = 9) (t : Bool) (d d' : Nat)
    (hd : d + countEmpties b ≤ 9) (hd' : d' + countEmpties b ≤ 9) :
    (minimax b d t s f 9 ≤ iv 0 ↔ minimax b d' t s f 9 ≤ iv 0) := by
  rw [← noWin_iff s f (countEmpties b) b d t hlen (le_refl _) hd,
    noWin_iff s f (countEmpties b) b d' t hlen (le_refl _) hd']

/-- Invariant of the play: the reachable boards always carry a
non-negative full-depth minimax value for the searching side (given the
computed fact that the empty board does). -/
theorem reaches_invariant (s : Mark) (f : Board → Mark → Int)
    (hbase : noLose s 9 createEmptyBoard true = true) :
    ∀ {b : Board} {t : Bool}, Reaches s f b t →
      b.length = 9 ∧ iv 0 ≤ minimax b 0 t s f 9 := by
  intro b t h
  induction h with
  | init =>
    refine ⟨length_createEmptyBoard, ?_⟩
    exact (noLose_iff s f 9 createEmptyBoard 0 true length_createEmptyBoard
      (by rw [countEmpties_createEmptyBoard]) (by rw [countEmpties_createEmptyBoard])).mp hbase
  | @aiMove b m hr hterm hbm ih =>
    rcases ih with ⟨hlen, hval⟩
    have hlen2 : (makeMove b m s).length = 9 := by rw [makeMove_length]; exact hlen
    refine ⟨hlen2, ?_⟩
    have he9 : countEmpties b ≤ 9 := hlen ▸ countEmpties_le_length b
    -- some root child has non-negative value
    rw [minimax_unfold_max b 0 s f 9 hterm (by omega)] at hval
    rcases (le_foldl_max_iff _ _ _ _).mp hval with hbot | ⟨m', hm', hv'⟩
    · exact absurd (le_bot_iff.mp hbot) (iv_ne_bot 0)
    have hchild : ∀ mm ∈ getLegalMoves b,
        (makeMove b mm s).length = 9 ∧ countEmpties (makeMove b mm s) + 1 = countEmpties b := by
      intro mm hmm
      exact ⟨by rw [makeMove_length]; exact hlen,
        (countEmpties_makeMove s (mem_getLegalMoves.mp hmm)).symm⟩
    rcases hchild m' hm' with ⟨hlen', hcnt'⟩
    have hemp : 1 ≤ countEmpties b := one_le_countEmpties_of_not_terminal hterm
    -- shift the depth of the witness child value from 1 to 0
    have hv0 : iv 0 ≤ minimax (makeMove b m' s) 0 false s f 9 :=
      (minimax_sign_shift s f hlen' false 1 0 (by omega) (by omega)).mp hv'
    -- the chosen move attains the maximal root value
    have hroot : iv 0 ≤ alphaBetaSearch (makeMove b m s) 0 ⊥ ⊤ false s f 9 := by
      set val := fun mm => alphaBetaSearch (makeMove b mm s) 0 ⊥ ⊤ false s f 9 with hvaldef
      set V := (getLegalMoves b).foldl (fun a mm => max a (val mm)) (⊥ : EInt) with hVdef
      have hvm' : iv 0 ≤ val m' := by
        rw [hvaldef]
        simpa [alphaBetaSearch_eq_minimax] using hv0
      have hV0 : iv 0 ≤ V := le_trans hvm' (le_foldl_max_of_mem val _ ⊥ m' hm')
      have hbm2 : (bestFold val (getLegalMoves b) ⟨none, ⊥, []⟩).bestMove = some m := by
        rw [← findBestMove_eq_bestFold]; exact hbm
      have hlt : (⊥ : EInt) < V := lt_of_lt_of_le (bot_lt_iv 0) hV0
      rw [bestFold_first_argmax val _ _ hlt] at hbm2
      have hfind := List.find?_some hbm2
      have hvmV : val m = V := by simpa using hfind
      show iv 0 ≤ val m
      rw [hvmV]
      exact hV0
    rw [alphaBetaSearch_eq_minimax] at hroot
    exact hroot
  | @oppMove b m hr hterm hm ih =>
    rcases ih with ⟨hlen, hval⟩
    have hlen2 : (makeMove b m (getOpponent s)).length = 9 := by
      rw [makeMove_length]; exact hlen
    refine ⟨hlen2, ?_⟩
    have he9 : countEmpties b ≤ 9 := hlen ▸ countEmpties_le_length b
    rw [minimax_unfold_min b 0 s f 9 hterm (by omega)] at hval
    have hv1 : iv 0 ≤ minimax (makeMove b m (getOpponent s)) 1 true s f 9 :=
      ((le_foldl_min_iff _ _ _ _).mp hval).2 m hm
    have hcnt : countEmpties (makeMove b m (getOpponent s)) + 1 = countEmpties b :=
      (countEmpties_makeMove (getOpponent s) (mem_getLegalMoves.mp hm)).symm
    have hemp : 1 ≤ countEmpties b := one_le_countEmpties_of_not_terminal hterm
    exact (minimax_sign_shift s f hlen2 true 1 0 (by omega) (by omega)).mp hv1

/-! ## Feature extraction (`gameLogic.js` / `featureExtractor.js`) -/

/-- The `lines` array shared by the extractors (same 8 lines as
`winPatterns`, re-declared in the source files). -/
def lines : List (Nat × Nat × Nat) :=
  [(0, 1, 2), (3, 4, 5), (6, 7, 8),
   (0, 3, 6), (1, 4, 7), (2, 5, 8),
   (0, 4, 8), (2, 4, 6)]

/-- The record returned by `extractFeatures` in `gameLogic.js`. -/
structure Features where
  playerMarks : Rat
  opponentMarks : Rat
  playerTwoInRow : Rat
  opponentTwoInRow : Rat
  playerOneInRow : Rat
  opponentOneInRow : Rat
  centerControl : Rat
  playerCorners : Rat
  opponentCorners : Rat
deriving DecidableEq, Repr

/-- `extractFeatures` from `gameLogic.js` (the symmetric extractor). -/
def extractFeatures (board : Board) (player : Mark) : Features :=
  let opponent := getOpponent player
  let playerMarks : Rat := ((board.filter (fun c => decide (c = some player))).length : Rat)
  let opponentMarks : Rat := ((board.filter (fun c => decide (c = some opponent))).length : Rat)
  let counters := lines.foldl
    (fun (acc : Rat × Rat × Rat × Rat) l =>
      let lineValues := [board.getD l.1 none, board.getD l.2.1 none, board.getD l.2.2 none]
      let playerCount := (lineValues.filter (fun v => decide (v = some player))).length
      let opponentCount := (lineValues.filter (fun v => decide (v = some opponent))).length
      let emptyCount := (lineValues.filter (fun v => decide (v = none))).length
      let pt := if playerCount = 2 ∧ emptyCount = 1 then acc.1 + 1 else acc.1
      let ot := if opponentCount = 2 ∧ emptyCount = 1 then acc.2.1 + 1 else acc.2.1
      let po := if playerCount = 1 ∧ emptyCount = 2 then acc.2.2.1 + 1 else acc.2.2.1
      let oo := if opponentCount = 1 ∧ emptyCount = 2 then acc.2.2.2 + 1 else acc.2.2.2
      (pt, ot, po, oo))
    (0, 0, 0, 0)
  let centerControl : Rat :=
    if board.getD 4 none = some player then 1
    else if board.getD 4 none = some opponent then -1 else 0
  let corners : List Nat := [0, 2, 6, 8]
  let playerCorners : Rat := ((corners.filter (fun i => decide (board.getD i none = some player))).length : Rat)
  let opponentCorners : Rat := ((corners.filter (fun i => decide (board.getD i none = some opponent))).length : Rat)
  ⟨playerMarks, opponentMarks, counters.1, counters.2.1, counters.2.2.1, counters.2.2.2,
    centerControl, playerCorners, opponentCorners⟩

/-- `extractDatasetFeatures` from `featureExtractor.js` (the dataset-format
extractor, always from X's absolute perspective). -/
def extractDatasetFeatures (board : Board) (player : Mark) : List Rat :=
  let xCount : Rat := ((board.filter (fun c => decide (c = some Mark.X))).length : Rat)
  let oCount : Rat := ((board.filter (fun c => decide (c = some Mark.O))).length : Rat)
  let almost := lines.foldl
    (fun (acc : Rat × Rat) l =>
      let lineValues := [board.getD l.1 none, board.getD l.2.1 none, board.getD l.2.2 none]
      let xInLine := (lineValues.filter (fun v => decide (v = some Mark.X))).length
      let oInLine := (lineValues.filter (fun v => decide (v = some Mark.O))).length
      let emptyInLine := (lineValues.filter (fun v => decide (v = none))).length
      let xa := if xInLine = 2 ∧ emptyInLine = 1 then acc.1 + 1 else acc.1
      let oa := if oInLine = 2 ∧ emptyInLine = 1 then acc.2 + 1 else acc.2
      (xa, oa))
    (0, 0)
  let xCenter : Rat := if board.getD 4 none = some Mark.X then 1 else 0
  let corners : List Nat := [0, 2, 6, 8]
  let xCorners : Rat := ((corners.filter (fun i => decide (board.getD i none = some Mark.X))).length : Rat)
  [xCount, oCount, almost.1, almost.2, xCenter, xCorners]

/-- `adjustFeaturesForPlayer` from `featureExtractor.js` / `modelTrainer.js`:
the O-perspective transform of a dataset-format feature vector. -/
def adjustFeaturesForPlayer (features : List Rat) (player : Mark) : List Rat :=
  if player = Mark.O then
    [features.getD 1 0,
     features.getD 0 0,
     features.getD 3 0,
     features.getD 2 0,
     if features.getD 4 0 = 1 then 0
     else if features.getD 4 0 = 0 ∧ 1 ≤ features.getD 0 0 + features.getD 1 0 then 1
     else 0,
     features.getD 5 0]
  else features

/-! ## Linear evaluators (`mlEval.js`) -/

namespace MlEval

/-- The fixed weight table of `src/utils/mlEval.js`. -/
structure TrainedWeights where
  playerMarks : Rat
  opponentMarks : Rat
  playerTwoInRow : Rat
  opponentTwoInRow : Rat
  playerOneInRow : Rat
  opponentOneInRow : Rat
  centerControl : Rat
  playerCorners : Rat
  opponentCorners : Rat
  bias : Rat

def TRAINED_WEIGHTS : TrainedWeights :=
  ⟨2.5, -2.5, 18.0, -22.0, 4.5, -4.5, 6.0, 3.5, -3.5, 0.5⟩

/-- `mlEvaluate` from `src/utils/mlEval.js` (fixed weights, symmetric
extractor). -/
def mlEvaluate (board : Board) (player : Mark) : Rat :=
  let terminalState := isTerminal board
  if terminalState.terminal then
    if terminalState.winner = some (WinInfo.mark player) then 100
    else if terminalState.winner = some (WinInfo.mark (getOpponent player)) then -100
    else 0
  else
    let features := extractFeatures board player
    let score := TRAINED_WEIGHTS.bias
      + features.playerMarks * TRAINED_WEIGHTS.playerMarks
      + features.opponentMarks * TRAINED_WEIGHTS.opponentMarks
      + features.playerTwoInRow * TRAINED_WEIGHTS.playerTwoInRow
      + features.opponentTwoInRow * TRAINED_WEIGHTS.opponentTwoInRow
      + features.playerOneInRow * TRAINED_WEIGHTS.playerOneInRow
      + features.opponentOneInRow * TRAINED_WEIGHTS.opponentOneInRow
      + features.centerControl * TRAINED_WEIGHTS.centerControl
      + features.playerCorners * TRAINED_WEIGHTS.playerCorners
      + features.opponentCorners * TRAINED_WEIGHTS.opponentCorners
    max (-90) (min 90 score)

end MlEval

namespace MlEvalDS

/-- The inline perspective flip of `mlEvaluate` in the dataset-format
variant of `mlEval.js`: components 0 and 1 and components 2 and 3 are
swapped; components 4 ("center (approximate)") and 5 ("corners") are
passed through. -/
def flippedFeatures (features : List Rat) : List Rat :=
  [features.getD 1 0,
   features.getD 0 0,
   features.getD 3 0,
   features.getD 2 0,
   features.getD 4 0,
   features.getD 5 0]

/-- `mlEvaluate` from the dataset-format variant of `mlEval.js`
(`MODEL_WEIGHTS` is process state set by `updateMLWeights`; it is passed
here explicitly as `bias` and `weights`). -/
def mlEvaluate (bias : Rat) (weights : List Rat) (board : Board) (player : Mark) : Rat :=
  let terminalState := isTerminal board
  if terminalState.terminal then
    if terminalState.winner = some (WinInfo.mark player) then 100
    else if terminalState.winner = some (WinInfo.mark (getOpponent player)) then -100
    else 0
  else
    let features := extractDatasetFeatures board player
    let score :=
      if player = Mark.X then
        (List.range (min features.length weights.length)).foldl
          (fun sc i => sc + features.getD i 0 * weights.getD i 0) bias
      else
        let flipped := flippedFeatures features
        (List.range (min flipped.length weights.length)).foldl
          (fun sc i => sc + flipped.getD i 0 * weights.getD i 0) bias
    max (-90) (min 90 score)

end MlEvalDS

/-! ## Model trainer (`modelTrainer.js`) -/

namespace ModelTrainer

/-- The prediction loop of `trainLinearModel`:
`w0 + Σ_{j<n} w_{j+1} * x_j`. -/
def predictOne (weights : List Rat) (n : Nat) (row : List Rat) : Rat :=
  (List.range n).foldl (fun pred j => pred + weights.getD (j + 1) 0 * row.getD j 0)
    (weights.getD 0 0)

/-- The gradient-accumulation loop of one epoch of `trainLinearModel`:
for each sample, add `error` to `gradients[0]` and `error * X[i][j]` to
`gradients[j+1]`. -/
def sampleGradients (X : List (List Rat)) (y : List Rat) (weights : List Rat)
    (m n : Nat) : List Rat :=
  (List.range m).foldl
    (fun grads i =>
      let prediction := predictOne weights n (X.getD i [])
      let error := prediction - y.getD i 0
      let grads0 := grads.set 0 (grads.getD 0 0 + error)
      (List.range n).foldl
        (fun g j => g.set (j + 1) (g.getD (j + 1) 0 + error * (X.getD i []).getD j 0))
        grads0)
    (List.replicate (n + 1) 0)

/-- The weight-update loop of one epoch of `trainLinearModel`:
`weights[j] -= learningRate * (gradients[j]/m + regTerm)` with the L2
term `regularization * weights[j]` skipped for the bias (`j = 0`). -/
def updateWeights (weights grads : List Rat) (m : Rat) (learningRate regularization : Rat) :
    List Rat :=
  weights.enum.map (fun jw =>
    let gradient := grads.getD jw.1 0 / m
    let regTerm := if 0 < jw.1 then regularization * jw.2 else 0
    jw.2 - learningRate * (gradient + regTerm))

/-- One epoch of the gradient-descent loop of `trainLinearModel`. -/
def trainEpoch (X : List (List Rat)) (y : List Rat)
    (learningRate regularization : Rat) (weights : List Rat) : List Rat :=
  updateWeights weights
    (sampleGradients X y weights X.length (X.getD 0 []).length)
    (X.length : Rat) learningRate regularization

/-- `trainLinearModel` from `modelTrainer.js`, restricted to the weight
evolution: `epochs` iterations of `trainEpoch` from the initial weights
`w0` (the source initialises them with small random values and also
records per-epoch losses and periodic accuracies, which do not feed back
into the weights). -/
def trainLinearModel (X : List (List Rat)) (y : List Rat)
    (learningRate : Rat) (epochs : Nat) (regularization : Rat) (w0 : List Rat) : List Rat :=
  (trainEpoch X y learningRate regularization)^[epochs] w0

end ModelTrainer

/-! ## Dataset loader (`datasetLoader.js`) -/

namespace DatasetLoader

/-- The `forEach` update of the running column minima of
`normalizeFeatures` (`Infinity` is the top element). -/
def updateMins (mins : List (WithTop Rat)) (sample : List Rat) : List (WithTop Rat) :=
  sample.enum.foldl (fun ms p => ms.set p.1 (min (ms.getD p.1 ⊤) (p.2 : WithTop Rat))) mins

/-- The `forEach` update of the running column maxima of
`normalizeFeatures` (`-Infinity` is the bottom element). -/
def updateMaxs (maxs : List (WithBot Rat)) (sample : List Rat) : List (WithBot Rat) :=
  sample.enum.foldl (fun ms p => ms.set p.1 (max (ms.getD p.1 ⊥) (p.2 : WithBot Rat))) maxs

/-- `normalizeFeatures` from `datasetLoader.js`: per-column min-max
normalization, mapping a zero-range column to `0`.  `mins`/`maxs` start
at `±Infinity` and are returned along with the normalized matrix; the
`untop'`/`unbot'` projections read the finite value (present for every
column of a non-empty rectangular input). -/
def normalizeFeatures (features : List (List Rat)) :
    List (List Rat) × List (WithTop Rat) × List (WithBot Rat) :=
  let featureCount := (features.getD 0 []).length
  let mins := features.foldl updateMins (List.replicate featureCount ⊤)
  let maxs := features.foldl updateMaxs (List.replicate featureCount ⊥)
  let normalized := features.map (fun sample =>
    sample.enum.map (fun p =>
      let mn := (mins.getD p.1 ⊤).untop' 0
      let mx := (maxs.getD p.1 ⊥).unbot' 0
      let range := mx - mn
      if range = 0 then 0 else (p.2 - mn) / range))
  (normalized, mins, maxs)

end DatasetLoader

/-! ## Indexed-list helpers -/

theorem getD_set_self {α : Type} {l : List α} {i : Nat} (h : i < l.length) (a d : α) :
    (l.set i a).getD i d = a := by
  rw [List.getD_eq_getElem?_getD, List.getElem?_set_self h]
  rfl

theorem getD_set_ne {α : Type} {l : List α} {i j : Nat} (h : i ≠ j) (a d : α) :
    (l.set i a).getD j d = l.getD j d := by
  rw [List.getD_eq_getElem?_getD, List.getElem?_set_ne h, ← List.getD_eq_getElem?_getD]

theorem getD_replicate {α : Type} {n m : Nat} (h : m < n) (a d : α) :
    (List.replicate n a).getD m d = a := by
  rw [List.getD_eq_getElem?_getD, List.getElem?_replicate, if_pos h]
  rfl

theorem getElem?_eq_some_getD {α : Type} {l : List α} {j : Nat} (hj : j < l.length) (d : α) :
    l[j]? = some (l.getD j d) := by
  rw [List.getElem?_eq_getElem hj, List.getD_eq_getElem?_getD, List.getElem?_eq_getElem hj]
  rfl

theorem enum_map_getD {α β : Type} (f : Nat → α → β) (l : List α) (dα : α) (dβ : β)
    (j : Nat) (hj : j < l.length) :
    ((l.enum.map (fun p => f p.1 p.2)).getD j dβ) = f j (l.getD j dα) := by
  have henum : l.enum[j]? = some (j, l.getD j dα) := by
    rw [← List.get?_eq_getElem?, List.get?_enum, List.get?_eq_getElem?,
      getElem?_eq_some_getD hj dα]
    rfl
  rw [List.getD_eq_getElem?_getD, List.getElem?_map, henum]
  rfl

theorem mk_getD_mem_enum {α : Type} {l : List α} {j : Nat} (hj : j < l.length) (d : α) :
    (j, l.getD j d) ∈ l.enum :=
  List.mk_mem_enum_iff_getElem?.mpr (getElem?_eq_some_getD hj d)

/-! ## One epoch of the trainer computes the batch gradient update -/

namespace ModelTrainer

theorem inner_fold_length (x : Nat → Rat) :
    ∀ (is : List Nat) (g : List Rat),
      (is.foldl (fun g j => g.set (j + 1) (g.getD (j + 1) 0 + x j)) g).length = g.length := by
  intro is
  induction is with
  | nil => intro g; rfl
  | cons j rest ih =>
    intro g
    rw [List.foldl_cons, ih, List.length_set]

theorem inner_fold_getD_zero (x : Nat → Rat) :
    ∀ (is : List Nat) (g : List Rat),
      (is.foldl (fun g j => g.set (j + 1) (g.getD (j + 1) 0 + x j)) g).getD 0 0 =
        g.getD 0 0 := by
  intro is
  induction is with
  | nil => intro g; rfl
  | cons j rest ih =>
    intro g
    rw [List.foldl_cons, ih, getD_set_ne (by omega)]

theorem inner_fold_getD_succ (x : Nat → Rat) :
    ∀ (is : List Nat) (g : List Rat) (j0 : Nat), is.Nodup →
      (∀ j ∈ is, j + 1 < g.length) →
      (is.foldl (fun g j => g.set (j + 1) (g.getD (j + 1) 0 + x j)) g).getD (j0 + 1) 0 =
        g.getD (j0 + 1) 0 + (if j0 ∈ is then x j0 else 0) := by
  intro is
  induction is with
  | nil =>
    intro g j0 _ _
    simp
  | cons j rest ih =>
    intro g j0 hnd hbd
    rw [List.foldl_cons]
    have hnd' := List.nodup_cons.mp hnd
    have hbd' : ∀ j' ∈ rest, j' + 1 < (g.set (j + 1) (g.getD (j + 1) 0 + x j)).length := by
      intro j' hj'
      rw [List.length_set]
      exact hbd j' (List.mem_cons_of_mem j hj')
    rw [ih _ j0 hnd'.2 hbd']
    by_cases hj0 : j0 = j
    · subst hj0
      rw [getD_set_self (hbd j0 (List.mem_cons_self _ _))]
      have : j0 ∉ rest := hnd'.1
      simp [this]
    · rw [getD_set_ne (by omega)]
      by_cases hmem : j0 ∈ rest
      · simp [hmem, List.mem_cons, hj0]
      · simp [hmem, List.mem_cons, hj0]

/-- The error of sample `i` under the weights `w`. -/
def sampleError (X : List (List Rat)) (y : List Rat) (w : List Rat) (n i : Nat) : Rat :=
  predictOne w n (X.getD i []) - y.getD i 0

theorem sampleGradients_spec (X : List (List Rat)) (y : List Rat) (w : List Rat) (n : Nat) :
    ∀ (is : List Nat) (g : List Rat), g.length = n + 1 →
      ((is.foldl
          (fun grads i =>
            let prediction := predictOne w n (X.getD i [])
            let error := prediction - y.getD i 0
            let grads0 := grads.set 0 (grads.getD 0 0 + error)
            (List.range n).foldl
              (fun g j => g.set (j + 1) (g.getD (j + 1) 0 + error * (X.getD i []).getD j 0))
              grads0) g).getD 0 0 =
        g.getD 0 0 + (is.map (fun i => sampleError X y w n i)).sum) ∧
      (∀ j0, j0 < n →
        ((is.foldl
          (fun grads i =>
            let prediction := predictOne w n (X.getD i [])
            let error := prediction - y.getD i 0
            let grads0 := grads.set 0 (grads.getD 0 0 + error)
            (List.range n).foldl
              (fun g j => g.set (j + 1) (g.getD (j + 1) 0 + error * (X.getD i []).getD j 0))
              grads0) g).getD (j0 + 1) 0 =
        g.getD (j0 + 1) 0 +
          (is.map (fun i => sampleError X y w n i * (X.getD i []).getD j0 0)).sum)) := by
  intro is
  induction is with
  | nil =>
    intro g _
    exact ⟨by simp, fun j0 _ => by simp⟩
  | cons i rest ih =>
    intro g hg
    have hlen0 : (0 : Nat) < g.length := by omega
    set e := predictOne w n (X.getD i []) - y.getD i 0 with hedef
    have hglen' :
        ((List.range n).foldl
          (fun g j => g.set (j + 1) (g.getD (j + 1) 0 + e * (X.getD i []).getD j 0))
          (g.set 0 (g.getD 0 0 + e))).length = n + 1 := by
      rw [inner_fold_length, List.length_set]
      exact hg
    have hbd : ∀ j ∈ List.range n, j + 1 < (g.set 0 (g.getD 0 0 + e)).length := by
      intro j hj
      rw [List.length_set, hg]
      have := List.mem_range.mp hj
      omega
    constructor
    · rw [List.foldl_cons, (ih _ hglen').1, List.map_cons, List.sum_cons]
      rw [inner_fold_getD_zero, getD_set_self hlen0]
      show g.getD 0 0 + e + _ = _
      rw [hedef]
      show _ = g.getD 0 0 + (sampleError X y w n i + _)
      rw [sampleError]
      ring
    · intro j0 hj0
      rw [List.foldl_cons, (ih _ hglen').2 j0 hj0, List.map_cons, List.sum_cons]
      rw [inner_fold_getD_succ _ _ _ j0 (List.nodup_range n) hbd]
      rw [if_pos (List.mem_range.mpr hj0), getD_set_ne (by omega)]
      show g.getD (j0 + 1) 0 + e * _ + _ = _
      rw [hedef]
      show _ = g.getD (j0 + 1) 0 + (sampleError X y w n i * _ + _)
      rw [sampleError]
      ring

theorem updateWeights_getD (w grads : List Rat) (m lr reg : Rat) (j : Nat)
    (hj : j < w.length) :
    (updateWeights w grads m lr reg).getD j 0 =
      w.getD j 0 - lr * (grads.getD j 0 / m + (if 0 < j then reg * w.getD j 0 else 0)) := by
  unfold updateWeights
  exact enum_map_getD
    (fun j1 w1 => w1 - lr * (grads.getD j1 0 / m + (if 0 < j1 then reg * w1 else 0)))
    w 0 0 j hj

end ModelTrainer

/-! ## Min-max normalization bounds -/

namespace DatasetLoader

theorem minfold_length :
    ∀ (P : List (Nat × Rat)) (ms : List (WithTop Rat)),
      (P.foldl (fun ms p => ms.set p.1 (min (ms.getD p.1 ⊤) (p.2 : WithTop Rat))) ms).length =
        ms.length := by
  intro P
  induction P with
  | nil => intro ms; rfl
  | cons p rest ih =>
    intro ms
    rw [List.foldl_cons, ih, List.length_set]

theorem minfold_le :
    ∀ (P : List (Nat × Rat)) (ms : List (WithTop Rat)) (j : Nat),
      (P.foldl (fun ms p => ms.set p.1 (min (ms.getD p.1 ⊤) (p.2 : WithTop Rat))) ms).getD j ⊤ ≤
        ms.getD j ⊤ := by
  intro P
  induction P with
  | nil => intro ms j; exact le_refl _
  | cons p rest ih =>
    intro ms j
    rw [List.foldl_cons]
    refine le_trans (ih _ j) ?_
    by_cases hin : p.1 < ms.length
    · by_cases hj : p.1 = j
      · subst hj
        rw [getD_set_self hin]
        exact min_le_left _ _
      · rw [getD_set_ne hj]
    · rw [List.set_eq_of_length_le (by omega)]

theorem minfold_le_elem :
    ∀ (P : List (Nat × Rat)) (ms : List (WithTop Rat)) (j : Nat) (v : Rat),
      (j, v) ∈ P → j < ms.length →
      (P.foldl (fun ms p => ms.set p.1 (min (ms.getD p.1 ⊤) (p.2 : WithTop Rat))) ms).getD j ⊤ ≤
        (v : WithTop Rat) := by
  intro P
  induction P with
  | nil => intro ms j v hm; cases hm
  | cons p rest ih =>
    intro ms j v hm hj
    rw [List.foldl_cons]
    rcases List.mem_cons.mp hm with h | h
    · subst h
      refine le_trans (minfold_le rest _ j) ?_
      rw [getD_set_self hj]
      exact min_le_right _ _
    · exact ih _ j v h (by rw [List.length_set]; exact hj)

theorem maxfold_length :
    ∀ (P : List (Nat × Rat)) (ms : List (WithBot Rat)),
      (P.foldl (fun ms p => ms.set p.1 (max (ms.getD p.1 ⊥) (p.2 : WithBot Rat))) ms).length =
        ms.length := by
  intro P
  induction P with
  | nil => intro ms; rfl
  | cons p rest ih =>
    intro ms
    rw [List.foldl_cons, ih, List.length_set]

theorem maxfold_ge :
    ∀ (P : List (Nat × Rat)) (ms : List (WithBot Rat)) (j : Nat),
      ms.getD j ⊥ ≤
      (P.foldl (fun ms p => ms.set p.1 (max (ms.getD p.1 ⊥) (p.2 : WithBot Rat))) ms).getD j ⊥ := by
  intro P
  induction P with
  | nil => intro ms j; exact le_refl _
  | cons p rest ih =>
    intro ms j
    rw [List.foldl_cons]
    refine le_trans ?_ (ih _ j)
    by_cases hin : p.1 < ms.length
    · by_cases hj : p.1 = j
      · subst hj
        rw [getD_set_self hin]
        exact le_max_left _ _
      · rw [getD_set_ne hj]
    · rw [List.set_eq_of_length_le (by omega)]

theorem maxfold_ge_elem :
    ∀ (P : List (Nat × Rat)) (ms : List (WithBot Rat)) (j : Nat) (v : Rat),
      (j, v) ∈ P → j < ms.length →
      (v : WithBot Rat) ≤
      (P.foldl (fun ms p => ms.set p.1 (max (ms.getD p.1 ⊥) (p.2 : WithBot Rat))) ms).getD j ⊥ := by
  intro P
  induction P with
  | nil => intro ms j v hm; cases hm
  | cons p rest ih =>
    intro ms j v hm hj
    rw [List.foldl_cons]
    rcases List.mem_cons.mp hm with h | h
    · subst h
      refine le_trans ?_ (maxfold_ge rest _ j)
      rw [getD_set_self hj]
      exact le_max_right _ _
    · exact ih _ j v h (by rw [List.length_set]; exact hj)

theorem updateMins_length (ms : List (WithTop Rat)) (sample : List Rat) :
    (updateMins ms sample).length = ms.length := minfold_length _ _

theorem updateMaxs_length (ms : List (WithBot Rat)) (sample : List Rat) :
    (updateMaxs ms sample).length = ms.length := maxfold_length _ _

theorem foldl_updateMins_length :
    ∀ (fs : List (List Rat)) (ms : List (WithTop Rat)),
      (fs.foldl updateMins ms).length = ms.length := by
  intro fs
  induction fs with
  | nil => intro ms; rfl
  | cons r rest ih => intro ms; rw [List.foldl_cons, ih, updateMins_length]

theorem foldl_updateMaxs_length :
    ∀ (fs : List (List Rat)) (ms : List (WithBot Rat)),
      (fs.foldl updateMaxs ms).length = ms.length := by
  intro fs
  induction fs with
  | nil => intro ms; rfl
  | cons r rest ih => intro ms; rw [List.foldl_cons, ih, updateMaxs_length]

theorem foldl_updateMins_le :
    ∀ (fs : List (List Rat)) (ms : List (WithTop Rat)) (j : Nat),
      (fs.foldl updateMins ms).getD j ⊤ ≤ ms.getD j ⊤ := by
  intro fs
  induction fs with
  | nil => intro ms j; exact le_refl _
  | cons r rest ih =>
    intro ms j
    rw [List.foldl_cons]
    exact le_trans (ih _ j) (minfold_le _ _ j)

theorem foldl_updateMaxs_ge :
    ∀ (fs : List (List Rat)) (ms : List (WithBot Rat)) (j : Nat),
      ms.getD j ⊥ ≤ (fs.foldl updateMaxs ms).getD j ⊥ := by
  intro fs
  induction fs with
  | nil => intro ms j; exact le_refl _
  | cons r rest ih =>
    intro ms j
    rw [List.foldl_cons]
    exact le_trans (maxfold_ge _ _ j) (ih _ j)

theorem mins_le_entry :
    ∀ (fs : List (List Rat)) (ms : List (WithTop Rat)) (row : List Rat),
      row ∈ fs → ∀ j, j < row.length → j < ms.length →
      (fs.foldl updateMins ms).getD j ⊤ ≤ (row.getD j 0 : WithTop Rat) := by
  intro fs
  induction fs with
  | nil => intro ms row hmem; cases hmem
  | cons r rest ih =>
    intro ms row hmem j hj hms
    rw [List.foldl_cons]
    rcases List.mem_cons.mp hmem with h | h
    · subst h
      refine le_trans (foldl_updateMins_le rest _ j) ?_
      exact minfold_le_elem _ ms j _ (mk_getD_mem_enum hj 0) hms
    · exact ih _ row h j hj (by rw [updateMins_length]; exact hms)

theorem entry_le_maxs :
    ∀ (fs : List (List Rat)) (ms : List (WithBot Rat)) (row : List Rat),
      row ∈ fs → ∀ j, j < row.length → j < ms.length →
      (row.getD j 0 : WithBot Rat) ≤ (fs.foldl updateMaxs ms).getD j ⊥ := by
  intro fs
  induction fs with
  | nil => intro ms row hmem; cases hmem
  | cons r rest ih =>
    intro ms row hmem j hj hms
    rw [List.foldl_cons]
    rcases List.mem_cons.mp hmem with h | h
    · subst h
      refine le_trans ?_ (foldl_updateMaxs_ge rest _ j)
      exact maxfold_ge_elem _ ms j _ (mk_getD_mem_enum hj 0) hms
    · exact ih _ row h j hj (by rw [updateMaxs_length]; exact hms)

theorem untop'_le_of_le {a : WithTop Rat} {v : Rat} (h : a ≤ (v : WithTop Rat)) :
    a.untop' 0 ≤ v ∧ a = ((a.untop' 0 : Rat) : WithTop Rat) := by
  cases a with
  | top => exact absurd h (WithTop.not_top_le_coe v)
  | coe q => exact ⟨WithTop.coe_le_coe.mp h, rfl⟩

theorem le_unbot'_of_ge {a : WithBot Rat} {v : Rat} (h : (v : WithBot Rat) ≤ a) :
    v ≤ a.unbot' 0 ∧ a = ((a.unbot' 0 : Rat) : WithBot Rat) := by
  cases a with
  | bot => exact absurd h (WithBot.not_coe_le_bot v)
  | coe q => exact ⟨WithBot.coe_le_coe.mp h, rfl⟩

theorem map_getD_of_getElem? {α β : Type} {l : List α} {i : Nat} {a : α}
    (f : α → β) (h : l[i]? = some a) (d : β) :
    (l.map f).getD i d = f a := by
  rw [List.getD_eq_getElem?_getD, List.getElem?_map, h]
  rfl

/-- The entry formula of the normalized matrix. -/
theorem normalizeFeatures_entry (features : List (List Rat)) (si : Nat) (row : List Rat)
    (hrow : features[si]? = some row) (j : Nat) (hj : j < row.length) :
    ((normalizeFeatures features).1.getD si []).getD j 0 =
      (let mn := (((normalizeFeatures features).2.1).getD j ⊤).untop' 0
       let mx := (((normalizeFeatures features).2.2).getD j ⊥).unbot' 0
       if mx - mn = 0 then 0 else (row.getD j 0 - mn) / (mx - mn)) := by
  unfold normalizeFeatures
  simp only
  rw [map_getD_of_getElem? _ hrow]
  exact enum_map_getD
    (fun i v =>
      if ((features.foldl updateMaxs
            (List.replicate (features.getD 0 []).length ⊥)).getD i ⊥).unbot' 0 -
          ((features.foldl updateMins
            (List.replicate (features.getD 0 []).length ⊤)).getD i ⊤).untop' 0 = 0 then 0
       else (v - ((features.foldl updateMins
            (List.replicate (features.getD 0 []).length ⊤)).getD i ⊤).untop' 0) /
        (((features.foldl updateMaxs
            (List.replicate (features.getD 0 []).length ⊥)).getD i ⊥).unbot' 0 -
          ((features.foldl updateMins
            (List.replicate (features.getD 0 []).length ⊤)).getD i ⊤).untop' 0))
    row 0 0 j hj

end DatasetLoader

/-! ## Pinning down concrete `findBestMove` results from sign certificates -/

theorem rootValue_nonneg (s : Mark) (f : Board → Mark → Int) {b : Board} {m : Nat}
    (hlen : b.length = 9) (hm : b.get? m = some none)
    (hnl : noLose s (countEmpties (makeMove b m s)) (makeMove b m s) false = true) :
    iv 0 ≤ alphaBetaSearch (makeMove b m s) 0 ⊥ ⊤ false s f 9 := by
  rw [alphaBetaSearch_eq_minimax]
  have hcnt := countEmpties_makeMove s hm
  have he9 : countEmpties b ≤ 9 := hlen ▸ countEmpties_le_length b
  exact (noLose_iff s f _ _ 0 false (by rw [makeMove_length]; exact hlen)
    (le_refl _) (by omega)).mp hnl

theorem rootValue_neg (s : Mark) (f : Board → Mark → Int) {b : Board} {m : Nat}
    (hlen : b.length = 9) (hm : b.get? m = some none)
    (hnl : noLose s (countEmpties (makeMove b m s)) (makeMove b m s) false = false) :
    alphaBetaSearch (makeMove b m s) 0 ⊥ ⊤ false s f 9 < iv 0 := by
  rw [alphaBetaSearch_eq_minimax]
  have hcnt := countEmpties_makeMove s hm
  have he9 : countEmpties b ≤ 9 := hlen ▸ countEmpties_le_length b
  refine lt_of_not_le (fun hge => ?_)
  have := (noLose_iff s f (countEmpties (makeMove b m s)) _ 0 false
    (by rw [makeMove_length]; exact hlen) (le_refl _) (by omega)).mpr hge
  rw [this] at hnl
  cases hnl

theorem rootValues_nonpos_of_noWin (s : Mark) (f : Board → Mark → Int) {b : Board}
    (hlen : b.length = 9) (hterm : (isTerminal b).terminal = false)
    (hnw : noWin s (countEmpties b) b true = true) :
    ∀ m ∈ getLegalMoves b,
      alphaBetaSearch (makeMove b m s) 0 ⊥ ⊤ false s f 9 ≤ iv 0 := by
  intro m hm
  have he9 : countEmpties b ≤ 9 := hlen ▸ countEmpties_le_length b
  have hemp : 1 ≤ countEmpties b := one_le_countEmpties_of_not_terminal hterm
  have hval : minimax b 0 true s f 9 ≤ iv 0 :=
    (noWin_iff s f _ b 0 true hlen (le_refl _) (by omega)).mp hnw
  rw [minimax_unfold_max b 0 s f 9 hterm (by omega)] at hval
  have h1 : minimax (makeMove b m s) 1 false s f 9 ≤ iv 0 :=
    ((foldl_max_le_iff _ _ _ _).mp hval).2 m hm
  have hcnt := countEmpties_makeMove s (mem_getLegalMoves.mp hm)
  rw [alphaBetaSearch_eq_minimax]
  exact (minimax_le_sign_shift s f (by rw [makeMove_length]; exact hlen) false 1 0
    (by omega) (by omega)).mp h1

/-- The best move of a position certified drawn (`noWin` at the parent),
whose moves before `mstar` are certified losing and where `mstar` is
certified non-losing, is exactly `mstar`. -/
theorem findBestMove_draw_step (s : Mark) (f : Board → Mark → Int) (board : Board)
    (l₁ l₂ : List Nat) (mstar : Nat)
    (hlen : board.length = 9) (hterm : (isTerminal board).terminal = false)
    (hsplit : getLegalMoves board = l₁ ++ mstar :: l₂)
    (hnw : noWin s (countEmpties board) board true = true)
    (hneg : ∀ m ∈ l₁,
      noLose s (countEmpties (makeMove board m s)) (makeMove board m s) false = false)
    (hnl : noLose s (countEmpties (makeMove board mstar s)) (makeMove board mstar s) false = true) :
    (findBestMove board s f 9).bestMove = some mstar := by
  have hmem : ∀ m, m ∈ l₁ ∨ m = mstar ∨ m ∈ l₂ → m ∈ getLegalMoves board := by
    intro m hm
    rw [hsplit]
    rcases hm with h | h | h
    · exact List.mem_append_left _ h
    · exact List.mem_append_right _ (h ▸ List.mem_cons_self _ _)
    · exact List.mem_append_right _ (List.mem_cons_of_mem _ h)
  have hstar : iv 0 ≤ alphaBetaSearch (makeMove board mstar s) 0 ⊥ ⊤ false s f 9 :=
    rootValue_nonneg s f hlen
      (mem_getLegalMoves.mp (hmem mstar (Or.inr (Or.inl rfl)))) hnl
  rw [findBestMove_eq_bestFold, hsplit]
  refine bestFold_bestMove_bounds _ mstar l₁ l₂ _ ?_ ?_ ?_
  · intro m hm
    exact lt_of_lt_of_le
      (rootValue_neg s f hlen (mem_getLegalMoves.mp (hmem m (Or.inl hm))) (hneg m hm))
      hstar
  · exact lt_of_lt_of_le (bot_lt_iv 0) hstar
  · intro m hm
    exact le_trans
      (rootValues_nonpos_of_noWin s f hlen hterm hnw m (hmem m (Or.inr (Or.inr hm))))
      hstar

/-- With a single legal move, `findBestMove` returns it. -/
theorem findBestMove_single (board : Board) (s : Mark) (f : Board → Mark → Int)
    (md : Nat) (mstar : Nat) (hsplit : getLegalMoves board = [mstar]) :
    (findBestMove board s f md).bestMove = some mstar := by
  rw [findBestMove_eq_bestFold, hsplit]
  rcases abGo_finite f s md (md - 0) (makeMove board mstar s) 0 ⊥ ⊤ false with ⟨z, hz⟩
  refine bestFold_bestMove_bounds _ mstar [] [] _ (by intro m hm; cases hm) ?_
    (by intro m hm; cases hm)
  show (⊥ : EInt) < alphaBetaSearch (makeMove board mstar s) 0 ⊥ ⊤ false s f md
  rw [alphaBetaSearch, hz]
  exact bot_lt_iv z

/-! The witness play: X opens with `findBestMove`, O replies 4, 2, 3, 7;
every X move below is the computed `findBestMove` choice and the game
ends in a draw. -/

def gW1 : Board := makeMove createEmptyBoard 0 Mark.X
def gW2 : Board := makeMove gW1 4 Mark.O
def gW3 : Board := makeMove gW2 1 Mark.X
def gW4 : Board := makeMove gW3 2 Mark.O
def gW5 : Board := makeMove gW4 6 Mark.X
def gW6 : Board := makeMove gW5 3 Mark.O
def gW7 : Board := makeMove gW6 5 Mark.X
def gW8 : Board := makeMove gW7 7 Mark.O
def gW9 : Board := makeMove gW8 8 Mark.X

theorem foldl_max_attained (v : Nat → EInt) :
    ∀ (l : List Nat) (a : EInt),
      l.foldl (fun acc m => max acc (v m)) a = a ∨
      ∃ m ∈ l, l.foldl (fun acc m => max acc (v m)) a = v m := by
  intro l
  induction l with
  | nil => intro a; exact Or.inl rfl
  | cons m rest ih =>
    intro a
    rw [List.foldl_cons]
    rcases ih (max a (v m)) with h | ⟨m', hm', h⟩
    · rcases max_choice a (v m) with hc | hc
      · exact Or.inl (by rw [h, hc])
      · exact Or.inr ⟨m, List.mem_cons_self _ _, by rw [h, hc]⟩
    · exact Or.inr ⟨m', List.mem_cons_of_mem m hm', h⟩

/-! ## The claims -/

/-- C1: for every board, search depth and evaluator, the alpha-beta
search driven by `findBestMove` (full window, root depth 0) returns the
same result as the plain minimax search without pruning: the chosen
move, the best value and the whole per-move evaluation list coincide,
and every full-window `alphaBetaSearch` value equals the corresponding
`minimax` value. -/
theorem claim_C1 (board : Board) (aiPlayer : Mark) (f : Board → Mark → Int) (maxDepth : Nat) :
    findBestMove board aiPlayer f maxDepth = findBestMoveMinimax board aiPlayer f maxDepth ∧
    ∀ (b : Board) (d : Nat) (mx : Bool),
      alphaBetaSearch b d ⊥ ⊤ mx aiPlayer f maxDepth = minimax b d mx aiPlayer f maxDepth :=
  ⟨findBestMove_eq_minimax_version board aiPlayer f maxDepth,
   fun b d mx => alphaBetaSearch_eq_minimax b d mx aiPlayer f maxDepth⟩

/-- C3: on a terminal board `alphaBetaSearch` returns exactly
`100 - depth` / `depth - 100` / `0` according to the winner, for every
evaluator (so the evaluator is never consulted there, at any depth and
in particular also at `depth ≥ maxDepth`: the terminal check runs
first); the evaluator is applied exactly to non-terminal boards at
`depth ≥ maxDepth`. -/
theorem claim_C3 (b : Board) (d maxDepth : Nat) (α β : EInt) (mx : Bool) (ai : Mark)
    (f g : Board → Mark → Int) (ht : (isTerminal b).terminal = true) :
    alphaBetaSearch b d α β mx ai f maxDepth =
      (if (isTerminal b).winner = some (WinInfo.mark ai) then iv (100 - d)
       else if (isTerminal b).winner = some (WinInfo.mark (getOpponent ai)) then iv (d - 100)
       else iv 0) ∧
    alphaBetaSearch b d α β mx ai f maxDepth = alphaBetaSearch b d α β mx ai g maxDepth ∧
    (∀ b2 : Board, (isTerminal b2).terminal = false → maxDepth ≤ d →
      alphaBetaSearch b2 d α β mx ai f maxDepth = iv (f b2 ai)) := by
  refine ⟨abGo_terminal f ai maxDepth _ b d α β mx ht, ?_, ?_⟩
  · exact (abGo_terminal f ai maxDepth (maxDepth - d) b d α β mx ht).trans
      (abGo_terminal g ai maxDepth (maxDepth - d) b d α β mx ht).symm
  · intro b2 h2 hd
    exact abGo_eval f ai maxDepth _ b2 d α β mx h2 hd

/-- C3 witness: a board with a completed X row, evaluated at depth 9
with `maxDepth = 3` and two different evaluators, scores `100 - 9 = 91`
regardless of the evaluator, while a non-terminal board at
`depth ≥ maxDepth` scores exactly the evaluator value. -/
theorem claim_C3_witness :
    alphaBetaSearch
        [some Mark.X, some Mark.X, some Mark.X, none, none, none, none, none, none]
        9 ⊥ ⊤ true Mark.X (fun _ _ => 7) 3 = iv 91 ∧
    alphaBetaSearch
        [some Mark.X, some Mark.X, some Mark.X, none, none, none, none, none, none]
        9 ⊥ ⊤ true Mark.X (fun _ _ => 7) 3 =
      alphaBetaSearch
        [some Mark.X, some Mark.X, some Mark.X, none, none, none, none, none, none]
        9 ⊥ ⊤ true Mark.X (fun _ _ => 42) 3 ∧
    alphaBetaSearch [some Mark.X, none, none, none, none, none, none, none, none]
        9 ⊥ ⊤ true Mark.X (fun _ _ => 7) 3 = iv 7 := by
  have h := claim_C3
    [some Mark.X, some Mark.X, some Mark.X, none, none, none, none, none, none]
    9 3 ⊥ ⊤ true Mark.X (fun _ _ => 7) (fun _ _ => 42) (by decide)
  refine ⟨?_, h.2.1, h.2.2 [some Mark.X, none, none, none, none, none, none, none, none]
    (by decide) (by decide)⟩
  rw [h.1]
  decide

/-- C4: whenever a board has a legal move, `findBestMove` returns
`some` move that is legal, attains the maximum of all root values, and
is the lowest-index such move (the strict `>` update never lets an
equal-valued later move replace an earlier best). -/
theorem claim_C4 (board : Board) (ai : Mark) (f : Board → Mark → Int) (md : Nat)
    (h : getLegalMoves board ≠ []) :
    ∃ m, (findBestMove board ai f md).bestMove = some m ∧
      m ∈ getLegalMoves board ∧
      (findBestMove board ai f md).bestValue =
        alphaBetaSearch (makeMove board m ai) 0 ⊥ ⊤ false ai f md ∧
      (∀ m' ∈ getLegalMoves board,
        alphaBetaSearch (makeMove board m' ai) 0 ⊥ ⊤ false ai f md ≤
          alphaBetaSearch (makeMove board m ai) 0 ⊥ ⊤ false ai f md) ∧
      (∀ m' ∈ getLegalMoves board,
        alphaBetaSearch (makeMove board m' ai) 0 ⊥ ⊤ false ai f md =
          alphaBetaSearch (makeMove board m ai) 0 ⊥ ⊤ false ai f md → m ≤ m') := by
  classical
  set val := fun mm => alphaBetaSearch (makeMove board mm ai) 0 ⊥ ⊤ false ai f md with hval
  set V := (getLegalMoves board).foldl (fun a mm => max a (val mm)) (⊥ : EInt) with hV
  rcases List.exists_cons_of_ne_nil h with ⟨m₀, rest, hsplit⟩
  have hm₀ : m₀ ∈ getLegalMoves board := by rw [hsplit]; exact List.mem_cons_self _ _
  rcases abGo_finite f ai md (md - 0) (makeMove board m₀ ai) 0 ⊥ ⊤ false with ⟨z₀, hz₀⟩
  have hv₀ : val m₀ = iv z₀ := hz₀
  have hVgt : (⊥ : EInt) < V :=
    lt_of_lt_of_le (bot_lt_iv z₀) (hv₀ ▸ le_foldl_max_of_mem val _ ⊥ m₀ hm₀)
  have hbm : (findBestMove board ai f md).bestMove =
      (getLegalMoves board).find? (fun mm => val mm == V) := by
    rw [findBestMove_eq_bestFold]
    exact bestFold_first_argmax val (getLegalMoves board) ⟨none, ⊥, []⟩ hVgt
  have hattain : ∃ mm ∈ getLegalMoves board, (fun mm => val mm == V) mm = true := by
    rcases foldl_max_attained val (getLegalMoves board) ⊥ with hc | ⟨mm, hmm, hc⟩
    · exact absurd (hc ▸ hVgt) (lt_irrefl _)
    · exact ⟨mm, hmm, beq_iff_eq.mpr hc.symm⟩
  rcases Option.isSome_iff_exists.mp (List.find?_isSome.mpr hattain) with ⟨m, hm⟩
  have hpm := List.find?_some (p := fun mm => val mm == V) hm
  have hmV : val m = V := by simpa using hpm
  refine ⟨m, by rw [hbm, hm], List.mem_of_find?_eq_some hm, ?_, ?_, ?_⟩
  · rw [findBestMove_eq_bestFold, bestFold_bestValue]
    exact hmV.symm
  · intro m' hm'
    show val m' ≤ val m
    rw [hmV]
    exact le_foldl_max_of_mem val _ ⊥ m' hm'
  · intro m' hm' heq
    exact find?_min_of_pairwise (getLegalMoves_pairwise board) hm m' hm'
      (beq_iff_eq.mpr (heq.trans hmV))

/-- C4 witness at the empty board, evaluator constantly 0, depth 0. -/
theorem claim_C4_witness :
    ∃ m, (findBestMove createEmptyBoard Mark.X (fun _ _ => 0) 0).bestMove = some m ∧
      m ∈ getLegalMoves createEmptyBoard ∧
      (findBestMove createEmptyBoard Mark.X (fun _ _ => 0) 0).bestValue =
        alphaBetaSearch (makeMove createEmptyBoard m Mark.X) 0 ⊥ ⊤ false Mark.X (fun _ _ => 0) 0 ∧
      (∀ m' ∈ getLegalMoves createEmptyBoard,
        alphaBetaSearch (makeMove createEmptyBoard m' Mark.X) 0 ⊥ ⊤ false Mark.X (fun _ _ => 0) 0 ≤
          alphaBetaSearch (makeMove createEmptyBoard m Mark.X) 0 ⊥ ⊤ false Mark.X (fun _ _ => 0) 0) ∧
      (∀ m' ∈ getLegalMoves createEmptyBoard,
        alphaBetaSearch (makeMove createEmptyBoard m' Mark.X) 0 ⊥ ⊤ false Mark.X (fun _ _ => 0) 0 =
          alphaBetaSearch (makeMove createEmptyBoard m Mark.X) 0 ⊥ ⊤ false Mark.X (fun _ _ => 0) 0 →
            m ≤ m') :=
  claim_C4 createEmptyBoard Mark.X (fun _ _ => 0) 0 (by decide)

/-- C5: on non-terminal boards both linear evaluators clamp their score
into the closed interval `[-90, 90]`, for every player and (for the
dataset-format variant) every weight set. -/
theorem claim_C5 (b : Board) (p : Mark) (h : (isTerminal b).terminal = false) :
    (-90 ≤ MlEval.mlEvaluate b p ∧ MlEval.mlEvaluate b p ≤ 90) ∧
    (∀ (bias : Rat) (weights : List Rat),
      -90 ≤ MlEvalDS.mlEvaluate bias weights b p ∧
        MlEvalDS.mlEvaluate bias weights b p ≤ 90) := by
  constructor
  · simp only [MlEval.mlEvaluate, h, Bool.false_eq_true, if_false]
    exact ⟨le_max_left _ _, max_le (by norm_num) (min_le_left _ _)⟩
  · intro bias weights
    simp only [MlEvalDS.mlEvaluate, h, Bool.false_eq_true, if_false]
    exact ⟨le_max_left _ _, max_le (by norm_num) (min_le_left _ _)⟩

/-- C5 witness: the empty board is non-terminal; both evaluators stay in
`[-90, 90]` there. -/
theorem claim_C5_witness :
    (-90 ≤ MlEval.mlEvaluate createEmptyBoard Mark.X ∧
      MlEval.mlEvaluate createEmptyBoard Mark.X ≤ 90) ∧
    (∀ (bias : Rat) (weights : List Rat),
      -90 ≤ MlEvalDS.mlEvaluate bias weights createEmptyBoard Mark.X ∧
        MlEvalDS.mlEvaluate bias weights createEmptyBoard Mark.X ≤ 90) :=
  claim_C5 createEmptyBoard Mark.X (by decide)

/-- C6 counterexample: on the feature vector `[1,0,0,0,1,0]` (one X
mark holding the center) the O-perspective transform changes component
4 from `1` to `0`, so the center component is not passed through
unchanged. -/
theorem claim_C6_counterexample :
    adjustFeaturesForPlayer [1, 0, 0, 0, 1, 0] Mark.O = [0, 1, 0, 0, 0, 0] ∧
    ([1, 0, 0, 0, 1, 0] : List Rat).getD 4 0 = 1 ∧
    (adjustFeaturesForPlayer [1, 0, 0, 0, 1, 0] Mark.O).getD 4 0 = 0 := by
  refine ⟨?_, by norm_num, ?_⟩ <;> norm_num [adjustFeaturesForPlayer]

/-- C6 (amended): the O-perspective transform `adjustFeaturesForPlayer`
swaps components 0 and 1 and components 2 and 3 and passes component 5
through unchanged, but replaces component 4 by the O-center
approximation (`0` when X holds the center, else `1` exactly when the
board carries at least one mark); the inline flip of the dataset-format
`mlEvaluate` does pass components 4 and 5 through unchanged. -/
theorem claim_C6 (features : List Rat) :
    adjustFeaturesForPlayer features Mark.O =
      [features.getD 1 0, features.getD 0 0, features.getD 3 0, features.getD 2 0,
       (if features.getD 4 0 = 1 then 0
        else if features.getD 4 0 = 0 ∧ 1 ≤ features.getD 0 0 + features.getD 1 0 then 1
        else 0),
       features.getD 5 0] ∧
    adjustFeaturesForPlayer features Mark.X = features ∧
    MlEvalDS.flippedFeatures features =
      [features.getD 1 0, features.getD 0 0, features.getD 3 0, features.getD 2 0,
       features.getD 4 0, features.getD 5 0] := by
  refine ⟨?_, ?_, rfl⟩
  · rw [adjustFeaturesForPlayer, if_pos rfl]
  · rw [adjustFeaturesForPlayer, if_neg (by decide)]

/-- C8 counterexample: `makeMove` on an occupied cell does not fail and
does not leave the board unchanged - it overwrites the cell. -/
theorem claim_C8_counterexample :
    makeMove [some Mark.X, none, none, none, none, none, none, none, none] 0 Mark.O =
      [some Mark.O, none, none, none, none, none, none, none, none] ∧
    makeMove [some Mark.X, none, none, none, none, none, none, none, none] 0 Mark.O ≠
      [some Mark.X, none, none, none, none, none, none, none, none] := by
  exact ⟨rfl, by decide⟩

/-- C8 (amended): `makeMove` always succeeds and returns the input board
with the addressed cell overwritten by the mark (every other cell
unchanged); it performs no occupancy check, the caller must pre-filter
via `getLegalMoves`. -/
theorem claim_C8 (b : Board) (i : Nat) (mk : Mark) :
    makeMove b i mk = b.set i (some mk) ∧
    (∀ j, j ≠ i → (makeMove b i mk).get? j = b.get? j) ∧
    (i < b.length → (makeMove b i mk).get? i = some (some mk)) :=
  ⟨rfl, fun j hj => makeMove_get?_ne b i mk hj, fun hi => makeMove_get?_eq mk hi⟩

/-- C8 witness: overwriting the occupied cell 0 leaves cell 1 unchanged
and sets cell 0. -/
theorem claim_C8_witness :
    (makeMove [some Mark.X, none, none, none, none, none, none, none, none] 0 Mark.O).get? 1 =
      ([some Mark.X, none, none, none, none, none, none, none, none] : Board).get? 1 ∧
    (makeMove [some Mark.X, none, none, none, none, none, none, none, none] 0 Mark.O).get? 0 =
      some (some Mark.O) :=
  ⟨(claim_C8 [some Mark.X, none, none, none, none, none, none, none, none] 0 Mark.O).2.1
      1 (by decide),
   (claim_C8 [some Mark.X, none, none, none, none, none, none, none, none] 0 Mark.O).2.2
      (by decide)⟩

/-- C10: `getLegalMoves` returns exactly the indices of the empty cells
of any board, strictly ascending and duplicate-free, and this is
precisely the iteration order of the root loop of `findBestMove`. -/
theorem claim_C10 (b : Board) (ai : Mark) (f : Board → Mark → Int) (md : Nat) :
    (getLegalMoves b).Pairwise (· < ·) ∧
    (getLegalMoves b).Nodup ∧
    (∀ i, i ∈ getLegalMoves b ↔ b.get? i = some none) ∧
    (findBestMove b ai f md).moveEvaluations.map Prod.fst = getLegalMoves b := by
  refine ⟨getLegalMoves_pairwise b, getLegalMoves_nodup b,
    fun i => mem_getLegalMoves, ?_⟩
  rw [findBestMove_eq_bestFold, bestFold_moveEvaluations, List.nil_append, List.map_map]
  exact List.map_id _

theorem normalizeFeatures_mins (features : List (List Rat)) :
    (DatasetLoader.normalizeFeatures features).2.1 =
      features.foldl DatasetLoader.updateMins
        (List.replicate (features.getD 0 []).length ⊤) := rfl

theorem normalizeFeatures_maxs (features : List (List Rat)) :
    (DatasetLoader.normalizeFeatures features).2.2 =
      features.foldl DatasetLoader.updateMaxs
        (List.replicate (features.getD 0 []).length ⊥) := rfl

/-- C7: `trainLinearModel` iterates `trainEpoch`, and one epoch updates
the bias by `-lr * (Σ error_i)/m` and every non-bias weight by
`-lr * ((Σ error_i * x_ij)/m + λ * w_j)`: full-batch gradient descent
with L2 regularization on everything but the bias. -/
theorem claim_C7 (X : List (List Rat)) (y : List Rat) (lr reg : Rat)
    (w0 w : List Rat) (epochs : Nat)
    (hw : w.length = (X.getD 0 []).length + 1) :
    (ModelTrainer.trainLinearModel X y lr (epochs + 1) reg w0 =
      ModelTrainer.trainEpoch X y lr reg (ModelTrainer.trainLinearModel X y lr epochs reg w0)) ∧
    ((ModelTrainer.trainEpoch X y lr reg w).getD 0 0 =
      w.getD 0 0 - lr * (((List.range X.length).map
        (fun i => ModelTrainer.sampleError X y w (X.getD 0 []).length i)).sum /
          (X.length : Rat))) ∧
    (∀ j, j < (X.getD 0 []).length →
      (ModelTrainer.trainEpoch X y lr reg w).getD (j + 1) 0 =
        w.getD (j + 1) 0 - lr * (((List.range X.length).map
          (fun i => ModelTrainer.sampleError X y w (X.getD 0 []).length i *
            (X.getD i []).getD j 0)).sum / (X.length : Rat) +
          reg * w.getD (j + 1) 0)) := by
  refine ⟨Function.iterate_succ_apply' _ _ _, ?_, ?_⟩
  · have hgr := (ModelTrainer.sampleGradients_spec X y w (X.getD 0 []).length
      (List.range X.length) (List.replicate ((X.getD 0 []).length + 1) 0)
      (by rw [List.length_replicate])).1
    have hgr' : (ModelTrainer.sampleGradients X y w X.length (X.getD 0 []).length).getD 0 0 =
        (List.replicate ((X.getD 0 []).length + 1) (0 : Rat)).getD 0 0 +
          ((List.range X.length).map
            (fun i => ModelTrainer.sampleError X y w (X.getD 0 []).length i)).sum := hgr
    show (ModelTrainer.updateWeights w
      (ModelTrainer.sampleGradients X y w X.length (X.getD 0 []).length)
      (X.length : Rat) lr reg).getD 0 0 = _
    rw [ModelTrainer.updateWeights_getD _ _ _ _ _ 0 (by omega), hgr',
      getD_replicate (by omega) (0 : Rat) 0]
    norm_num
  · intro j hj
    have hgr := (ModelTrainer.sampleGradients_spec X y w (X.getD 0 []).length
      (List.range X.length) (List.replicate ((X.getD 0 []).length + 1) 0)
      (by rw [List.length_replicate])).2 j hj
    have hgr' : (ModelTrainer.sampleGradients X y w X.length (X.getD 0 []).length).getD (j + 1) 0 =
        (List.replicate ((X.getD 0 []).length + 1) (0 : Rat)).getD (j + 1) 0 +
          ((List.range X.length).map
            (fun i => ModelTrainer.sampleError X y w (X.getD 0 []).length i *
              (X.getD i []).getD j 0)).sum := hgr
    show (ModelTrainer.updateWeights w
      (ModelTrainer.sampleGradients X y w X.length (X.getD 0 []).length)
      (X.length : Rat) lr reg).getD (j + 1) 0 = _
    rw [ModelTrainer.updateWeights_getD _ _ _ _ _ (j + 1) (by omega), hgr',
      getD_replicate (by omega) (0 : Rat) 0, if_pos (by omega)]
    ring

/-- C7 witness: a 2-sample, 1-feature instance. -/
theorem claim_C7_witness :
    (ModelTrainer.trainLinearModel [[1], [2]] [1, -1] (1/2 : Rat) 1 (1/10 : Rat) [0, 1] =
      ModelTrainer.trainEpoch [[1], [2]] [1, -1] (1/2 : Rat) (1/10 : Rat)
        (ModelTrainer.trainLinearModel [[1], [2]] [1, -1] (1/2 : Rat) 0 (1/10 : Rat) [0, 1])) ∧
    ((ModelTrainer.trainEpoch [[1], [2]] [1, -1] (1/2 : Rat) (1/10 : Rat) [0, 1]).getD 0 0 =
      ([0, 1] : List Rat).getD 0 0 - (1/2 : Rat) * (((List.range ([[1], [2]] : List (List Rat)).length).map
        (fun i => ModelTrainer.sampleError [[1], [2]] [1, -1] [0, 1]
          (([[1], [2]] : List (List Rat)).getD 0 []).length i)).sum /
            ((([[1], [2]] : List (List Rat)).length : Rat)))) ∧
    (∀ j, j < (([[1], [2]] : List (List Rat)).getD 0 []).length →
      (ModelTrainer.trainEpoch [[1], [2]] [1, -1] (1/2 : Rat) (1/10 : Rat) [0, 1]).getD (j + 1) 0 =
        ([0, 1] : List Rat).getD (j + 1) 0 - (1/2 : Rat) * (((List.range ([[1], [2]] : List (List Rat)).length).map
          (fun i => ModelTrainer.sampleError [[1], [2]] [1, -1] [0, 1]
            (([[1], [2]] : List (List Rat)).getD 0 []).length i *
              (([[1], [2]] : List (List Rat)).getD i []).getD j 0)).sum /
                ((([[1], [2]] : List (List Rat)).length : Rat)) +
            (1/10 : Rat) * ([0, 1] : List Rat).getD (j + 1) 0)) :=
  claim_C7 [[1], [2]] [1, -1] (1/2 : Rat) (1/10 : Rat) [0, 1] [0, 1] 0 (by rfl)

/-- C9: min-max normalization round-trips: reconstructing
`normalized * (max - min) + min` recovers the original entry (exactly,
over the rationals), and a zero-range column is normalized to `0`. -/
theorem claim_C9 (features : List (List Rat)) (si : Nat) (row : List Rat)
    (hrect : ∀ r ∈ features, r.length = (features.getD 0 []).length)
    (hrow : features[si]? = some row) (j : Nat)
    (hj : j < (features.getD 0 []).length) :
    (((DatasetLoader.normalizeFeatures features).1.getD si []).getD j 0 *
        ((((DatasetLoader.normalizeFeatures features).2.2).getD j ⊥).unbot' 0 -
         (((DatasetLoader.normalizeFeatures features).2.1).getD j ⊤).untop' 0) +
      (((DatasetLoader.normalizeFeatures features).2.1).getD j ⊤).untop' 0 = row.getD j 0) ∧
    (((((DatasetLoader.normalizeFeatures features).2.2).getD j ⊥).unbot' 0 -
      (((DatasetLoader.normalizeFeatures features).2.1).getD j ⊤).untop' 0) = 0 →
      ((DatasetLoader.normalizeFeatures features).1.getD si []).getD j 0 = 0) := by
  have hmem : row ∈ features := List.getElem?_mem hrow
  have hj' : j < row.length := by rw [hrect row hmem]; exact hj
  have hmins : (DatasetLoader.normalizeFeatures features).2.1.getD j ⊤ ≤
      ((row.getD j 0 : Rat) : WithTop Rat) := by
    rw [normalizeFeatures_mins]
    exact DatasetLoader.mins_le_entry features _ row hmem j hj'
      (by rw [List.length_replicate]; exact hj)
  have hmaxs : ((row.getD j 0 : Rat) : WithBot Rat) ≤
      (DatasetLoader.normalizeFeatures features).2.2.getD j ⊥ := by
    rw [normalizeFeatures_maxs]
    exact DatasetLoader.entry_le_maxs features _ row hmem j hj'
      (by rw [List.length_replicate]; exact hj)
  rcases DatasetLoader.untop'_le_of_le hmins with ⟨hmn_le, _⟩
  rcases DatasetLoader.le_unbot'_of_ge hmaxs with ⟨hmx_ge, _⟩
  have hentry := DatasetLoader.normalizeFeatures_entry features si row hrow j hj'
  simp only at hentry
  set mn := (((DatasetLoader.normalizeFeatures features).2.1).getD j ⊤).untop' 0 with hmndef
  set mx := (((DatasetLoader.normalizeFeatures features).2.2).getD j ⊥).unbot' 0 with hmxdef
  by_cases hrange : mx - mn = 0
  · rw [hentry, if_pos hrange]
    have heq : mx = mn := by linarith
    have hv : row.getD j 0 = mn := le_antisymm (heq ▸ hmx_ge) hmn_le
    exact ⟨by rw [hrange]; ring_nf; exact hv.symm, fun _ => rfl⟩
  · rw [hentry, if_neg hrange]
    refine ⟨?_, fun hc => absurd hc hrange⟩
    rw [div_mul_cancel₀ _ hrange]
    ring

/-- C9 witness: the matrix `[[1, 5], [3, 5]]`; column 0 has range 2,
column 1 has range 0 (and is normalized to 0). -/
theorem claim_C9_witness :
    ((((DatasetLoader.normalizeFeatures [[1, 5], [3, 5]]).1.getD 0 []).getD 0 0 *
        ((((DatasetLoader.normalizeFeatures [[1, 5], [3, 5]]).2.2).getD 0 ⊥).unbot' 0 -
         (((DatasetLoader.normalizeFeatures [[1, 5], [3, 5]]).2.1).getD 0 ⊤).untop' 0) +
      (((DatasetLoader.normalizeFeatures [[1, 5], [3, 5]]).2.1).getD 0 ⊤).untop' 0 =
        ([1, 5] : List Rat).getD 0 0) ∧
     ((((DatasetLoader.normalizeFeatures [[1, 5], [3, 5]]).2.2).getD 0 ⊥).unbot' 0 -
       (((DatasetLoader.normalizeFeatures [[1, 5], [3, 5]]).2.1).getD 0 ⊤).untop' 0 = 0 →
       ((DatasetLoader.normalizeFeatures [[1, 5], [3, 5]]).1.getD 0 []).getD 0 0 = 0)) ∧
    ((((DatasetLoader.normalizeFeatures [[1, 5], [3, 5]]).1.getD 1 []).getD 1 0 *
        ((((DatasetLoader.normalizeFeatures [[1, 5], [3, 5]]).2.2).getD 1 ⊥).unbot' 0 -
         (((DatasetLoader.normalizeFeatures [[1, 5], [3, 5]]).2.1).getD 1 ⊤).untop' 0) +
      (((DatasetLoader.normalizeFeatures [[1, 5], [3, 5]]).2.1).getD 1 ⊤).untop' 0 =
        ([3, 5] : List Rat).getD 1 0) ∧
     ((((DatasetLoader.normalizeFeatures [[1, 5], [3, 5]]).2.2).getD 1 ⊥).unbot' 0 -
       (((DatasetLoader.normalizeFeatures [[1, 5], [3, 5]]).2.1).getD 1 ⊤).untop' 0 = 0 →
       ((DatasetLoader.normalizeFeatures [[1, 5], [3, 5]]).1.getD 1 []).getD 1 0 = 0)) :=
  ⟨claim_C9 [[1, 5], [3, 5]] 0 [1, 5] (by decide) rfl 0 (by decide),
   claim_C9 [[1, 5], [3, 5]] 1 [3, 5] (by decide) rfl 1 (by decide)⟩

/-! ## The computed game-theoretic facts (kernel-checked certificates) -/

/-! The strategy certificates below were computed from the game tree;
the kernel only replays them through the walkers above. -/

def certNLX : Cert :=
  (.strat 4 (.resp [(0, (.strat 2 (.resp [(6, (.strat 3 (.resp [(8, (.strat 5 .leaf)), (1, (.strat 8 (.resp
  [(5, (.strat 7 .leaf)), (7, (.strat 5 .leaf))]))), (5, (.strat 8 (.resp [(1, (.strat 7 .leaf)), (7,
  (.strat 1 .leaf))]))), (7, (.strat 8 (.resp [(1, (.strat 5 .leaf)), (5, (.strat 1 .leaf))])))]))), (8,
  (.strat 6 .leaf)), (1, (.strat 6 .leaf)), (3, (.strat 6 .leaf)), (5, (.strat 6 .leaf)), (7, (.strat 6
  .leaf))]))), (2, (.strat 0 (.resp [(6, (.strat 8 .leaf)), (8, (.strat 5 (.resp [(6, (.strat 3 .leaf)), (1,
  (.strat 6 (.resp [(3, (.strat 7 .leaf)), (7, (.strat 3 .leaf))]))), (3, (.strat 6 (.resp [(1, (.strat 7
  .leaf)), (7, (.strat 1 .leaf))]))), (7, (.strat 6 (.resp [(1, (.strat 3 .leaf)), (3, (.strat 1
  .leaf))])))]))), (1, (.strat 6 (.resp [(8, (.strat 3 .leaf)), (3, (.strat 8 .leaf)), (5, (.strat 8
  .leaf)), (7, (.strat 8 .leaf))]))), (3, (.strat 6 (.resp [(8, (.strat 5 (.resp [(1, (.strat 7 .leaf)), (7,
  (.strat 1 .leaf))]))), (1, (.strat 8 .leaf)), (5, (.strat 8 .leaf)), (7, (.strat 8 .leaf))]))), (5,
  (.strat 8 .leaf)), (7, (.strat 6 (.resp [(8, (.strat 3 .leaf)), (1, (.strat 8 .leaf)), (3, (.strat 8
  .leaf)), (5, (.strat 8 .leaf))])))]))), (6, (.strat 0 (.resp [(2, (.strat 8 .leaf)), (8, (.strat 7 (.resp
  [(2, (.strat 1 .leaf)), (1, (.strat 2 (.resp [(3, (.strat 5 .leaf)), (5, (.strat 3 .leaf))]))), (3,
  (.strat 2 (.resp [(1, (.strat 5 .leaf)), (5, (.strat 1 .leaf))]))), (5, (.strat 2 (.resp [(1, (.strat 3
  .leaf)), (3, (.strat 1 .leaf))])))]))), (1, (.strat 2 (.resp [(8, (.strat 7 (.resp [(3, (.strat 5 .leaf)),
  (5, (.strat 3 .leaf))]))), (3, (.strat 8 .leaf)), (5, (.strat 8 .leaf)), (7, (.strat 8 .leaf))]))), (3,
  (.strat 2 (.resp [(8, (.strat 1 .leaf)), (1, (.strat 8 .leaf)), (5, (.strat 8 .leaf)), (7, (.strat 8
  .leaf))]))), (5, (.strat 2 (.resp [(8, (.strat 1 .leaf)), (1, (.strat 8 .leaf)), (3, (.strat 8 .leaf)),
  (7, (.strat 8 .leaf))]))), (7, (.strat 8 .leaf))]))), (8, (.strat 0 (.resp [(2, (.strat 5 (.resp [(6,
  (.strat 3 .leaf)), (1, (.strat 6 (.resp [(3, (.strat 7 .leaf)), (7, (.strat 3 .leaf))]))), (3, (.strat 6
  (.resp [(1, (.strat 7 .leaf)), (7, (.strat 1 .leaf))]))), (7, (.strat 6 (.resp [(1, (.strat 3 .leaf)), (3,
  (.strat 1 .leaf))])))]))), (6, (.strat 7 (.resp [(2, (.strat 1 .leaf)), (1, (.strat 2 (.resp [(3, (.strat
  5 .leaf)), (5, (.strat 3 .leaf))]))), (3, (.strat 2 (.resp [(1, (.strat 5 .leaf)), (5, (.strat 1
  .leaf))]))), (5, (.strat 2 (.resp [(1, (.strat 3 .leaf)), (3, (.strat 1 .leaf))])))]))), (1, (.strat 2
  (.resp [(6, (.strat 7 (.resp [(3, (.strat 5 .leaf)), (5, (.strat 3 .leaf))]))), (3, (.strat 6 .leaf)), (5,
  (.strat 6 .leaf)), (7, (.strat 6 .leaf))]))), (3, (.strat 2 (.resp [(6, (.strat 1 .leaf)), (1, (.strat 6
  .leaf)), (5, (.strat 6 .leaf)), (7, (.strat 6 .leaf))]))), (5, (.strat 2 (.resp [(6, (.strat 1 .leaf)),
  (1, (.strat 6 .leaf)), (3, (.strat 6 .leaf)), (7, (.strat 6 .leaf))]))), (7, (.strat 6 (.resp [(2, (.strat
  3 .leaf)), (1, (.strat 2 .leaf)), (3, (.strat 2 .leaf)), (5, (.strat 2 .leaf))])))]))), (1, (.strat 0
  (.resp [(2, (.strat 6 (.resp [(8, (.strat 3 .leaf)), (3, (.strat 8 .leaf)), (5, (.strat 8 .leaf)), (7,
  (.strat 8 .leaf))]))), (6, (.strat 2 (.resp [(8, (.strat 7 (.resp [(3, (.strat 5 .leaf)), (5, (.strat 3
  .leaf))]))), (3, (.strat 8 .leaf)), (5, (.strat 8 .leaf)), (7, (.strat 8 .leaf))]))), (8, (.strat 2 (.resp
  [(6, (.strat 7 (.resp [(3, (.strat 5 .leaf)), (5, (.strat 3 .leaf))]))), (3, (.strat 6 .leaf)), (5,
  (.strat 6 .leaf)), (7, (.strat 6 .leaf))]))), (3, (.strat 2 (.resp [(6, (.strat 8 .leaf)), (8, (.strat 6
  .leaf)), (5, (.strat 6 .leaf)), (7, (.strat 6 .leaf))]))), (5, (.strat 2 (.resp [(6, (.strat 8 .leaf)),
  (8, (.strat 6 .leaf)), (3, (.strat 6 .leaf)), (7, (.strat 6 .leaf))]))), (7, (.strat 2 (.resp [(6, (.strat
  8 .leaf)), (8, (.strat 6 .leaf)), (3, (.strat 6 .leaf)), (5, (.strat 6 .leaf))])))]))), (3, (.strat 0
  (.resp [(2, (.strat 6 (.resp [(8, (.strat 5 (.resp [(1, (.strat 7 .leaf)), (7, (.strat 1 .leaf))]))), (1,
  (.strat 8 .leaf)), (5, (.strat 8 .leaf)), (7, (.strat 8 .leaf))]))), (6, (.strat 2 (.resp [(8, (.strat 1
  .leaf)), (1, (.strat 8 .leaf)), (5, (.strat 8 .leaf)), (7, (.strat 8 .leaf))]))), (8, (.strat 2 (.resp
  [(6, (.strat 1 .leaf)), (1, (.strat 6 .leaf)), (5, (.strat 6 .leaf)), (7, (.strat 6 .leaf))]))), (1,
  (.strat 2 (.resp [(6, (.strat 8 .leaf)), (8, (.strat 6 .leaf)), (5, (.strat 6 .leaf)), (7, (.strat 6
  .leaf))]))), (5, (.strat 2 (.resp [(6, (.strat 8 .leaf)), (8, (.strat 6 .leaf)), (1, (.strat 6 .leaf)),
  (7, (.strat 6 .leaf))]))), (7, (.strat 2 (.resp [(6, (.strat 8 .leaf)), (8, (.strat 6 .leaf)), (1, (.strat
  6 .leaf)), (5, (.strat 6 .leaf))])))]))), (5, (.strat 0 (.resp [(2, (.strat 8 .leaf)), (6, (.strat 2
  (.resp [(8, (.strat 1 .leaf)), (1, (.strat 8 .leaf)), (3, (.strat 8 .leaf)), (7, (.strat 8 .leaf))]))),
  (8, (.strat 2 (.resp [(6, (.strat 1 .leaf)), (1, (.strat 6 .leaf)), (3, (.strat 6 .leaf)), (7, (.strat 6
  .leaf))]))), (1, (.strat 2 (.resp [(6, (.strat 8 .leaf)), (8, (.strat 6 .leaf)), (3, (.strat 6 .leaf)),
  (7, (.strat 6 .leaf))]))), (3, (.strat 2 (.resp [(6, (.strat 8 .leaf)), (8, (.strat 6 .leaf)), (1, (.strat
  6 .leaf)), (7, (.strat 6 .leaf))]))), (7, (.strat 2 (.resp [(6, (.strat 8 .leaf)), (8, (.strat 6 .leaf)),
  (1, (.strat 6 .leaf)), (3, (.strat 6 .leaf))])))]))), (7, (.strat 0 (.resp [(2, (.strat 6 (.resp [(8,
  (.strat 3 .leaf)), (1, (.strat 8 .leaf)), (3, (.strat 8 .leaf)), (5, (.strat 8 .leaf))]))), (6, (.strat 8
  .leaf)), (8, (.strat 6 (.resp [(2, (.strat 3 .leaf)), (1, (.strat 2 .leaf)), (3, (.strat 2 .leaf)), (5,
  (.strat 2 .leaf))]))), (1, (.strat 2 (.resp [(6, (.strat 8 .leaf)), (8, (.strat 6 .leaf)), (3, (.strat 6
  .leaf)), (5, (.strat 6 .leaf))]))), (3, (.strat 2 (.resp [(6, (.strat 8 .leaf)), (8, (.strat 6 .leaf)),
  (1, (.strat 6 .leaf)), (5, (.strat 6 .leaf))]))), (5, (.strat 2 (.resp [(6, (.strat 8 .leaf)), (8, (.strat
  6 .leaf)), (1, (.strat 6 .leaf)), (3, (.strat 6 .leaf))])))])))]))

def certNLO : Cert :=
  (.strat 4 (.resp [(0, (.strat 2 (.resp [(6, (.strat 3 (.resp [(8, (.strat 5 .leaf)), (1, (.strat 8 (.resp
  [(5, (.strat 7 .leaf)), (7, (.strat 5 .leaf))]))), (5, (.strat 8 (.resp [(1, (.strat 7 .leaf)), (7,
  (.strat 1 .leaf))]))), (7, (.strat 8 (.resp [(1, (.strat 5 .leaf)), (5, (.strat 1 .leaf))])))]))), (8,
  (.strat 6 .leaf)), (1, (.strat 6 .leaf)), (3, (.strat 6 .leaf)), (5, (.strat 6 .leaf)), (7, (.strat 6
  .leaf))]))), (2, (.strat 0 (.resp [(6, (.strat 8 .leaf)), (8, (.strat 5 (.resp [(6, (.strat 3 .leaf)), (1,
  (.strat 6 (.resp [(3, (.strat 7 .leaf)), (7, (.strat 3 .leaf))]))), (3, (.strat 6 (.resp [(1, (.strat 7
  .leaf)), (7, (.strat 1 .leaf))]))), (7, (.strat 6 (.resp [(1, (.strat 3 .leaf)), (3, (.strat 1
  .leaf))])))]))), (1, (.strat 6 (.resp [(8, (.strat 3 .leaf)), (3, (.strat 8 .leaf)), (5, (.strat 8
  .leaf)), (7, (.strat 8 .leaf))]))), (3, (.strat 6 (.resp [(8, (.strat 5 (.resp [(1, (.strat 7 .leaf)), (7,
  (.strat 1 .leaf))]))), (1, (.strat 8 .leaf)), (5, (.strat 8 .leaf)), (7, (.strat 8 .leaf))]))), (5,
  (.strat 8 .leaf)), (7, (.strat 6 (.resp [(8, (.strat 3 .leaf)), (1, (.strat 8 .leaf)), (3, (.strat 8
  .leaf)), (5, (.strat 8 .leaf))])))]))), (6, (.strat 0 (.resp [(2, (.strat 8 .leaf)), (8, (.strat 7 (.resp
  [(2, (.strat 1 .leaf)), (1, (.strat 2 (.resp [(3, (.strat 5 .leaf)), (5, (.strat 3 .leaf))]))), (3,
  (.strat 2 (.resp [(1, (.strat 5 .leaf)), (5, (.strat 1 .leaf))]))), (5, (.strat 2 (.resp [(1, (.strat 3
  .leaf)), (3, (.strat 1 .leaf))])))]))), (1, (.strat 2 (.resp [(8, (.strat 7 (.resp [(3, (.strat 5 .leaf)),
  (5, (.strat 3 .leaf))]))), (3, (.strat 8 .leaf)), (5, (.strat 8 .leaf)), (7, (.strat 8 .leaf))]))), (3,
  (.strat 2 (.resp [(8, (.strat 1 .leaf)), (1, (.strat 8 .leaf)), (5, (.strat 8 .leaf)), (7, (.strat 8
  .leaf))]))), (5, (.strat 2 (.resp [(8, (.strat 1 .leaf)), (1, (.strat 8 .leaf)), (3, (.strat 8 .leaf)),
  (7, (.strat 8 .leaf))]))), (7, (.strat 8 .leaf))]))), (8, (.strat 0 (.resp [(2, (.strat 5 (.resp [(6,
  (.strat 3 .leaf)), (1, (.strat 6 (.resp [(3, (.strat 7 .leaf)), (7, (.strat 3 .leaf))]))), (3, (.strat 6
  (.resp [(1, (.strat 7 .leaf)), (7, (.strat 1 .leaf))]))), (7, (.strat 6 (.resp [(1, (.strat 3 .leaf)), (3,
  (.strat 1 .leaf))])))]))), (6, (.strat 7 (.resp [(2, (.strat 1 .leaf)), (1, (.strat 2 (.resp [(3, (.strat
  5 .leaf)), (5, (.strat 3 .leaf))]))), (3, (.strat 2 (.resp [(1, (.strat 5 .leaf)), (5, (.strat 1
  .leaf))]))), (5, (.strat 2 (.resp [(1, (.strat 3 .leaf)), (3, (.strat 1 .leaf))])))]))), (1, (.strat 2
  (.resp [(6, (.strat 7 (.resp [(3, (.strat 5 .leaf)), (5, (.strat 3 .leaf))]))), (3, (.strat 6 .leaf)), (5,
  (.strat 6 .leaf)), (7, (.strat 6 .leaf))]))), (3, (.strat 2 (.resp [(6, (.strat 1 .leaf)), (1, (.strat 6
  .leaf)), (5, (.strat 6 .leaf)), (7, (.strat 6 .leaf))]))), (5, (.strat 2 (.resp [(6, (.strat 1 .leaf)),
  (1, (.strat 6 .leaf)), (3, (.strat 6 .leaf)), (7, (.strat 6 .leaf))]))), (7, (.strat 6 (.resp [(2, (.strat
  3 .leaf)), (1, (.strat 2 .leaf)), (3, (.strat 2 .leaf)), (5, (.strat 2 .leaf))])))]))), (1, (.strat 0
  (.resp [(2, (.strat 6 (.resp [(8, (.strat 3 .leaf)), (3, (.strat 8 .leaf)), (5, (.strat 8 .leaf)), (7,
  (.strat 8 .leaf))]))), (6, (.strat 2 (.resp [(8, (.strat 7 (.resp [(3, (.strat 5 .leaf)), (5, (.strat 3
  .leaf))]))), (3, (.strat 8 .leaf)), (5, (.strat 8 .leaf)), (7, (.strat 8 .leaf))]))), (8, (.strat 2 (.resp
  [(6, (.strat 7 (.resp [(3, (.strat 5 .leaf)), (5, (.strat 3 .leaf))]))), (3, (.strat 6 .leaf)), (5,
  (.strat 6 .leaf)), (7, (.strat 6 .leaf))]))), (3, (.strat 2 (.resp [(6, (.strat 8 .leaf)), (8, (.strat 6
  .leaf)), (5, (.strat 6 .leaf)), (7, (.strat 6 .leaf))]))), (5, (.strat 2 (.resp [(6, (.strat 8 .leaf)),
  (8, (.strat 6 .leaf)), (3, (.strat 6 .leaf)), (7, (.strat 6 .leaf))]))), (7, (.strat 2 (.resp [(6, (.strat
  8 .leaf)), (8, (.strat 6 .leaf)), (3, (.strat 6 .leaf)), (5, (.strat 6 .leaf))])))]))), (3, (.strat 0
  (.resp [(2, (.strat 6 (.resp [(8, (.strat 5 (.resp [(1, (.strat 7 .leaf)), (7, (.strat 1 .leaf))]))), (1,
  (.strat 8 .leaf)), (5, (.strat 8 .leaf)), (7, (.strat 8 .leaf))]))), (6, (.strat 2 (.resp [(8, (.strat 1
  .leaf)), (1, (.strat 8 .leaf)), (5, (.strat 8 .leaf)), (7, (.strat 8 .leaf))]))), (8, (.strat 2 (.resp
  [(6, (.strat 1 .leaf)), (1, (.strat 6 .leaf)), (5, (.strat 6 .leaf)), (7, (.strat 6 .leaf))]))), (1,
  (.strat 2 (.resp [(6, (.strat 8 .leaf)), (8, (.strat 6 .leaf)), (5, (.strat 6 .leaf)), (7, (.strat 6
  .leaf))]))), (5, (.strat 2 (.resp [(6, (.strat 8 .leaf)), (8, (.strat 6 .leaf)), (1, (.strat 6 .leaf)),
  (7, (.strat 6 .leaf))]))), (7, (.strat 2 (.resp [(6, (.strat 8 .leaf)), (8, (.strat 6 .leaf)), (1, (.strat
  6 .leaf)), (5, (.strat 6 .leaf))])))]))), (5, (.strat 0 (.resp [(2, (.strat 8 .leaf)), (6, (.strat 2
  (.resp [(8, (.strat 1 .leaf)), (1, (.strat 8 .leaf)), (3, (.strat 8 .leaf)), (7, (.strat 8 .leaf))]))),
  (8, (.strat 2 (.resp [(6, (.strat 1 .leaf)), (1, (.strat 6 .leaf)), (3, (.strat 6 .leaf)), (7, (.strat 6
  .leaf))]))), (1, (.strat 2 (.resp [(6, (.strat 8 .leaf)), (8, (.strat 6 .leaf)), (3, (.strat 6 .leaf)),
  (7, (.strat 6 .leaf))]))), (3, (.strat 2 (.resp [(6, (.strat 8 .leaf)), (8, (.strat 6 .leaf)), (1, (.strat
  6 .leaf)), (7, (.strat 6 .leaf))]))), (7, (.strat 2 (.resp [(6, (.strat 8 .leaf)), (8, (.strat 6 .leaf)),
  (1, (.strat 6 .leaf)), (3, (.strat 6 .leaf))])))]))), (7, (.strat 0 (.resp [(2, (.strat 6 (.resp [(8,
  (.strat 3 .leaf)), (1, (.strat 8 .leaf)), (3, (.strat 8 .leaf)), (5, (.strat 8 .leaf))]))), (6, (.strat 8
  .leaf)), (8, (.strat 6 (.resp [(2, (.strat 3 .leaf)), (1, (.strat 2 .leaf)), (3, (.strat 2 .leaf)), (5,
  (.strat 2 .leaf))]))), (1, (.strat 2 (.resp [(6, (.strat 8 .leaf)), (8, (.strat 6 .leaf)), (3, (.strat 6
  .leaf)), (5, (.strat 6 .leaf))]))), (3, (.strat 2 (.resp [(6, (.strat 8 .leaf)), (8, (.strat 6 .leaf)),
  (1, (.strat 6 .leaf)), (5, (.strat 6 .leaf))]))), (5, (.strat 2 (.resp [(6, (.strat 8 .leaf)), (8, (.strat
  6 .leaf)), (1, (.strat 6 .leaf)), (3, (.strat 6 .leaf))])))])))]))

def certWA : Cert :=
  (.resp [(4, (.strat 0 (.resp [(2, (.strat 6 (.resp [(8, (.strat 3 .leaf)), (1, (.strat 3 .leaf)), (3,
  (.strat 5 (.resp [(8, (.strat 1 (.resp [(7, .leaf)]))), (1, (.strat 7 (.resp [(8, .leaf)]))), (7, (.strat
  1 (.resp [(8, .leaf)])))]))), (5, (.strat 3 .leaf)), (7, (.strat 1 (.resp [(8, (.strat 3 .leaf)), (3,
  (.strat 5 (.resp [(8, .leaf)]))), (5, (.strat 3 .leaf))])))]))), (6, (.strat 2 (.resp [(8, (.strat 1
  .leaf)), (1, (.strat 7 (.resp [(8, (.strat 3 (.resp [(5, .leaf)]))), (3, (.strat 5 (.resp [(8, .leaf)]))),
  (5, (.strat 3 (.resp [(8, .leaf)])))]))), (3, (.strat 1 .leaf)), (5, (.strat 1 .leaf)), (7, (.strat 1
  .leaf))]))), (8, (.strat 2 (.resp [(6, (.strat 1 .leaf)), (1, (.strat 7 (.resp [(6, (.strat 3 (.resp [(5,
  .leaf)]))), (3, (.strat 5 (.resp [(6, .leaf)]))), (5, (.strat 3 (.resp [(6, .leaf)])))]))), (3, (.strat 1
  .leaf)), (5, (.strat 1 .leaf)), (7, (.strat 1 .leaf))]))), (1, (.strat 7 (.resp [(2, (.strat 6 (.resp [(8,
  (.strat 3 .leaf)), (3, (.strat 8 .leaf)), (5, (.strat 8 .leaf))]))), (6, (.strat 2 (.resp [(8, (.strat 3
  (.resp [(5, .leaf)]))), (3, (.strat 5 (.resp [(8, .leaf)]))), (5, (.strat 3 (.resp [(8, .leaf)])))]))),
  (8, (.strat 2 (.resp [(6, (.strat 3 (.resp [(5, .leaf)]))), (3, (.strat 5 (.resp [(6, .leaf)]))), (5,
  (.strat 3 (.resp [(6, .leaf)])))]))), (3, (.strat 5 (.resp [(2, (.strat 6 (.resp [(8, .leaf)]))), (6,
  (.strat 2 (.resp [(8, .leaf)]))), (8, (.strat 2 (.resp [(6, .leaf)])))]))), (5, (.strat 3 (.resp [(2,
  (.strat 6 .leaf)), (6, (.strat 2 (.resp [(8, .leaf)]))), (8, (.strat 2 (.resp [(6, .leaf)])))])))]))), (3,
  (.strat 5 (.resp [(2, (.strat 6 (.resp [(8, (.strat 1 (.resp [(7, .leaf)]))), (1, (.strat 7 (.resp [(8,
  .leaf)]))), (7, (.strat 1 (.resp [(8, .leaf)])))]))), (6, (.strat 2 (.resp [(8, (.strat 1 .leaf)), (1,
  (.strat 8 .leaf)), (7, (.strat 8 .leaf))]))), (8, (.strat 2 (.resp [(6, (.strat 1 .leaf)), (1, (.strat 7
  (.resp [(6, .leaf)]))), (7, (.strat 1 .leaf))]))), (1, (.strat 7 (.resp [(2, (.strat 6 (.resp [(8,
  .leaf)]))), (6, (.strat 2 (.resp [(8, .leaf)]))), (8, (.strat 2 (.resp [(6, .leaf)])))]))), (7, (.strat 1
  (.resp [(2, (.strat 6 (.resp [(8, .leaf)]))), (6, (.strat 2 .leaf)), (8, (.strat 2 .leaf))])))]))), (5,
  (.strat 3 (.resp [(2, (.strat 6 .leaf)), (6, (.strat 2 (.resp [(8, (.strat 1 .leaf)), (1, (.strat 7 (.resp
  [(8, .leaf)]))), (7, (.strat 1 .leaf))]))), (8, (.strat 2 (.resp [(6, (.strat 1 .leaf)), (1, (.strat 6
  .leaf)), (7, (.strat 6 .leaf))]))), (1, (.strat 6 .leaf)), (7, (.strat 6 .leaf))]))), (7, (.strat 1 (.resp
  [(2, (.strat 6 (.resp [(8, (.strat 3 .leaf)), (3, (.strat 5 (.resp [(8, .leaf)]))), (5, (.strat 3
  .leaf))]))), (6, (.strat 2 .leaf)), (8, (.strat 2 .leaf)), (3, (.strat 2 .leaf)), (5, (.strat 2
  .leaf))])))]))), (0, (.strat 4 (.resp [(2, (.strat 1 (.resp [(6, (.strat 3 (.resp [(8, (.strat 5 .leaf)),
  (5, (.strat 8 (.resp [(7, .leaf)]))), (7, (.strat 8 (.resp [(5, .leaf)])))]))), (8, (.strat 5 (.resp [(6,
  (.strat 3 .leaf)), (3, (.strat 6 (.resp [(7, .leaf)]))), (7, (.strat 6 (.resp [(3, .leaf)])))]))), (3,
  (.strat 6 (.resp [(8, (.strat 5 (.resp [(7, .leaf)]))), (5, (.strat 8 (.resp [(7, .leaf)]))), (7, (.strat
  8 (.resp [(5, .leaf)])))]))), (5, (.strat 8 (.resp [(6, (.strat 3 (.resp [(7, .leaf)]))), (3, (.strat 6
  (.resp [(7, .leaf)]))), (7, (.strat 6 (.resp [(3, .leaf)])))]))), (7, (.strat 6 (.resp [(8, (.strat 5
  (.resp [(3, .leaf)]))), (3, (.strat 8 (.resp [(5, .leaf)]))), (5, (.strat 8 (.resp [(3,
  .leaf)])))])))]))), (6, (.strat 3 (.resp [(2, (.strat 1 (.resp [(8, (.strat 5 .leaf)), (5, (.strat 8
  (.resp [(7, .leaf)]))), (7, (.strat 8 (.resp [(5, .leaf)])))]))), (8, (.strat 5 .leaf)), (1, (.strat 2
  (.resp [(8, (.strat 5 .leaf)), (5, (.strat 8 (.resp [(7, .leaf)]))), (7, (.strat 8 (.resp [(5,
  .leaf)])))]))), (5, (.strat 2 (.resp [(8, (.strat 7 (.resp [(1, .leaf)]))), (1, (.strat 8 (.resp [(7,
  .leaf)]))), (7, (.strat 8 (.resp [(1, .leaf)])))]))), (7, (.strat 8 (.resp [(2, (.strat 1 (.resp [(5,
  .leaf)]))), (1, (.strat 2 (.resp [(5, .leaf)]))), (5, (.strat 2 (.resp [(1, .leaf)])))])))]))), (8,
  (.strat 1 (.resp [(2, (.strat 5 (.resp [(6, (.strat 3 .leaf)), (3, (.strat 6 (.resp [(7, .leaf)]))), (7,
  (.strat 6 (.resp [(3, .leaf)])))]))), (6, (.strat 7 .leaf)), (3, (.strat 6 (.resp [(2, (.strat 5 (.resp
  [(7, .leaf)]))), (5, (.strat 2 .leaf)), (7, (.strat 2 .leaf))]))), (5, (.strat 2 (.resp [(6, (.strat 7
  .leaf)), (3, (.strat 6 .leaf)), (7, (.strat 6 .leaf))]))), (7, (.strat 6 (.resp [(2, (.strat 5 (.resp [(3,
  .leaf)]))), (3, (.strat 2 .leaf)), (5, (.strat 2 .leaf))])))]))), (1, (.strat 2 (.resp [(6, (.strat 3
  (.resp [(8, (.strat 5 .leaf)), (5, (.strat 8 (.resp [(7, .leaf)]))), (7, (.strat 8 (.resp [(5,
  .leaf)])))]))), (8, (.strat 6 .leaf)), (3, (.strat 6 .leaf)), (5, (.strat 6 .leaf)), (7, (.strat 6
  .leaf))]))), (3, (.strat 6 (.resp [(2, (.strat 1 (.resp [(8, (.strat 5 (.resp [(7, .leaf)]))), (5, (.strat
  8 (.resp [(7, .leaf)]))), (7, (.strat 8 (.resp [(5, .leaf)])))]))), (8, (.strat 2 .leaf)), (1, (.strat 2
  .leaf)), (5, (.strat 2 .leaf)), (7, (.strat 2 .leaf))]))), (5, (.strat 2 (.resp [(6, (.strat 3 (.resp [(8,
  (.strat 7 (.resp [(1, .leaf)]))), (1, (.strat 8 (.resp [(7, .leaf)]))), (7, (.strat 8 (.resp [(1,
  .leaf)])))]))), (8, (.strat 6 .leaf)), (1, (.strat 6 .leaf)), (3, (.strat 6 .leaf)), (7, (.strat 6
  .leaf))]))), (7, (.strat 6 (.resp [(2, (.strat 1 (.resp [(8, (.strat 5 (.resp [(3, .leaf)]))), (3, (.strat
  8 (.resp [(5, .leaf)]))), (5, (.strat 8 (.resp [(3, .leaf)])))]))), (8, (.strat 2 .leaf)), (1, (.strat 2
  .leaf)), (3, (.strat 2 .leaf)), (5, (.strat 2 .leaf))])))]))), (2, (.strat 4 (.resp [(0, (.strat 1 (.resp
  [(6, (.strat 3 (.resp [(8, (.strat 5 .leaf)), (5, (.strat 8 (.resp [(7, .leaf)]))), (7, (.strat 8 (.resp
  [(5, .leaf)])))]))), (8, (.strat 5 (.resp [(6, (.strat 3 .leaf)), (3, (.strat 6 (.resp [(7, .leaf)]))),
  (7, (.strat 6 (.resp [(3, .leaf)])))]))), (3, (.strat 6 (.resp [(8, (.strat 5 (.resp [(7, .leaf)]))), (5,
  (.strat 8 (.resp [(7, .leaf)]))), (7, (.strat 8 (.resp [(5, .leaf)])))]))), (5, (.strat 8 (.resp [(6,
  (.strat 3 (.resp [(7, .leaf)]))), (3, (.strat 6 (.resp [(7, .leaf)]))), (7, (.strat 6 (.resp [(3,
  .leaf)])))]))), (7, (.strat 6 (.resp [(8, (.strat 5 (.resp [(3, .leaf)]))), (3, (.strat 8 (.resp [(5,
  .leaf)]))), (5, (.strat 8 (.resp [(3, .leaf)])))])))]))), (6, (.strat 1 (.resp [(0, (.strat 3 (.resp [(8,
  (.strat 5 .leaf)), (5, (.strat 8 (.resp [(7, .leaf)]))), (7, (.strat 8 (.resp [(5, .leaf)])))]))), (8,
  (.strat 7 .leaf)), (3, (.strat 0 (.resp [(8, (.strat 7 .leaf)), (5, (.strat 8 .leaf)), (7, (.strat 8
  .leaf))]))), (5, (.strat 8 (.resp [(0, (.strat 3 (.resp [(7, .leaf)]))), (3, (.strat 0 .leaf)), (7,
  (.strat 0 .leaf))]))), (7, (.strat 8 (.resp [(0, (.strat 3 (.resp [(5, .leaf)]))), (3, (.strat 0 .leaf)),
  (5, (.strat 0 .leaf))])))]))), (8, (.strat 5 (.resp [(0, (.strat 1 (.resp [(6, (.strat 3 .leaf)), (3,
  (.strat 6 (.resp [(7, .leaf)]))), (7, (.strat 6 (.resp [(3, .leaf)])))]))), (6, (.strat 3 .leaf)), (1,
  (.strat 0 (.resp [(6, (.strat 3 .leaf)), (3, (.strat 6 (.resp [(7, .leaf)]))), (7, (.strat 6 (.resp [(3,
  .leaf)])))]))), (3, (.strat 0 (.resp [(6, (.strat 7 (.resp [(1, .leaf)]))), (1, (.strat 6 (.resp [(7,
  .leaf)]))), (7, (.strat 6 (.resp [(1, .leaf)])))]))), (7, (.strat 6 (.resp [(0, (.strat 1 (.resp [(3,
  .leaf)]))), (1, (.strat 0 (.resp [(3, .leaf)]))), (3, (.strat 0 (.resp [(1, .leaf)])))])))]))), (1,
  (.strat 0 (.resp [(6, (.strat 8 .leaf)), (8, (.strat 5 (.resp [(6, (.strat 3 .leaf)), (3, (.strat 6 (.resp
  [(7, .leaf)]))), (7, (.strat 6 (.resp [(3, .leaf)])))]))), (3, (.strat 6 (.resp [(8, (.strat 5 (.resp [(7,
  .leaf)]))), (5, (.strat 8 .leaf)), (7, (.strat 8 .leaf))]))), (5, (.strat 8 .leaf)), (7, (.strat 6 (.resp
  [(8, (.strat 3 .leaf)), (3, (.strat 8 .leaf)), (5, (.strat 8 .leaf))])))]))), (3, (.strat 0 (.resp [(6,
  (.strat 8 .leaf)), (8, (.strat 5 (.resp [(6, (.strat 7 (.resp [(1, .leaf)]))), (1, (.strat 6 (.resp [(7,
  .leaf)]))), (7, (.strat 6 (.resp [(1, .leaf)])))]))), (1, (.strat 6 (.resp [(8, (.strat 5 (.resp [(7,
  .leaf)]))), (5, (.strat 8 .leaf)), (7, (.strat 8 .leaf))]))), (5, (.strat 8 .leaf)), (7, (.strat 6 (.resp
  [(8, (.strat 5 (.resp [(1, .leaf)]))), (1, (.strat 8 .leaf)), (5, (.strat 8 .leaf))])))]))), (5, (.strat 8
  (.resp [(0, (.strat 1 (.resp [(6, (.strat 3 (.resp [(7, .leaf)]))), (3, (.strat 6 (.resp [(7, .leaf)]))),
  (7, (.strat 6 (.resp [(3, .leaf)])))]))), (6, (.strat 0 .leaf)), (1, (.strat 0 .leaf)), (3, (.strat 0
  .leaf)), (7, (.strat 0 .leaf))]))), (7, (.strat 6 (.resp [(0, (.strat 1 (.resp [(8, (.strat 5 (.resp [(3,
  .leaf)]))), (3, (.strat 8 (.resp [(5, .leaf)]))), (5, (.strat 8 (.resp [(3, .leaf)])))]))), (8, (.strat 5
  (.resp [(0, (.strat 1 (.resp [(3, .leaf)]))), (1, (.strat 0 (.resp [(3, .leaf)]))), (3, (.strat 0 (.resp
  [(1, .leaf)])))]))), (1, (.strat 0 (.resp [(8, (.strat 3 .leaf)), (3, (.strat 8 .leaf)), (5, (.strat 8
  .leaf))]))), (3, (.strat 0 (.resp [(8, (.strat 5 (.resp [(1, .leaf)]))), (1, (.strat 8 .leaf)), (5,
  (.strat 8 .leaf))]))), (5, (.strat 8 (.resp [(0, (.strat 1 (.resp [(3, .leaf)]))), (1, (.strat 0 .leaf)),
  (3, (.strat 0 .leaf))])))])))]))), (6, (.strat 4 (.resp [(0, (.strat 3 (.resp [(2, (.strat 1 (.resp [(8,
  (.strat 5 .leaf)), (5, (.strat 8 (.resp [(7, .leaf)]))), (7, (.strat 8 (.resp [(5, .leaf)])))]))), (8,
  (.strat 5 .leaf)), (1, (.strat 2 (.resp [(8, (.strat 5 .leaf)), (5, (.strat 8 (.resp [(7, .leaf)]))), (7,
  (.strat 8 (.resp [(5, .leaf)])))]))), (5, (.strat 2 (.resp [(8, (.strat 7 (.resp [(1, .leaf)]))), (1,
  (.strat 8 (.resp [(7, .leaf)]))), (7, (.strat 8 (.resp [(1, .leaf)])))]))), (7, (.strat 8 (.resp [(2,
  (.strat 1 (.resp [(5, .leaf)]))), (1, (.strat 2 (.resp [(5, .leaf)]))), (5, (.strat 2 (.resp [(1,
  .leaf)])))])))]))), (2, (.strat 1 (.resp [(0, (.strat 3 (.resp [(8, (.strat 5 .leaf)), (5, (.strat 8
  (.resp [(7, .leaf)]))), (7, (.strat 8 (.resp [(5, .leaf)])))]))), (8, (.strat 7 .leaf)), (3, (.strat 0
  (.resp [(8, (.strat 7 .leaf)), (5, (.strat 8 .leaf)), (7, (.strat 8 .leaf))]))), (5, (.strat 8 (.resp [(0,
  (.strat 3 (.resp [(7, .leaf)]))), (3, (.strat 0 .leaf)), (7, (.strat 0 .leaf))]))), (7, (.strat 8 (.resp
  [(0, (.strat 3 (.resp [(5, .leaf)]))), (3, (.strat 0 .leaf)), (5, (.strat 0 .leaf))])))]))), (8, (.strat 7
  (.resp [(0, (.strat 1 .leaf)), (2, (.strat 1 .leaf)), (1, (.strat 0 (.resp [(2, (.strat 5 (.resp [(3,
  .leaf)]))), (3, (.strat 2 (.resp [(5, .leaf)]))), (5, (.strat 2 (.resp [(3, .leaf)])))]))), (3, (.strat 0
  (.resp [(2, (.strat 1 .leaf)), (1, (.strat 2 (.resp [(5, .leaf)]))), (5, (.strat 2 (.resp [(1,
  .leaf)])))]))), (5, (.strat 2 (.resp [(0, (.strat 1 .leaf)), (1, (.strat 0 (.resp [(3, .leaf)]))), (3,
  (.strat 0 (.resp [(1, .leaf)])))])))]))), (1, (.strat 0 (.resp [(2, (.strat 8 .leaf)), (8, (.strat 7
  (.resp [(2, (.strat 5 (.resp [(3, .leaf)]))), (3, (.strat 2 (.resp [(5, .leaf)]))), (5, (.strat 2 (.resp
  [(3, .leaf)])))]))), (3, (.strat 2 (.resp [(8, (.strat 7 (.resp [(5, .leaf)]))), (5, (.strat 8 .leaf)),
  (7, (.strat 8 .leaf))]))), (5, (.strat 2 (.resp [(8, (.strat 7 (.resp [(3, .leaf)]))), (3, (.strat 8
  .leaf)), (7, (.strat 8 .leaf))]))), (7, (.strat 8 .leaf))]))), (3, (.strat 0 (.resp [(2, (.strat 8
  .leaf)), (8, (.strat 7 (.resp [(2, (.strat 1 .leaf)), (1, (.strat 2 (.resp [(5, .leaf)]))), (5, (.strat 2
  (.resp [(1, .leaf)])))]))), (1, (.strat 2 (.resp [(8, (.strat 7 (.resp [(5, .leaf)]))), (5, (.strat 8
  .leaf)), (7, (.strat 8 .leaf))]))), (5, (.strat 2 (.resp [(8, (.strat 1 .leaf)), (1, (.strat 8 .leaf)),
  (7, (.strat 8 .leaf))]))), (7, (.strat 8 .leaf))]))), (5, (.strat 2 (.resp [(0, (.strat 3 (.resp [(8,
  (.strat 7 (.resp [(1, .leaf)]))), (1, (.strat 8 (.resp [(7, .leaf)]))), (7, (.strat 8 (.resp [(1,
  .leaf)])))]))), (8, (.strat 7 (.resp [(0, (.strat 1 .leaf)), (1, (.strat 0 (.resp [(3, .leaf)]))), (3,
  (.strat 0 (.resp [(1, .leaf)])))]))), (1, (.strat 0 (.resp [(8, (.strat 7 (.resp [(3, .leaf)]))), (3,
  (.strat 8 .leaf)), (7, (.strat 8 .leaf))]))), (3, (.strat 0 (.resp [(8, (.strat 1 .leaf)), (1, (.strat 8
  .leaf)), (7, (.strat 8 .leaf))]))), (7, (.strat 8 (.resp [(0, (.strat 3 (.resp [(1, .leaf)]))), (1,
  (.strat 0 .leaf)), (3, (.strat 0 .leaf))])))]))), (7, (.strat 8 (.resp [(0, (.strat 3 (.resp [(2, (.strat
  1 (.resp [(5, .leaf)]))), (1, (.strat 2 (.resp [(5, .leaf)]))), (5, (.strat 2 (.resp [(1, .leaf)])))]))),
  (2, (.strat 0 .leaf)), (1, (.strat 0 .leaf)), (3, (.strat 0 .leaf)), (5, (.strat 0 .leaf))])))]))), (8,
  (.strat 4 (.resp [(0, (.strat 1 (.resp [(2, (.strat 5 (.resp [(6, (.strat 3 .leaf)), (3, (.strat 6 (.resp
  [(7, .leaf)]))), (7, (.strat 6 (.resp [(3, .leaf)])))]))), (6, (.strat 7 .leaf)), (3, (.strat 6 (.resp
  [(2, (.strat 5 (.resp [(7, .leaf)]))), (5, (.strat 2 .leaf)), (7, (.strat 2 .leaf))]))), (5, (.strat 2
  (.resp [(6, (.strat 7 .leaf)), (3, (.strat 6 .leaf)), (7, (.strat 6 .leaf))]))), (7, (.strat 6 (.resp [(2,
  (.strat 5 (.resp [(3, .leaf)]))), (3, (.strat 2 .leaf)), (5, (.strat 2 .leaf))])))]))), (2, (.strat 5
  (.resp [(0, (.strat 1 (.resp [(6, (.strat 3 .leaf)), (3, (.strat 6 (.resp [(7, .leaf)]))), (7, (.strat 6
  (.resp [(3, .leaf)])))]))), (6, (.strat 3 .leaf)), (1, (.strat 0 (.resp [(6, (.strat 3 .leaf)), (3,
  (.strat 6 (.resp [(7, .leaf)]))), (7, (.strat 6 (.resp [(3, .leaf)])))]))), (3, (.strat 0 (.resp [(6,
  (.strat 7 (.resp [(1, .leaf)]))), (1, (.strat 6 (.resp [(7, .leaf)]))), (7, (.strat 6 (.resp [(1,
  .leaf)])))]))), (7, (.strat 6 (.resp [(0, (.strat 1 (.resp [(3, .leaf)]))), (1, (.strat 0 (.resp [(3,
  .leaf)]))), (3, (.strat 0 (.resp [(1, .leaf)])))])))]))), (6, (.strat 7 (.resp [(0, (.strat 1 .leaf)), (2,
  (.strat 1 .leaf)), (1, (.strat 0 (.resp [(2, (.strat 5 (.resp [(3, .leaf)]))), (3, (.strat 2 (.resp [(5,
  .leaf)]))), (5, (.strat 2 (.resp [(3, .leaf)])))]))), (3, (.strat 0 (.resp [(2, (.strat 1 .leaf)), (1,
  (.strat 2 (.resp [(5, .leaf)]))), (5, (.strat 2 (.resp [(1, .leaf)])))]))), (5, (.strat 2 (.resp [(0,
  (.strat 1 .leaf)), (1, (.strat 0 (.resp [(3, .leaf)]))), (3, (.strat 0 (.resp [(1, .leaf)])))])))]))), (1,
  (.strat 0 (.resp [(2, (.strat 5 (.resp [(6, (.strat 3 .leaf)), (3, (.strat 6 (.resp [(7, .leaf)]))), (7,
  (.strat 6 (.resp [(3, .leaf)])))]))), (6, (.strat 7 (.resp [(2, (.strat 5 (.resp [(3, .leaf)]))), (3,
  (.strat 2 (.resp [(5, .leaf)]))), (5, (.strat 2 (.resp [(3, .leaf)])))]))), (3, (.strat 2 (.resp [(6,
  (.strat 7 (.resp [(5, .leaf)]))), (5, (.strat 6 .leaf)), (7, (.strat 6 .leaf))]))), (5, (.strat 2 (.resp
  [(6, (.strat 7 (.resp [(3, .leaf)]))), (3, (.strat 6 .leaf)), (7, (.strat 6 .leaf))]))), (7, (.strat 6
  (.resp [(2, (.strat 3 .leaf)), (3, (.strat 2 .leaf)), (5, (.strat 2 .leaf))])))]))), (3, (.strat 0 (.resp
  [(2, (.strat 5 (.resp [(6, (.strat 7 (.resp [(1, .leaf)]))), (1, (.strat 6 (.resp [(7, .leaf)]))), (7,
  (.strat 6 (.resp [(1, .leaf)])))]))), (6, (.strat 7 (.resp [(2, (.strat 1 .leaf)), (1, (.strat 2 (.resp
  [(5, .leaf)]))), (5, (.strat 2 (.resp [(1, .leaf)])))]))), (1, (.strat 2 (.resp [(6, (.strat 7 (.resp [(5,
  .leaf)]))), (5, (.strat 6 .leaf)), (7, (.strat 6 .leaf))]))), (5, (.strat 2 (.resp [(6, (.strat 1 .leaf)),
  (1, (.strat 6 .leaf)), (7, (.strat 6 .leaf))]))), (7, (.strat 6 (.resp [(2, (.strat 5 (.resp [(1,
  .leaf)]))), (1, (.strat 2 .leaf)), (5, (.strat 2 .leaf))])))]))), (5, (.strat 2 (.resp [(0, (.strat 6
  .leaf)), (6, (.strat 7 (.resp [(0, (.strat 1 .leaf)), (1, (.strat 0 (.resp [(3, .leaf)]))), (3, (.strat 0
  (.resp [(1, .leaf)])))]))), (1, (.strat 0 (.resp [(6, (.strat 7 (.resp [(3, .leaf)]))), (3, (.strat 6
  .leaf)), (7, (.strat 6 .leaf))]))), (3, (.strat 0 (.resp [(6, (.strat 1 .leaf)), (1, (.strat 6 .leaf)),
  (7, (.strat 6 .leaf))]))), (7, (.strat 6 .leaf))]))), (7, (.strat 6 (.resp [(0, (.strat 2 .leaf)), (2,
  (.strat 5 (.resp [(0, (.strat 1 (.resp [(3, .leaf)]))), (1, (.strat 0 (.resp [(3, .leaf)]))), (3, (.strat
  0 (.resp [(1, .leaf)])))]))), (1, (.strat 0 (.resp [(2, (.strat 3 .leaf)), (3, (.strat 2 .leaf)), (5,
  (.strat 2 .leaf))]))), (3, (.strat 0 (.resp [(2, (.strat 5 (.resp [(1, .leaf)]))), (1, (.strat 2 .leaf)),
  (5, (.strat 2 .leaf))]))), (5, (.strat 2 .leaf))])))]))), (1, (.strat 4 (.resp [(0, (.strat 2 (.resp [(6,
  (.strat 3 (.resp [(8, (.strat 5 .leaf)), (5, (.strat 8 (.resp [(7, .leaf)]))), (7, (.strat 8 (.resp [(5,
  .leaf)])))]))), (8, (.strat 6 .leaf)), (3, (.strat 6 .leaf)), (5, (.strat 6 .leaf)), (7, (.strat 6
  .leaf))]))), (2, (.strat 0 (.resp [(6, (.strat 8 .leaf)), (8, (.strat 5 (.resp [(6, (.strat 3 .leaf)), (3,
  (.strat 6 (.resp [(7, .leaf)]))), (7, (.strat 6 (.resp [(3, .leaf)])))]))), (3, (.strat 6 (.resp [(8,
  (.strat 5 (.resp [(7, .leaf)]))), (5, (.strat 8 .leaf)), (7, (.strat 8 .leaf))]))), (5, (.strat 8 .leaf)),
  (7, (.strat 6 (.resp [(8, (.strat 3 .leaf)), (3, (.strat 8 .leaf)), (5, (.strat 8 .leaf))])))]))), (6,
  (.strat 0 (.resp [(2, (.strat 8 .leaf)), (8, (.strat 7 (.resp [(2, (.strat 5 (.resp [(3, .leaf)]))), (3,
  (.strat 2 (.resp [(5, .leaf)]))), (5, (.strat 2 (.resp [(3, .leaf)])))]))), (3, (.strat 2 (.resp [(8,
  (.strat 7 (.resp [(5, .leaf)]))), (5, (.strat 8 .leaf)), (7, (.strat 8 .leaf))]))), (5, (.strat 2 (.resp
  [(8, (.strat 7 (.resp [(3, .leaf)]))), (3, (.strat 8 .leaf)), (7, (.strat 8 .leaf))]))), (7, (.strat 8
  .leaf))]))), (8, (.strat 0 (.resp [(2, (.strat 5 (.resp [(6, (.strat 3 .leaf)), (3, (.strat 6 (.resp [(7,
  .leaf)]))), (7, (.strat 6 (.resp [(3, .leaf)])))]))), (6, (.strat 7 (.resp [(2, (.strat 5 (.resp [(3,
  .leaf)]))), (3, (.strat 2 (.resp [(5, .leaf)]))), (5, (.strat 2 (.resp [(3, .leaf)])))]))), (3, (.strat 2
  (.resp [(6, (.strat 7 (.resp [(5, .leaf)]))), (5, (.strat 6 .leaf)), (7, (.strat 6 .leaf))]))), (5,
  (.strat 2 (.resp [(6, (.strat 7 (.resp [(3, .leaf)]))), (3, (.strat 6 .leaf)), (7, (.strat 6 .leaf))]))),
  (7, (.strat 6 (.resp [(2, (.strat 3 .leaf)), (3, (.strat 2 .leaf)), (5, (.strat 2 .leaf))])))]))), (3,
  (.strat 0 (.resp [(2, (.strat 6 (.resp [(8, (.strat 5 (.resp [(7, .leaf)]))), (5, (.strat 8 .leaf)), (7,
  (.strat 8 .leaf))]))), (6, (.strat 2 (.resp [(8, (.strat 7 (.resp [(5, .leaf)]))), (5, (.strat 8 .leaf)),
  (7, (.strat 8 .leaf))]))), (8, (.strat 2 (.resp [(6, (.strat 7 (.resp [(5, .leaf)]))), (5, (.strat 6
  .leaf)), (7, (.strat 6 .leaf))]))), (5, (.strat 2 (.resp [(6, (.strat 8 .leaf)), (8, (.strat 6 .leaf)),
  (7, (.strat 6 .leaf))]))), (7, (.strat 2 (.resp [(6, (.strat 8 .leaf)), (8, (.strat 6 .leaf)), (5, (.strat
  6 .leaf))])))]))), (5, (.strat 0 (.resp [(2, (.strat 8 .leaf)), (6, (.strat 2 (.resp [(8, (.strat 7 (.resp
  [(3, .leaf)]))), (3, (.strat 8 .leaf)), (7, (.strat 8 .leaf))]))), (8, (.strat 2 (.resp [(6, (.strat 7
  (.resp [(3, .leaf)]))), (3, (.strat 6 .leaf)), (7, (.strat 6 .leaf))]))), (3, (.strat 2 (.resp [(6,
  (.strat 8 .leaf)), (8, (.strat 6 .leaf)), (7, (.strat 6 .leaf))]))), (7, (.strat 2 (.resp [(6, (.strat 8
  .leaf)), (8, (.strat 6 .leaf)), (3, (.strat 6 .leaf))])))]))), (7, (.strat 0 (.resp [(2, (.strat 6 (.resp
  [(8, (.strat 3 .leaf)), (3, (.strat 8 .leaf)), (5, (.strat 8 .leaf))]))), (6, (.strat 8 .leaf)), (8,
  (.strat 6 (.resp [(2, (.strat 3 .leaf)), (3, (.strat 2 .leaf)), (5, (.strat 2 .leaf))]))), (3, (.strat 2
  (.resp [(6, (.strat 8 .leaf)), (8, (.strat 6 .leaf)), (5, (.strat 6 .leaf))]))), (5, (.strat 2 (.resp [(6,
  (.strat 8 .leaf)), (8, (.strat 6 .leaf)), (3, (.strat 6 .leaf))])))])))]))), (3, (.strat 4 (.resp [(0,
  (.strat 6 (.resp [(2, (.strat 1 (.resp [(8, (.strat 5 (.resp [(7, .leaf)]))), (5, (.strat 8 (.resp [(7,
  .leaf)]))), (7, (.strat 8 (.resp [(5, .leaf)])))]))), (8, (.strat 2 .leaf)), (1, (.strat 2 .leaf)), (5,
  (.strat 2 .leaf)), (7, (.strat 2 .leaf))]))), (2, (.strat 0 (.resp [(6, (.strat 8 .leaf)), (8, (.strat 5
  (.resp [(6, (.strat 7 (.resp [(1, .leaf)]))), (1, (.strat 6 (.resp [(7, .leaf)]))), (7, (.strat 6 (.resp
  [(1, .leaf)])))]))), (1, (.strat 6 (.resp [(8, (.strat 5 (.resp [(7, .leaf)]))), (5, (.strat 8 .leaf)),
  (7, (.strat 8 .leaf))]))), (5, (.strat 8 .leaf)), (7, (.strat 6 (.resp [(8, (.strat 5 (.resp [(1,
  .leaf)]))), (1, (.strat 8 .leaf)), (5, (.strat 8 .leaf))])))]))), (6, (.strat 0 (.resp [(2, (.strat 8
  .leaf)), (8, (.strat 7 (.resp [(2, (.strat 1 .leaf)), (1, (.strat 2 (.resp [(5, .leaf)]))), (5, (.strat 2
  (.resp [(1, .leaf)])))]))), (1, (.strat 2 (.resp [(8, (.strat 7 (.resp [(5, .leaf)]))), (5, (.strat 8
  .leaf)), (7, (.strat 8 .leaf))]))), (5, (.strat 2 (.resp [(8, (.strat 1 .leaf)), (1, (.strat 8 .leaf)),
  (7, (.strat 8 .leaf))]))), (7, (.strat 8 .leaf))]))), (8, (.strat 0 (.resp [(2, (.strat 5 (.resp [(6,
  (.strat 7 (.resp [(1, .leaf)]))), (1, (.strat 6 (.resp [(7, .leaf)]))), (7, (.strat 6 (.resp [(1,
  .leaf)])))]))), (6, (.strat 7 (.resp [(2, (.strat 1 .leaf)), (1, (.strat 2 (.resp [(5, .leaf)]))), (5,
  (.strat 2 (.resp [(1, .leaf)])))]))), (1, (.strat 2 (.resp [(6, (.strat 7 (.resp [(5, .leaf)]))), (5,
  (.strat 6 .leaf)), (7, (.strat 6 .leaf))]))), (5, (.strat 2 (.resp [(6, (.strat 1 .leaf)), (1, (.strat 6
  .leaf)), (7, (.strat 6 .leaf))]))), (7, (.strat 6 (.resp [(2, (.strat 5 (.resp [(1, .leaf)]))), (1,
  (.strat 2 .leaf)), (5, (.strat 2 .leaf))])))]))), (1, (.strat 0 (.resp [(2, (.strat 6 (.resp [(8, (.strat
  5 (.resp [(7, .leaf)]))), (5, (.strat 8 .leaf)), (7, (.strat 8 .leaf))]))), (6, (.strat 2 (.resp [(8,
  (.strat 7 (.resp [(5, .leaf)]))), (5, (.strat 8 .leaf)), (7, (.strat 8 .leaf))]))), (8, (.strat 2 (.resp
  [(6, (.strat 7 (.resp [(5, .leaf)]))), (5, (.strat 6 .leaf)), (7, (.strat 6 .leaf))]))), (5, (.strat 2
  (.resp [(6, (.strat 8 .leaf)), (8, (.strat 6 .leaf)), (7, (.strat 6 .leaf))]))), (7, (.strat 2 (.resp [(6,
  (.strat 8 .leaf)), (8, (.strat 6 .leaf)), (5, (.strat 6 .leaf))])))]))), (5, (.strat 0 (.resp [(2, (.strat
  8 .leaf)), (6, (.strat 2 (.resp [(8, (.strat 1 .leaf)), (1, (.strat 8 .leaf)), (7, (.strat 8 .leaf))]))),
  (8, (.strat 2 (.resp [(6, (.strat 1 .leaf)), (1, (.strat 6 .leaf)), (7, (.strat 6 .leaf))]))), (1, (.strat
  2 (.resp [(6, (.strat 8 .leaf)), (8, (.strat 6 .leaf)), (7, (.strat 6 .leaf))]))), (7, (.strat 2 (.resp
  [(6, (.strat 8 .leaf)), (8, (.strat 6 .leaf)), (1, (.strat 6 .leaf))])))]))), (7, (.strat 0 (.resp [(2,
  (.strat 6 (.resp [(8, (.strat 5 (.resp [(1, .leaf)]))), (1, (.strat 8 .leaf)), (5, (.strat 8 .leaf))]))),
  (6, (.strat 8 .leaf)), (8, (.strat 6 (.resp [(2, (.strat 5 (.resp [(1, .leaf)]))), (1, (.strat 2 .leaf)),
  (5, (.strat 2 .leaf))]))), (1, (.strat 2 (.resp [(6, (.strat 8 .leaf)), (8, (.strat 6 .leaf)), (5, (.strat
  6 .leaf))]))), (5, (.strat 2 (.resp [(6, (.strat 8 .leaf)), (8, (.strat 6 .leaf)), (1, (.strat 6
  .leaf))])))])))]))), (5, (.strat 4 (.resp [(0, (.strat 2 (.resp [(6, (.strat 3 (.resp [(8, (.strat 7
  (.resp [(1, .leaf)]))), (1, (.strat 8 (.resp [(7, .leaf)]))), (7, (.strat 8 (.resp [(1, .leaf)])))]))),
  (8, (.strat 6 .leaf)), (1, (.strat 6 .leaf)), (3, (.strat 6 .leaf)), (7, (.strat 6 .leaf))]))), (2,
  (.strat 8 (.resp [(0, (.strat 1 (.resp [(6, (.strat 3 (.resp [(7, .leaf)]))), (3, (.strat 6 (.resp [(7,
  .leaf)]))), (7, (.strat 6 (.resp [(3, .leaf)])))]))), (6, (.strat 0 .leaf)), (1, (.strat 0 .leaf)), (3,
  (.strat 0 .leaf)), (7, (.strat 0 .leaf))]))), (6, (.strat 2 (.resp [(0, (.strat 3 (.resp [(8, (.strat 7
  (.resp [(1, .leaf)]))), (1, (.strat 8 (.resp [(7, .leaf)]))), (7, (.strat 8 (.resp [(1, .leaf)])))]))),
  (8, (.strat 7 (.resp [(0, (.strat 1 .leaf)), (1, (.strat 0 (.resp [(3, .leaf)]))), (3, (.strat 0 (.resp
  [(1, .leaf)])))]))), (1, (.strat 0 (.resp [(8, (.strat 7 (.resp [(3, .leaf)]))), (3, (.strat 8 .leaf)),
  (7, (.strat 8 .leaf))]))), (3, (.strat 0 (.resp [(8, (.strat 1 .leaf)), (1, (.strat 8 .leaf)), (7, (.strat
  8 .leaf))]))), (7, (.strat 8 (.resp [(0, (.strat 3 (.resp [(1, .leaf)]))), (1, (.strat 0 .leaf)), (3,
  (.strat 0 .leaf))])))]))), (8, (.strat 2 (.resp [(0, (.strat 6 .leaf)), (6, (.strat 7 (.resp [(0, (.strat
  1 .leaf)), (1, (.strat 0 (.resp [(3, .leaf)]))), (3, (.strat 0 (.resp [(1, .leaf)])))]))), (1, (.strat 0
  (.resp [(6, (.strat 7 (.resp [(3, .leaf)]))), (3, (.strat 6 .leaf)), (7, (.strat 6 .leaf))]))), (3,
  (.strat 0 (.resp [(6, (.strat 1 .leaf)), (1, (.strat 6 .leaf)), (7, (.strat 6 .leaf))]))), (7, (.strat 6
  .leaf))]))), (1, (.strat 0 (.resp [(2, (.strat 8 .leaf)), (6, (.strat 2 (.resp [(8, (.strat 7 (.resp [(3,
  .leaf)]))), (3, (.strat 8 .leaf)), (7, (.strat 8 .leaf))]))), (8, (.strat 2 (.resp [(6, (.strat 7 (.resp
  [(3, .leaf)]))), (3, (.strat 6 .leaf)), (7, (.strat 6 .leaf))]))), (3, (.strat 2 (.resp [(6, (.strat 8
  .leaf)), (8, (.strat 6 .leaf)), (7, (.strat 6 .leaf))]))), (7, (.strat 2 (.resp [(6, (.strat 8 .leaf)),
  (8, (.strat 6 .leaf)), (3, (.strat 6 .leaf))])))]))), (3, (.strat 0 (.resp [(2, (.strat 8 .leaf)), (6,
  (.strat 2 (.resp [(8, (.strat 1 .leaf)), (1, (.strat 8 .leaf)), (7, (.strat 8 .leaf))]))), (8, (.strat 2
  (.resp [(6, (.strat 1 .leaf)), (1, (.strat 6 .leaf)), (7, (.strat 6 .leaf))]))), (1, (.strat 2 (.resp [(6,
  (.strat 8 .leaf)), (8, (.strat 6 .leaf)), (7, (.strat 6 .leaf))]))), (7, (.strat 2 (.resp [(6, (.strat 8
  .leaf)), (8, (.strat 6 .leaf)), (1, (.strat 6 .leaf))])))]))), (7, (.strat 2 (.resp [(0, (.strat 6
  .leaf)), (6, (.strat 8 (.resp [(0, (.strat 3 (.resp [(1, .leaf)]))), (1, (.strat 0 .leaf)), (3, (.strat 0
  .leaf))]))), (8, (.strat 6 .leaf)), (1, (.strat 0 (.resp [(6, (.strat 8 .leaf)), (8, (.strat 6 .leaf)),
  (3, (.strat 6 .leaf))]))), (3, (.strat 0 (.resp [(6, (.strat 8 .leaf)), (8, (.strat 6 .leaf)), (1, (.strat
  6 .leaf))])))])))]))), (7, (.strat 4 (.resp [(0, (.strat 6 (.resp [(2, (.strat 1 (.resp [(8, (.strat 5
  (.resp [(3, .leaf)]))), (3, (.strat 8 (.resp [(5, .leaf)]))), (5, (.strat 8 (.resp [(3, .leaf)])))]))),
  (8, (.strat 2 .leaf)), (1, (.strat 2 .leaf)), (3, (.strat 2 .leaf)), (5, (.strat 2 .leaf))]))), (2,
  (.strat 6 (.resp [(0, (.strat 1 (.resp [(8, (.strat 5 (.resp [(3, .leaf)]))), (3, (.strat 8 (.resp [(5,
  .leaf)]))), (5, (.strat 8 (.resp [(3, .leaf)])))]))), (8, (.strat 5 (.resp [(0, (.strat 1 (.resp [(3,
  .leaf)]))), (1, (.strat 0 (.resp [(3, .leaf)]))), (3, (.strat 0 (.resp [(1, .leaf)])))]))), (1, (.strat 0
  (.resp [(8, (.strat 3 .leaf)), (3, (.strat 8 .leaf)), (5, (.strat 8 .leaf))]))), (3, (.strat 0 (.resp [(8,
  (.strat 5 (.resp [(1, .leaf)]))), (1, (.strat 8 .leaf)), (5, (.strat 8 .leaf))]))), (5, (.strat 8 (.resp
  [(0, (.strat 1 (.resp [(3, .leaf)]))), (1, (.strat 0 .leaf)), (3, (.strat 0 .leaf))])))]))), (6, (.strat 8
  (.resp [(0, (.strat 3 (.resp [(2, (.strat 1 (.resp [(5, .leaf)]))), (1, (.strat 2 (.resp [(5, .leaf)]))),
  (5, (.strat 2 (.resp [(1, .leaf)])))]))), (2, (.strat 0 .leaf)), (1, (.strat 0 .leaf)), (3, (.strat 0
  .leaf)), (5, (.strat 0 .leaf))]))), (8, (.strat 6 (.resp [(0, (.strat 2 .leaf)), (2, (.strat 5 (.resp [(0,
  (.strat 1 (.resp [(3, .leaf)]))), (1, (.strat 0 (.resp [(3, .leaf)]))), (3, (.strat 0 (.resp [(1,
  .leaf)])))]))), (1, (.strat 0 (.resp [(2, (.strat 3 .leaf)), (3, (.strat 2 .leaf)), (5, (.strat 2
  .leaf))]))), (3, (.strat 0 (.resp [(2, (.strat 5 (.resp [(1, .leaf)]))), (1, (.strat 2 .leaf)), (5,
  (.strat 2 .leaf))]))), (5, (.strat 2 .leaf))]))), (1, (.strat 0 (.resp [(2, (.strat 6 (.resp [(8, (.strat
  3 .leaf)), (3, (.strat 8 .leaf)), (5, (.strat 8 .leaf))]))), (6, (.strat 8 .leaf)), (8, (.strat 6 (.resp
  [(2, (.strat 3 .leaf)), (3, (.strat 2 .leaf)), (5, (.strat 2 .leaf))]))), (3, (.strat 2 (.resp [(6,
  (.strat 8 .leaf)), (8, (.strat 6 .leaf)), (5, (.strat 6 .leaf))]))), (5, (.strat 2 (.resp [(6, (.strat 8
  .leaf)), (8, (.strat 6 .leaf)), (3, (.strat 6 .leaf))])))]))), (3, (.strat 0 (.resp [(2, (.strat 6 (.resp
  [(8, (.strat 5 (.resp [(1, .leaf)]))), (1, (.strat 8 .leaf)), (5, (.strat 8 .leaf))]))), (6, (.strat 8
  .leaf)), (8, (.strat 6 (.resp [(2, (.strat 5 (.resp [(1, .leaf)]))), (1, (.strat 2 .leaf)), (5, (.strat 2
  .leaf))]))), (1, (.strat 2 (.resp [(6, (.strat 8 .leaf)), (8, (.strat 6 .leaf)), (5, (.strat 6
  .leaf))]))), (5, (.strat 2 (.resp [(6, (.strat 8 .leaf)), (8, (.strat 6 .leaf)), (1, (.strat 6
  .leaf))])))]))), (5, (.strat 2 (.resp [(0, (.strat 6 .leaf)), (6, (.strat 8 (.resp [(0, (.strat 3 (.resp
  [(1, .leaf)]))), (1, (.strat 0 .leaf)), (3, (.strat 0 .leaf))]))), (8, (.strat 6 .leaf)), (1, (.strat 0
  (.resp [(6, (.strat 8 .leaf)), (8, (.strat 6 .leaf)), (3, (.strat 6 .leaf))]))), (3, (.strat 0 (.resp [(6,
  (.strat 8 .leaf)), (8, (.strat 6 .leaf)), (1, (.strat 6 .leaf))])))])))])))])

def certWB : Cert :=
  (.resp [(4, (.strat 2 (.resp [(6, (.strat 8 (.resp [(1, (.strat 5 .leaf)), (3, (.strat 1 .leaf)), (5,
  (.strat 1 .leaf)), (7, (.strat 1 .leaf))]))), (8, (.strat 6 (.resp [(1, (.strat 3 .leaf)), (3, (.strat 1
  .leaf)), (5, (.strat 1 .leaf)), (7, (.strat 1 .leaf))]))), (1, (.strat 7 (.resp [(6, (.strat 8 (.resp [(3,
  (.strat 5 .leaf)), (5, (.strat 3 .leaf))]))), (8, (.strat 6 (.resp [(3, (.strat 5 .leaf)), (5, (.strat 3
  .leaf))]))), (3, (.strat 5 (.resp [(6, (.strat 8 .leaf)), (8, (.strat 6 .leaf))]))), (5, (.strat 3 (.resp
  [(6, (.strat 8 .leaf)), (8, (.strat 6 .leaf))])))]))), (3, (.strat 1 .leaf)), (5, (.strat 1 .leaf)), (7,
  (.strat 1 .leaf))]))), (2, (.strat 4 (.resp [(6, (.strat 8 .leaf)), (8, (.strat 5 (.resp [(6, (.strat 3
  .leaf)), (1, (.strat 6 (.resp [(3, (.strat 7 .leaf)), (7, (.strat 3 .leaf))]))), (3, (.strat 6 (.resp [(1,
  (.strat 7 .leaf)), (7, (.strat 1 .leaf))]))), (7, (.strat 6 (.resp [(1, (.strat 3 .leaf)), (3, (.strat 1
  .leaf))])))]))), (1, (.strat 6 (.resp [(8, (.strat 3 .leaf)), (3, (.strat 8 .leaf)), (5, (.strat 8
  .leaf)), (7, (.strat 8 .leaf))]))), (3, (.strat 6 (.resp [(8, (.strat 5 (.resp [(1, (.strat 7 .leaf)), (7,
  (.strat 1 .leaf))]))), (1, (.strat 8 .leaf)), (5, (.strat 8 .leaf)), (7, (.strat 8 .leaf))]))), (5,
  (.strat 8 .leaf)), (7, (.strat 6 (.resp [(8, (.strat 3 .leaf)), (1, (.strat 8 .leaf)), (3, (.strat 8
  .leaf)), (5, (.strat 8 .leaf))])))]))), (6, (.strat 4 (.resp [(2, (.strat 8 .leaf)), (8, (.strat 7 (.resp
  [(2, (.strat 1 .leaf)), (1, (.strat 2 (.resp [(3, (.strat 5 .leaf)), (5, (.strat 3 .leaf))]))), (3,
  (.strat 2 (.resp [(1, (.strat 5 .leaf)), (5, (.strat 1 .leaf))]))), (5, (.strat 2 (.resp [(1, (.strat 3
  .leaf)), (3, (.strat 1 .leaf))])))]))), (1, (.strat 2 (.resp [(8, (.strat 7 (.resp [(3, (.strat 5 .leaf)),
  (5, (.strat 3 .leaf))]))), (3, (.strat 8 .leaf)), (5, (.strat 8 .leaf)), (7, (.strat 8 .leaf))]))), (3,
  (.strat 2 (.resp [(8, (.strat 1 .leaf)), (1, (.strat 8 .leaf)), (5, (.strat 8 .leaf)), (7, (.strat 8
  .leaf))]))), (5, (.strat 2 (.resp [(8, (.strat 1 .leaf)), (1, (.strat 8 .leaf)), (3, (.strat 8 .leaf)),
  (7, (.strat 8 .leaf))]))), (7, (.strat 8 .leaf))]))), (8, (.strat 4 (.resp [(2, (.strat 5 (.resp [(6,
  (.strat 3 .leaf)), (1, (.strat 6 (.resp [(3, (.strat 7 .leaf)), (7, (.strat 3 .leaf))]))), (3, (.strat 6
  (.resp [(1, (.strat 7 .leaf)), (7, (.strat 1 .leaf))]))), (7, (.strat 6 (.resp [(1, (.strat 3 .leaf)), (3,
  (.strat 1 .leaf))])))]))), (6, (.strat 7 (.resp [(2, (.strat 1 .leaf)), (1, (.strat 2 (.resp [(3, (.strat
  5 .leaf)), (5, (.strat 3 .leaf))]))), (3, (.strat 2 (.resp [(1, (.strat 5 .leaf)), (5, (.strat 1
  .leaf))]))), (5, (.strat 2 (.resp [(1, (.strat 3 .leaf)), (3, (.strat 1 .leaf))])))]))), (1, (.strat 2
  (.resp [(6, (.strat 7 (.resp [(3, (.strat 5 .leaf)), (5, (.strat 3 .leaf))]))), (3, (.strat 6 .leaf)), (5,
  (.strat 6 .leaf)), (7, (.strat 6 .leaf))]))), (3, (.strat 2 (.resp [(6, (.strat 1 .leaf)), (1, (.strat 6
  .leaf)), (5, (.strat 6 .leaf)), (7, (.strat 6 .leaf))]))), (5, (.strat 2 (.resp [(6, (.strat 1 .leaf)),
  (1, (.strat 6 .leaf)), (3, (.strat 6 .leaf)), (7, (.strat 6 .leaf))]))), (7, (.strat 6 (.resp [(2, (.strat
  3 .leaf)), (1, (.strat 2 .leaf)), (3, (.strat 2 .leaf)), (5, (.strat 2 .leaf))])))]))), (1, (.strat 4
  (.resp [(2, (.strat 6 (.resp [(8, (.strat 3 .leaf)), (3, (.strat 8 .leaf)), (5, (.strat 8 .leaf)), (7,
  (.strat 8 .leaf))]))), (6, (.strat 2 (.resp [(8, (.strat 7 (.resp [(3, (.strat 5 .leaf)), (5, (.strat 3
  .leaf))]))), (3, (.strat 8 .leaf)), (5, (.strat 8 .leaf)), (7, (.strat 8 .leaf))]))), (8, (.strat 2 (.resp
  [(6, (.strat 7 (.resp [(3, (.strat 5 .leaf)), (5, (.strat 3 .leaf))]))), (3, (.strat 6 .leaf)), (5,
  (.strat 6 .leaf)), (7, (.strat 6 .leaf))]))), (3, (.strat 2 (.resp [(6, (.strat 8 .leaf)), (8, (.strat 6
  .leaf)), (5, (.strat 6 .leaf)), (7, (.strat 6 .leaf))]))), (5, (.strat 2 (.resp [(6, (.strat 8 .leaf)),
  (8, (.strat 6 .leaf)), (3, (.strat 6 .leaf)), (7, (.strat 6 .leaf))]))), (7, (.strat 2 (.resp [(6, (.strat
  8 .leaf)), (8, (.strat 6 .leaf)), (3, (.strat 6 .leaf)), (5, (.strat 6 .leaf))])))]))), (3, (.strat 4
  (.resp [(2, (.strat 6 (.resp [(8, (.strat 5 (.resp [(1, (.strat 7 .leaf)), (7, (.strat 1 .leaf))]))), (1,
  (.strat 8 .leaf)), (5, (.strat 8 .leaf)), (7, (.strat 8 .leaf))]))), (6, (.strat 2 (.resp [(8, (.strat 1
  .leaf)), (1, (.strat 8 .leaf)), (5, (.strat 8 .leaf)), (7, (.strat 8 .leaf))]))), (8, (.strat 2 (.resp
  [(6, (.strat 1 .leaf)), (1, (.strat 6 .leaf)), (5, (.strat 6 .leaf)), (7, (.strat 6 .leaf))]))), (1,
  (.strat 2 (.resp [(6, (.strat 8 .leaf)), (8, (.strat 6 .leaf)), (5, (.strat 6 .leaf)), (7, (.strat 6
  .leaf))]))), (5, (.strat 2 (.resp [(6, (.strat 8 .leaf)), (8, (.strat 6 .leaf)), (1, (.strat 6 .leaf)),
  (7, (.strat 6 .leaf))]))), (7, (.strat 2 (.resp [(6, (.strat 8 .leaf)), (8, (.strat 6 .leaf)), (1, (.strat
  6 .leaf)), (5, (.strat 6 .leaf))])))]))), (5, (.strat 4 (.resp [(2, (.strat 8 .leaf)), (6, (.strat 2
  (.resp [(8, (.strat 1 .leaf)), (1, (.strat 8 .leaf)), (3, (.strat 8 .leaf)), (7, (.strat 8 .leaf))]))),
  (8, (.strat 2 (.resp [(6, (.strat 1 .leaf)), (1, (.strat 6 .leaf)), (3, (.strat 6 .leaf)), (7, (.strat 6
  .leaf))]))), (1, (.strat 2 (.resp [(6, (.strat 8 .leaf)), (8, (.strat 6 .leaf)), (3, (.strat 6 .leaf)),
  (7, (.strat 6 .leaf))]))), (3, (.strat 2 (.resp [(6, (.strat 8 .leaf)), (8, (.strat 6 .leaf)), (1, (.strat
  6 .leaf)), (7, (.strat 6 .leaf))]))), (7, (.strat 2 (.resp [(6, (.strat 8 .leaf)), (8, (.strat 6 .leaf)),
  (1, (.strat 6 .leaf)), (3, (.strat 6 .leaf))])))]))), (7, (.strat 4 (.resp [(2, (.strat 6 (.resp [(8,
  (.strat 3 .leaf)), (1, (.strat 8 .leaf)), (3, (.strat 8 .leaf)), (5, (.strat 8 .leaf))]))), (6, (.strat 8
  .leaf)), (8, (.strat 6 (.resp [(2, (.strat 3 .leaf)), (1, (.strat 2 .leaf)), (3, (.strat 2 .leaf)), (5,
  (.strat 2 .leaf))]))), (1, (.strat 2 (.resp [(6, (.strat 8 .leaf)), (8, (.strat 6 .leaf)), (3, (.strat 6
  .leaf)), (5, (.strat 6 .leaf))]))), (3, (.strat 2 (.resp [(6, (.strat 8 .leaf)), (8, (.strat 6 .leaf)),
  (1, (.strat 6 .leaf)), (5, (.strat 6 .leaf))]))), (5, (.strat 2 (.resp [(6, (.strat 8 .leaf)), (8, (.strat
  6 .leaf)), (1, (.strat 6 .leaf)), (3, (.strat 6 .leaf))])))])))])

def certWC : Cert :=
  (.resp [(2, (.strat 1 (.resp [(6, (.strat 3 (.resp [(8, (.strat 5 .leaf)), (5, (.strat 8 (.resp [(7,
  .leaf)]))), (7, (.strat 8 (.resp [(5, .leaf)])))]))), (8, (.strat 5 (.resp [(6, (.strat 3 .leaf)), (3,
  (.strat 6 (.resp [(7, .leaf)]))), (7, (.strat 6 (.resp [(3, .leaf)])))]))), (3, (.strat 6 (.resp [(8,
  (.strat 5 (.resp [(7, .leaf)]))), (5, (.strat 8 (.resp [(7, .leaf)]))), (7, (.strat 8 (.resp [(5,
  .leaf)])))]))), (5, (.strat 8 (.resp [(6, (.strat 3 (.resp [(7, .leaf)]))), (3, (.strat 6 (.resp [(7,
  .leaf)]))), (7, (.strat 6 (.resp [(3, .leaf)])))]))), (7, (.strat 6 (.resp [(8, (.strat 5 (.resp [(3,
  .leaf)]))), (3, (.strat 8 (.resp [(5, .leaf)]))), (5, (.strat 8 (.resp [(3, .leaf)])))])))]))), (6,
  (.strat 3 (.resp [(2, (.strat 1 (.resp [(8, (.strat 5 .leaf)), (5, (.strat 8 (.resp [(7, .leaf)]))), (7,
  (.strat 8 (.resp [(5, .leaf)])))]))), (8, (.strat 5 .leaf)), (1, (.strat 2 (.resp [(8, (.strat 5 .leaf)),
  (5, (.strat 8 (.resp [(7, .leaf)]))), (7, (.strat 8 (.resp [(5, .leaf)])))]))), (5, (.strat 2 (.resp [(8,
  (.strat 7 (.resp [(1, .leaf)]))), (1, (.strat 8 (.resp [(7, .leaf)]))), (7, (.strat 8 (.resp [(1,
  .leaf)])))]))), (7, (.strat 8 (.resp [(2, (.strat 1 (.resp [(5, .leaf)]))), (1, (.strat 2 (.resp [(5,
  .leaf)]))), (5, (.strat 2 (.resp [(1, .leaf)])))])))]))), (8, (.strat 1 (.resp [(2, (.strat 5 (.resp [(6,
  (.strat 3 .leaf)), (3, (.strat 6 (.resp [(7, .leaf)]))), (7, (.strat 6 (.resp [(3, .leaf)])))]))), (6,
  (.strat 7 .leaf)), (3, (.strat 6 (.resp [(2, (.strat 5 (.resp [(7, .leaf)]))), (5, (.strat 2 .leaf)), (7,
  (.strat 2 .leaf))]))), (5, (.strat 2 (.resp [(6, (.strat 7 .leaf)), (3, (.strat 6 .leaf)), (7, (.strat 6
  .leaf))]))), (7, (.strat 6 (.resp [(2, (.strat 5 (.resp [(3, .leaf)]))), (3, (.strat 2 .leaf)), (5,
  (.strat 2 .leaf))])))]))), (1, (.strat 2 (.resp [(6, (.strat 3 (.resp [(8, (.strat 5 .leaf)), (5, (.strat
  8 (.resp [(7, .leaf)]))), (7, (.strat 8 (.resp [(5, .leaf)])))]))), (8, (.strat 6 .leaf)), (3, (.strat 6
  .leaf)), (5, (.strat 6 .leaf)), (7, (.strat 6 .leaf))]))), (3, (.strat 6 (.resp [(2, (.strat 1 (.resp [(8,
  (.strat 5 (.resp [(7, .leaf)]))), (5, (.strat 8 (.resp [(7, .leaf)]))), (7, (.strat 8 (.resp [(5,
  .leaf)])))]))), (8, (.strat 2 .leaf)), (1, (.strat 2 .leaf)), (5, (.strat 2 .leaf)), (7, (.strat 2
  .leaf))]))), (5, (.strat 2 (.resp [(6, (.strat 3 (.resp [(8, (.strat 7 (.resp [(1, .leaf)]))), (1, (.strat
  8 (.resp [(7, .leaf)]))), (7, (.strat 8 (.resp [(1, .leaf)])))]))), (8, (.strat 6 .leaf)), (1, (.strat 6
  .leaf)), (3, (.strat 6 .leaf)), (7, (.strat 6 .leaf))]))), (7, (.strat 6 (.resp [(2, (.strat 1 (.resp [(8,
  (.strat 5 (.resp [(3, .leaf)]))), (3, (.strat 8 (.resp [(5, .leaf)]))), (5, (.strat 8 (.resp [(3,
  .leaf)])))]))), (8, (.strat 2 .leaf)), (1, (.strat 2 .leaf)), (3, (.strat 2 .leaf)), (5, (.strat 2
  .leaf))])))])

def certWD : Cert :=
  (.resp [(2, (.strat 6 (.resp [(8, (.strat 3 .leaf)), (3, (.strat 5 (.resp [(8, (.strat 7 .leaf)), (7,
  (.strat 8 .leaf))]))), (5, (.strat 3 .leaf)), (7, (.strat 8 (.resp [(3, (.strat 5 .leaf)), (5, (.strat 3
  .leaf))])))]))), (6, (.strat 2 .leaf)), (8, (.strat 2 .leaf)), (3, (.strat 2 .leaf)), (5, (.strat 2
  .leaf)), (7, (.strat 2 .leaf))])

def certWE : Cert :=
  (.resp [(6, (.strat 3 (.resp [(8, (.strat 5 .leaf)), (5, (.strat 8 (.resp [(7, .leaf)]))), (7, (.strat 8
  (.resp [(5, .leaf)])))]))), (8, (.strat 6 .leaf)), (3, (.strat 6 .leaf)), (5, (.strat 6 .leaf)), (7,
  (.strat 6 .leaf))])

def certWF : Cert :=
  (.strat 6 .leaf)

def certWG : Cert :=
  (.strat 6 .leaf)

def certWH : Cert :=
  (.resp [(8, (.strat 3 .leaf)), (3, (.strat 5 (.resp [(8, (.strat 7 .leaf)), (7, (.strat 8 .leaf))]))), (5,
  (.strat 3 .leaf)), (7, (.strat 8 (.resp [(3, (.strat 5 .leaf)), (5, (.strat 3 .leaf))])))])

def certWI : Cert :=
  (.resp [(8, (.strat 5 .leaf)), (5, (.strat 8 (.resp [(7, .leaf)]))), (7, (.strat 8 (.resp [(5,
  .leaf)])))])

def certWJ : Cert :=
  (.resp [(8, (.strat 7 .leaf)), (7, (.strat 8 .leaf))])


theorem noLose_empty_X : noLose Mark.X 9 createEmptyBoard true = true :=
  nlCheck_noLose Mark.X 9 createEmptyBoard true certNLX (by decide)

theorem noLose_empty_O : noLose Mark.O 9 createEmptyBoard true = true :=
  nlCheck_noLose Mark.O 9 createEmptyBoard true certNLO (by decide)

/-- C2: when the searching side `s` plays `findBestMove` at depth 9 from
the empty board against arbitrary legal opponent replies, no reachable
terminal board is a win for the opponent of `s`. -/
theorem claim_C2 (s : Mark) (f : Board → Mark → Int) (b : Board) (t : Bool)
    (h : Reaches s f b t) (hterm : (isTerminal b).terminal = true) :
    (isTerminal b).winner ≠ some (WinInfo.mark (getOpponent s)) := by
  have hbase : noLose s 9 createEmptyBoard true = true := by
    cases s
    · exact noLose_empty_X
    · exact noLose_empty_O
  have hval := (reaches_invariant s f hbase h).2
  rw [minimax_terminal b 0 t s f 9 hterm] at hval
  intro hw
  rw [hw] at hval
  have hne : ¬ (some (WinInfo.mark (getOpponent s)) = some (WinInfo.mark s)) := by
    intro hcontra
    exact getOpponent_ne s (WinInfo.mark.inj (Option.some.inj hcontra))
  rw [if_neg hne, if_pos rfl] at hval
  have := iv_le_iv.mp hval
  norm_num at this

set_option maxHeartbeats 2000000 in
theorem wFactA : noWin Mark.X 9 createEmptyBoard true = true :=
  nwCheck_noWin Mark.X 9 createEmptyBoard true certWA (by decide)

theorem wFactB : noLose Mark.X 8 gW1 false = true :=
  nlCheck_noLose Mark.X 8 gW1 false certWB (by decide)

theorem wFactC : noWin Mark.X 7 gW2 true = true :=
  nwCheck_noWin Mark.X 7 gW2 true certWC (by decide)

theorem wFactD : noLose Mark.X 6 gW3 false = true :=
  nlCheck_noLose Mark.X 6 gW3 false certWD (by decide)

theorem wFactE : noWin Mark.X 5 gW4 true = true :=
  nwCheck_noWin Mark.X 5 gW4 true certWE (by decide)

theorem wFactF : noLose Mark.X 4 (makeMove gW4 3 Mark.X) false = false :=
  nlRefute_noLose Mark.X 4 (makeMove gW4 3 Mark.X) false certWF (by decide)

theorem wFactG : noLose Mark.X 4 (makeMove gW4 5 Mark.X) false = false :=
  nlRefute_noLose Mark.X 4 (makeMove gW4 5 Mark.X) false certWG (by decide)

theorem wFactH : noLose Mark.X 4 gW5 false = true :=
  nlCheck_noLose Mark.X 4 gW5 false certWH (by decide)

theorem wFactI : noWin Mark.X 3 gW6 true = true :=
  nwCheck_noWin Mark.X 3 gW6 true certWI (by decide)

theorem wFactJ : noLose Mark.X 2 gW7 false = true :=
  nlCheck_noLose Mark.X 2 gW7 false certWJ (by decide)

/-- C2 witness: the concrete play X0 O4 X1 O2 X6 O3 X5 O7 X8 - every X
move the computed `findBestMove` choice - reaches the full board `gW9`,
a terminal draw, which indeed is not a win for X's opponent. -/
theorem claim_C2_witness :
    (isTerminal gW9).terminal = true ∧
    (isTerminal gW9).winner ≠ some (WinInfo.mark (getOpponent Mark.X)) := by
  have r0 : Reaches Mark.X (fun _ _ => (0 : Int)) createEmptyBoard true := Reaches.init
  have hbm1 : (findBestMove createEmptyBoard Mark.X (fun _ _ => (0 : Int)) 9).bestMove =
      some 0 :=
    findBestMove_draw_step Mark.X _ createEmptyBoard [] [1, 2, 3, 4, 5, 6, 7, 8] 0
      (by decide) (by decide) (by decide) wFactA (by intro m hm; cases hm) wFactB
  have r1 : Reaches Mark.X (fun _ _ => (0 : Int)) gW1 false :=
    Reaches.aiMove r0 (by decide) hbm1
  have r2 : Reaches Mark.X (fun _ _ => (0 : Int)) gW2 true :=
    Reaches.oppMove r1 (by decide) (by decide)
  have hbm2 : (findBestMove gW2 Mark.X (fun _ _ => (0 : Int)) 9).bestMove = some 1 :=
    findBestMove_draw_step Mark.X _ gW2 [] [2, 3, 5, 6, 7, 8] 1
      (by decide) (by decide) (by decide) wFactC (by intro m hm; cases hm) wFactD
  have r3 : Reaches Mark.X (fun _ _ => (0 : Int)) gW3 false :=
    Reaches.aiMove r2 (by decide) hbm2
  have r4 : Reaches Mark.X (fun _ _ => (0 : Int)) gW4 true :=
    Reaches.oppMove r3 (by decide) (by decide)
  have hbm3 : (findBestMove gW4 Mark.X (fun _ _ => (0 : Int)) 9).bestMove = some 6 :=
    findBestMove_draw_step Mark.X _ gW4 [3, 5] [7, 8] 6
      (by decide) (by decide) (by decide) wFactE
      (by
        intro m hm
        fin_cases hm
        · exact wFactF
        · exact wFactG)
      wFactH
  have r5 : Reaches Mark.X (fun _ _ => (0 : Int)) gW5 false :=
    Reaches.aiMove r4 (by decide) hbm3
  have r6 : Reaches Mark.X (fun _ _ => (0 : Int)) gW6 true :=
    Reaches.oppMove r5 (by decide) (by decide)
  have hbm4 : (findBestMove gW6 Mark.X (fun _ _ => (0 : Int)) 9).bestMove = some 5 :=
    findBestMove_draw_step Mark.X _ gW6 [] [7, 8] 5
      (by decide) (by decide) (by decide) wFactI (by intro m hm; cases hm) wFactJ
  have r7 : Reaches Mark.X (fun _ _ => (0 : Int)) gW7 false :=
    Reaches.aiMove r6 (by decide) hbm4
  have r8 : Reaches Mark.X (fun _ _ => (0 : Int)) gW8 true :=
    Reaches.oppMove r7 (by decide) (by decide)
  have hbm5 : (findBestMove gW8 Mark.X (fun _ _ => (0 : Int)) 9).bestMove = some 8 :=
    findBestMove_single gW8 Mark.X _ 9 8 (by decide)
  have r9 : Reaches Mark.X (fun _ _ => (0 : Int)) gW9 false :=
    Reaches.aiMove r8 (by decide) hbm5
  exact ⟨by decide, claim_C2 Mark.X (fun _ _ => (0 : Int)) gW9 false r9 (by decide)⟩

end TTT
